import Mathlib

/-!
# Volume-snapshot lifecycle manager (pkg/kube/snapshot)

A shallow embedding of `snapshot.go`, `snapshot_alpha.go` and `snapshot_beta.go`.

* Go `error` values are `Option GoError` (`none` is `nil`).
* A Go function that can hit a nil-pointer dereference returns a `Res`.
* The typed clients (`snapshotclient.Interface`, `kubernetes.Interface`) are records of
  functions over an abstract platform state; every call that can write returns the next state.
* `ctx` is the number of further polls the caller's context allows before it is done.
-/

set_option autoImplicit false

namespace Kanister

/-! ## Go errors -/

/-- Go error values met in the package: a platform status error (with its reason), a plain
message (`errors.New`, `errors.Errorf`, `fmt.Errorf`), a wrapped error (`errors.Wrap`) and the
error of a finished context. -/
inductive GoError where
  | status (reason : String) (message : String)
  | text (message : String)
  | wrapped (cause : GoError) (message : String)
  | context (message : String)
  deriving DecidableEq, Repr

/-- The method `Error()`: the message of an error. -/
def GoError.Error : GoError → String
  | .status _ message => message
  | .text message => message
  | .wrapped cause message => message ++ ": " ++ cause.Error
  | .context message => message

/-- The function `apierrors.IsNotFound`: the error is a status error whose reason is
`metav1.StatusReasonNotFound`; `nil` is not one. -/
def IsNotFound (err : Option GoError) : Bool :=
  match err with
  | some (.status reason _) => reason == "NotFound"
  | _ => false

/-- The function `errors.Wrap` of github.com/pkg/errors: annotates `err` with a message;
when `err` is nil, `Wrap` returns nil. -/
def errorsWrap (err : Option GoError) (message : String) : Option GoError :=
  match err with
  | none => none
  | some e => some (.wrapped e message)

/-- Outcome of a Go call that may dereference a nil pointer: it returns, or the runtime
faults. -/
inductive Res (α : Type) where
  | ret (a : α)
  | nilDeref
  deriving DecidableEq, Repr

-- results of client reads can be compared
deriving instance DecidableEq for Except

/-! ## Constants of snapshot.go -/

def snapshotKind : String := "VolumeSnapshot"
def pvcKind : String := "PersistentVolumeClaim"
def snapshotVersionAlpha : String := "v1alpha1"
def snapshotVersionBeta : String := "v1beta1"
def snapshotGroup : String := "snapshot.storage.k8s.io"
def volumeSnapClassesRes : String := "volumesnapshotclasses"

/-! ## Shared object types -/

/-- The part of `metav1.ObjectMeta` the package reads or writes. -/
structure ObjectMeta where
  Name : String := ""
  Namespace : String := ""
  Annotations : List (String × String) := []
  deriving DecidableEq, Repr

/-- The type `corev1.ObjectReference` (kind, namespace, name). -/
structure ObjectReference where
  Kind : String := ""
  Namespace : String := ""
  Name : String := ""
  deriving DecidableEq, Repr

/-- The type `corev1.TypedLocalObjectReference` (kind, name). -/
structure TypedLocalObjectReference where
  Kind : String := ""
  Name : String := ""
  deriving DecidableEq, Repr

/-- The string type `DeletionPolicy` ("Delete" or "Retain"). -/
abbrev DeletionPolicy := String

/-- Source represents the CSI source of the Volumesnapshot. -/
structure Source where
  Handle : String
  Driver : String
  RestoreSize : Option Int
  VolumeSnapshotClassName : Option String
  deriving DecidableEq, Repr

/-! ## The typed clients -/

/-- Result of a client `Create` call: the created object with a nil error, or an error
together with whatever object pointer the client hands back (possibly nil). -/
inductive CreateResult (α : Type) where
  | created (obj : α)
  | failed (obj : Option α) (err : GoError)
  deriving DecidableEq, Repr

/-- The calls of `snapshotclient.Interface` the package makes, for snapshot type `S`, content
type `C` and class type `K`, over a platform state `σ`. Reads leave the state alone; `elapse`
is what the platform does to the state during one poll interval. Namespaced calls take the
namespace first, then the name. -/
structure SnapshotClient (S C K σ : Type) where
  listClasses : σ → Except GoError (List K)
  getClass : σ → String → Except GoError K
  getSnapshot : σ → String → String → Except GoError S
  createSnapshot : σ → String → S → σ × CreateResult S
  deleteSnapshot : σ → String → String → σ × Option GoError
  getContent : σ → String → Except GoError C
  createContent : σ → C → σ × CreateResult C
  elapse : σ → σ

/-- The one call of `kubernetes.Interface` the package makes: the error of
`CoreV1().PersistentVolumeClaims(namespace).Get(name)`. -/
structure KubeClient (σ : Type) where
  getPVC : σ → String → String → Option GoError

/-! ## Readiness poller -/

/-- The error a finished context reports. -/
def ctxErr : GoError := .context "context done"

/-- Modelled from the spec: `poll.Wait` (pkg/poll is not among the sources). The condition is
invoked; a non-nil error ends the wait with that error, `done = true` ends it with nil, and
otherwise the caller sleeps one interval (the platform state moves by `elapse`) and polls
again, unless the context is done, which ends the wait with the context's error. `ctx` counts
the polls the context still allows after the current one. -/
def pollWait {σ : Type} (elapse : σ → σ) (cond : σ → Res (Bool × Option GoError)) :
    Nat → σ → σ × Res (Option GoError)
  | 0, s =>
    match cond s with
    | .nilDeref => (s, .nilDeref)
    | .ret (_, some err) => (s, .ret (some err))
    | .ret (true, none) => (s, .ret none)
    | .ret (false, none) => (s, .ret (some ctxErr))
  | ctx + 1, s =>
    match cond s with
    | .nilDeref => (s, .nilDeref)
    | .ret (_, some err) => (s, .ret (some err))
    | .ret (true, none) => (s, .ret none)
    | .ret (false, none) => pollWait elapse cond ctx (elapse s)

/-! ## The current-generation schema (v1beta1) -/

namespace v1beta1

/-- The type `VolumeSnapshotError`; the message is a pointer. -/
structure VolumeSnapshotError where
  Time : Option Nat := none
  Message : Option String := none
  deriving DecidableEq, Repr

structure VolumeSnapshotSource where
  PersistentVolumeClaimName : Option String := none
  VolumeSnapshotContentName : Option String := none
  deriving DecidableEq, Repr

structure VolumeSnapshotSpec where
  Source : VolumeSnapshotSource := {}
  VolumeSnapshotClassName : Option String := none
  deriving DecidableEq, Repr

structure VolumeSnapshotStatus where
  BoundVolumeSnapshotContentName : Option String := none
  CreationTime : Option Nat := none
  ReadyToUse : Option Bool := none
  Error : Option VolumeSnapshotError := none
  deriving DecidableEq, Repr

/-- The type `VolumeSnapshot`; its status is a pointer, nil until the platform writes it. -/
structure VolumeSnapshot where
  ObjectMeta : ObjectMeta := {}
  Spec : VolumeSnapshotSpec := {}
  Status : Option VolumeSnapshotStatus := none
  deriving DecidableEq, Repr

structure VolumeSnapshotContentSource where
  VolumeHandle : Option String := none
  SnapshotHandle : Option String := none
  deriving DecidableEq, Repr

structure VolumeSnapshotContentSpec where
  VolumeSnapshotRef : ObjectReference := {}
  DeletionPolicy : DeletionPolicy := ""
  Driver : String := ""
  VolumeSnapshotClassName : Option String := none
  Source : VolumeSnapshotContentSource := {}
  deriving DecidableEq, Repr

structure VolumeSnapshotContentStatus where
  SnapshotHandle : Option String := none
  CreationTime : Option Int := none
  RestoreSize : Option Int := none
  ReadyToUse : Option Bool := none
  Error : Option VolumeSnapshotError := none
  deriving DecidableEq, Repr

/-- The type `VolumeSnapshotContent`; its status is a pointer. -/
structure VolumeSnapshotContent where
  ObjectMeta : ObjectMeta := {}
  Spec : VolumeSnapshotContentSpec := {}
  Status : Option VolumeSnapshotContentStatus := none
  deriving DecidableEq, Repr

structure VolumeSnapshotClass where
  ObjectMeta : ObjectMeta := {}
  Driver : String := ""
  DeletionPolicy : DeletionPolicy := ""
  deriving DecidableEq, Repr

end v1beta1

/-- The client of the current generation: `snapCli.SnapshotV1beta1()`. -/
abbrev BetaClient (σ : Type) :=
  SnapshotClient v1beta1.VolumeSnapshot v1beta1.VolumeSnapshotContent v1beta1.VolumeSnapshotClass σ

/-! ## snapshot_beta.go -/

namespace snapshotBeta

variable {σ : Type}

/-- The loop of `GetVolumeSnapshotClass` over `vscl.Items`: the name of the first class whose
annotations map `annotation` to "true". -/
def firstAnnotated ( annotation : String) : List v1beta1.VolumeSnapshotClass → Option String
  | [] => none
  | vsc :: rest =>
    match vsc.ObjectMeta.Annotations.lookup annotation with
    | some val => if val = "true" then some vsc.ObjectMeta.Name else firstAnnotated annotation rest
    | none => firstAnnotated annotation rest

def GetVolumeSnapshotClass ( annotation : String) (snapCli : BetaClient σ) (s : σ) :
    String × Option GoError :=
  match snapCli.listClasses s with
  | .error err => ("", errorsWrap (some err) "Failed to get VolumeSnapshotClasses in the cluster")
  | .ok items =>
    if items.length = 0 then
      -- here `err` is the nil error of the listing call
      ("", errorsWrap none "Failed to find any VolumeSnapshotClass in the cluster")
    else
      match firstAnnotated annotation items with
      | some name => (name, none)
      | none =>
        ("", some (.text "Failed to find VolumesnapshotClass with K10 annotation in the cluster"))

def Get (snapCli : BetaClient σ) (s : σ) (name ns : String) :
    Except GoError v1beta1.VolumeSnapshot :=
  snapCli.getSnapshot s ns name

def getContent (snapCli : BetaClient σ) (s : σ) (contentName : String) :
    Except GoError v1beta1.VolumeSnapshotContent :=
  snapCli.getContent s contentName

def getDeletionPolicyFromClass (snapCli : BetaClient σ) (s : σ) (snapClassName : String) :
    Except GoError DeletionPolicy :=
  match snapCli.getClass s snapClassName with
  | .error err => .error (.wrapped err ("Failed to find VolumeSnapshotClass: " ++ snapClassName))
  | .ok vsc => .ok vsc.DeletionPolicy

/-- The condition function `WaitOnReadyToUse` hands to `poll.Wait`: one poll. -/
def waitCondition (snapCli : BetaClient σ) (snapshotName ns : String) (s : σ) :
    Res (Bool × Option GoError) :=
  match snapCli.getSnapshot s ns snapshotName with
  | .error err => .ret (false, some err)
  | .ok snap =>
    match snap.Status with
    | none => .nilDeref
    | some status =>
      match status.Error with
      | some e =>
        match e.Message with
        | none => .nilDeref
        | some message => .ret (false, some (.text message))
      | none =>
        .ret ((status.ReadyToUse != none && status.ReadyToUse == some true
                && status.CreationTime != none), none)

def WaitOnReadyToUse (ctx : Nat) (snapCli : BetaClient σ) (s : σ) (snapshotName ns : String) :
    σ × Res (Option GoError) :=
  pollWait snapCli.elapse (waitCondition snapCli snapshotName ns) ctx s

def Create (ctx : Nat) (kubeCli : KubeClient σ) (snapCli : BetaClient σ) (s : σ)
    (name ns volumeName : String) (snapshotClass : Option String) (waitForReady : Bool) :
    σ × Res (Option GoError) :=
  match kubeCli.getPVC s ns volumeName with
  | some err =>
    if IsNotFound (some err) then
      (s, .ret (some (.text ("Failed to find PVC " ++ volumeName ++ ", Namespace " ++ ns))))
    else
      (s, .ret (some (.text ("Failed to query PVC " ++ volumeName ++ ", Namespace " ++ ns
        ++ ": " ++ err.Error))))
  | none =>
    let snap : v1beta1.VolumeSnapshot :=
      { ObjectMeta := { Name := name, Namespace := ns },
        Spec := { Source := { PersistentVolumeClaimName := some volumeName },
                  VolumeSnapshotClassName := snapshotClass } }
    match snapCli.createSnapshot s ns snap with
    | (s1, .failed _ err) => (s1, .ret (some err))
    | (s1, .created _) =>
      if !waitForReady then (s1, .ret none)
      else
        match WaitOnReadyToUse ctx snapCli s1 name ns with
        | (s2, .nilDeref) => (s2, .nilDeref)
        | (s2, .ret (some err)) => (s2, .ret (some err))
        | (s2, .ret none) =>
          match Get snapCli s2 name ns with
          | .error err => (s2, .ret (some err))
          | .ok _ => (s2, .ret none)

def GetSource (snapCli : BetaClient σ) (s : σ) (snapshotName ns : String) :
    Res (Except GoError Source) :=
  match Get snapCli s snapshotName ns with
  | .error err =>
    .ret (.error (.text ("Failed to get snapshot, VolumeSnapshot: " ++ snapshotName
      ++ ", Error: " ++ err.Error)))
  | .ok snap =>
    match snap.Status with
    | none => .nilDeref
    | some status =>
      match status.BoundVolumeSnapshotContentName with
      | none => .nilDeref
      | some boundName =>
        match getContent snapCli s boundName with
        | .error err =>
          .ret (.error (.text ("Failed to get snapshot content, VolumeSnapshot: " ++ snapshotName
            ++ ", VolumeSnapshotContent: " ++ boundName ++ ", Error: " ++ err.Error)))
        | .ok cont =>
          match cont.Status with
          | none => .nilDeref
          | some contStatus =>
            match contStatus.SnapshotHandle with
            | none => .nilDeref
            | some handle =>
              .ret (.ok { Handle := handle,
                          Driver := cont.Spec.Driver,
                          RestoreSize := contStatus.RestoreSize,
                          VolumeSnapshotClassName := cont.Spec.VolumeSnapshotClassName })

/-- The function `CreateFromSource`; `uuid` is the value `uuid.NewUUID()` returns to it. -/
def CreateFromSource (ctx : Nat) (uuid : String) (snapCli : BetaClient σ) (s : σ)
    (source : Source) (snapshotName ns : String) (waitForReady : Bool) :
    σ × Res (Option GoError) :=
  match source.VolumeSnapshotClassName with
  | none => (s, .nilDeref)
  | some className =>
    match getDeletionPolicyFromClass snapCli s className with
    | .error err =>
      (s, .ret (errorsWrap (some err) "Failed to get DeletionPolicy from VolumeSnapshotClass"))
    | .ok deletionPolicy =>
      let contentName := snapshotName ++ "-content-" ++ uuid
      let content : v1beta1.VolumeSnapshotContent :=
        { ObjectMeta := { Name := contentName },
          Spec := { Driver := source.Driver,
                    Source := { SnapshotHandle := some source.Handle },
                    VolumeSnapshotRef :=
                      { Kind := snapshotKind, Namespace := ns, Name := snapshotName },
                    VolumeSnapshotClassName := source.VolumeSnapshotClassName,
                    DeletionPolicy := deletionPolicy } }
      let snap : v1beta1.VolumeSnapshot :=
        { ObjectMeta := { Name := snapshotName },
          Spec := { Source := { VolumeSnapshotContentName := some content.ObjectMeta.Name },
                    VolumeSnapshotClassName := content.Spec.VolumeSnapshotClassName } }
      match snapCli.createContent s content with
      | (s1, .failed none _) => (s1, .nilDeref)
      | (s1, .failed (some content1) err) =>
        (s1, .ret (some (.text ("Failed to create content, VolumesnapshotContent: "
          ++ content1.ObjectMeta.Name ++ ", Error: " ++ err.Error))))
      | (s1, .created _) =>
        match snapCli.createSnapshot s1 ns snap with
        | (s2, .failed none _) => (s2, .nilDeref)
        | (s2, .failed (some snap1) err) =>
          (s2, .ret (some (.text ("Failed to create content, Volumesnapshot: "
            ++ snap1.ObjectMeta.Name ++ ", Error: " ++ err.Error))))
        | (s2, .created snap1) =>
          if !waitForReady then (s2, .ret none)
          else WaitOnReadyToUse ctx snapCli s2 snap1.ObjectMeta.Name snap1.ObjectMeta.Namespace

def Delete (snapCli : BetaClient σ) (s : σ) (name ns : String) : σ × Option GoError :=
  match snapCli.deleteSnapshot s ns name with
  | (s1, err) =>
    if !IsNotFound err then (s1, err)
    else
      -- If the Snapshot does not exist, that's an acceptable error and we ignore it
      (s1, none)

def Clone (ctx : Nat) (uuid : String) (snapCli : BetaClient σ) (s : σ)
    (name ns cloneName cloneNamespace : String) (waitForReady : Bool) :
    σ × Res (Option GoError) :=
  match Get snapCli s name ns with
  | .error err => (s, .ret (some err))
  | .ok snap =>
    match snap.Status with
    | none => (s, .nilDeref)
    | some status =>
      if status.ReadyToUse = none || status.ReadyToUse = some false then
        (s, .ret (some (.text ("Original snapshot is not ready, VolumeSnapshot: " ++ cloneName
          ++ ", Namespace: " ++ cloneNamespace))))
      else if snap.Spec.Source.VolumeSnapshotContentName = none
          || snap.Spec.Source.VolumeSnapshotContentName = some "" then
        (s, .ret (some (.text ("Original snapshot does not have content, VolumeSnapshot: "
          ++ cloneName ++ ", Namespace: " ++ cloneNamespace))))
      else
        match Get snapCli s cloneName cloneNamespace with
        | .ok _ =>
          (s, .ret (some (.text ("Target snapshot already exists in target namespace, "
            ++ "Volumesnapshot: " ++ cloneName ++ ", Namespace: " ++ cloneNamespace))))
        | .error err =>
          if !IsNotFound (some err) then
            (s, .ret (some (.text ("Failed to query target Volumesnapshot: " ++ cloneName
              ++ ", Namespace: " ++ cloneNamespace ++ ": " ++ err.Error))))
          else
            match GetSource snapCli s name ns with
            | .nilDeref => (s, .nilDeref)
            | .ret (.error _) => (s, .ret (some (.text "Failed to get source")))
            | .ret (.ok src) =>
              CreateFromSource ctx uuid snapCli s src cloneName cloneNamespace waitForReady

end snapshotBeta

/-! ## The legacy schema (v1alpha1) -/

namespace v1alpha1

/-- The type `storage.VolumeError`; the message is a plain string. -/
structure VolumeError where
  Time : Nat := 0
  Message : String := ""
  deriving DecidableEq, Repr

structure VolumeSnapshotSpec where
  Source : Option TypedLocalObjectReference := none
  SnapshotContentName : String := ""
  VolumeSnapshotClassName : Option String := none
  deriving DecidableEq, Repr

structure VolumeSnapshotStatus where
  CreationTime : Option Nat := none
  ReadyToUse : Bool := false
  Error : Option VolumeError := none
  deriving DecidableEq, Repr

/-- The type `VolumeSnapshot`; its status is a value, never nil. -/
structure VolumeSnapshot where
  ObjectMeta : ObjectMeta := {}
  Spec : VolumeSnapshotSpec := {}
  Status : VolumeSnapshotStatus := {}
  deriving DecidableEq, Repr

structure CSIVolumeSnapshotSource where
  Driver : String := ""
  SnapshotHandle : String := ""
  CreationTime : Option Int := none
  RestoreSize : Option Int := none
  deriving DecidableEq, Repr

/-- The type `VolumeSnapshotSource` embedded in the content spec; `CSI` is a pointer. -/
structure VolumeSnapshotSource where
  CSI : Option CSIVolumeSnapshotSource := none
  deriving DecidableEq, Repr

structure VolumeSnapshotContentSpec where
  VolumeSnapshotSource : VolumeSnapshotSource := {}
  VolumeSnapshotRef : Option ObjectReference := none
  VolumeSnapshotClassName : Option String := none
  DeletionPolicy : Option DeletionPolicy := none
  deriving DecidableEq, Repr

structure VolumeSnapshotContent where
  ObjectMeta : ObjectMeta := {}
  Spec : VolumeSnapshotContentSpec := {}
  deriving DecidableEq, Repr

structure VolumeSnapshotClass where
  ObjectMeta : ObjectMeta := {}
  Snapshotter : String := ""
  DeletionPolicy : Option DeletionPolicy := none
  deriving DecidableEq, Repr

end v1alpha1

/-- The client of the legacy generation: `snapCli.VolumesnapshotV1alpha1()`. -/
abbrev AlphaClient (σ : Type) :=
  SnapshotClient v1alpha1.VolumeSnapshot v1alpha1.VolumeSnapshotContent
    v1alpha1.VolumeSnapshotClass σ

/-! ## snapshot_alpha.go -/

namespace snapshotAlpha

variable {σ : Type}

/-- The loop of `GetVolumeSnapshotClass` over `vscl.Items`: the name of the first class whose
annotations map `annotation` to "true". -/
def firstAnnotated ( annotation : String) : List v1alpha1.VolumeSnapshotClass → Option String
  | [] => none
  | vsc :: rest =>
    match vsc.ObjectMeta.Annotations.lookup annotation with
    | some val => if val = "true" then some vsc.ObjectMeta.Name else firstAnnotated annotation rest
    | none => firstAnnotated annotation rest

def GetVolumeSnapshotClass ( annotation : String) (snapCli : AlphaClient σ) (s : σ) :
    String × Option GoError :=
  match snapCli.listClasses s with
  | .error err => ("", errorsWrap (some err) "Failed to get VolumeSnapshotClasses in the cluster")
  | .ok items =>
    if items.length = 0 then
      -- here `err` is the nil error of the listing call
      ("", errorsWrap none "Failed to find any VolumeSnapshotClass in the cluster")
    else
      match firstAnnotated annotation items with
      | some name => (name, none)
      | none =>
        ("", some (.text "Failed to find VolumesnapshotClass with K10 annotation in the cluster"))

def Get (snapCli : AlphaClient σ) (s : σ) (name ns : String) :
    Except GoError v1alpha1.VolumeSnapshot :=
  snapCli.getSnapshot s ns name

def getContent (snapCli : AlphaClient σ) (s : σ) (contentName : String) :
    Except GoError v1alpha1.VolumeSnapshotContent :=
  snapCli.getContent s contentName

def getDeletionPolicyFromClass (snapCli : AlphaClient σ) (s : σ) (snapClassName : String) :
    Except GoError (Option DeletionPolicy) :=
  match snapCli.getClass s snapClassName with
  | .error err => .error (.wrapped err ("Failed to find VolumeSnapshotClass: " ++ snapClassName))
  | .ok vsc => .ok vsc.DeletionPolicy

/-- The condition function `WaitOnReadyToUse` hands to `poll.Wait`: one poll. -/
def waitCondition (snapCli : AlphaClient σ) (snapshotName ns : String) (s : σ) :
    Res (Bool × Option GoError) :=
  match snapCli.getSnapshot s ns snapshotName with
  | .error err => .ret (false, some err)
  | .ok snap =>
    match snap.Status.Error with
    | some e => .ret (false, some (.text e.Message))
    | none => .ret ((snap.Status.ReadyToUse && snap.Status.CreationTime != none), none)

def WaitOnReadyToUse (ctx : Nat) (snapCli : AlphaClient σ) (s : σ) (snapshotName ns : String) :
    σ × Res (Option GoError) :=
  pollWait snapCli.elapse (waitCondition snapCli snapshotName ns) ctx s

def Create (ctx : Nat) (kubeCli : KubeClient σ) (snapCli : AlphaClient σ) (s : σ)
    (name ns volumeName : String) (snapshotClass : Option String) (waitForReady : Bool) :
    σ × Res (Option GoError) :=
  match kubeCli.getPVC s ns volumeName with
  | some err =>
    if IsNotFound (some err) then
      (s, .ret (some (.text ("Failed to find PVC " ++ volumeName ++ ", Namespace " ++ ns))))
    else
      (s, .ret (some (.text ("Failed to query PVC " ++ volumeName ++ ", Namespace " ++ ns
        ++ ": " ++ err.Error))))
  | none =>
    let snap : v1alpha1.VolumeSnapshot :=
      { ObjectMeta := { Name := name, Namespace := ns },
        Spec := { Source := some { Kind := pvcKind, Name := volumeName },
                  VolumeSnapshotClassName := snapshotClass } }
    match snapCli.createSnapshot s ns snap with
    | (s1, .failed _ err) => (s1, .ret (some err))
    | (s1, .created _) =>
      if !waitForReady then (s1, .ret none)
      else
        match WaitOnReadyToUse ctx snapCli s1 name ns with
        | (s2, .nilDeref) => (s2, .nilDeref)
        | (s2, .ret (some err)) => (s2, .ret (some err))
        | (s2, .ret none) =>
          match Get snapCli s2 name ns with
          | .error err => (s2, .ret (some err))
          | .ok _ => (s2, .ret none)

def GetSource (snapCli : AlphaClient σ) (s : σ) (snapshotName ns : String) :
    Res (Except GoError Source) :=
  match Get snapCli s snapshotName ns with
  | .error err =>
    .ret (.error (.text ("Failed to get snapshot, VolumeSnapshot: " ++ snapshotName
      ++ ", Error: " ++ err.Error)))
  | .ok snap =>
    match getContent snapCli s snap.Spec.SnapshotContentName with
    | .error err =>
      .ret (.error (.text ("Failed to get snapshot content, VolumeSnapshot: " ++ snapshotName
        ++ ", VolumeSnapshotContent: " ++ snap.Spec.SnapshotContentName
        ++ ", Error: " ++ err.Error)))
    | .ok cont =>
      match cont.Spec.VolumeSnapshotSource.CSI with
      | none => .nilDeref
      | some csi =>
        .ret (.ok { Handle := csi.SnapshotHandle,
                    Driver := csi.Driver,
                    RestoreSize := csi.RestoreSize,
                    VolumeSnapshotClassName := cont.Spec.VolumeSnapshotClassName })

/-- The function `CreateFromSource`; `uuid` is the value `uuid.NewUUID()` returns to it. -/
def CreateFromSource (ctx : Nat) (uuid : String) (snapCli : AlphaClient σ) (s : σ)
    (source : Source) (snapshotName ns : String) (waitForReady : Bool) :
    σ × Res (Option GoError) :=
  match source.VolumeSnapshotClassName with
  | none => (s, .nilDeref)
  | some className =>
    match getDeletionPolicyFromClass snapCli s className with
    | .error err =>
      (s, .ret (errorsWrap (some err) "Failed to get DeletionPolicy from VolumeSnapshotClass"))
    | .ok deletionPolicy =>
      let contentName := snapshotName ++ "-content-" ++ uuid
      let content : v1alpha1.VolumeSnapshotContent :=
        { ObjectMeta := { Name := contentName },
          Spec := { VolumeSnapshotSource :=
                      { CSI := some { Driver := source.Driver,
                                      SnapshotHandle := source.Handle } },
                    VolumeSnapshotRef :=
                      some { Kind := snapshotKind, Namespace := ns, Name := snapshotName },
                    VolumeSnapshotClassName := source.VolumeSnapshotClassName,
                    DeletionPolicy := deletionPolicy } }
      let snap : v1alpha1.VolumeSnapshot :=
        { ObjectMeta := { Name := snapshotName },
          Spec := { SnapshotContentName := content.ObjectMeta.Name,
                    VolumeSnapshotClassName := content.Spec.VolumeSnapshotClassName } }
      match snapCli.createContent s content with
      | (s1, .failed none _) => (s1, .nilDeref)
      | (s1, .failed (some content1) err) =>
        (s1, .ret (some (.text ("Failed to create content, VolumesnapshotContent: "
          ++ content1.ObjectMeta.Name ++ ", Error: " ++ err.Error))))
      | (s1, .created _) =>
        match snapCli.createSnapshot s1 ns snap with
        | (s2, .failed none _) => (s2, .nilDeref)
        | (s2, .failed (some snap1) err) =>
          (s2, .ret (some (.text ("Failed to create content, Volumesnapshot: "
            ++ snap1.ObjectMeta.Name ++ ", Error: " ++ err.Error))))
        | (s2, .created snap1) =>
          if !waitForReady then (s2, .ret none)
          else WaitOnReadyToUse ctx snapCli s2 snap1.ObjectMeta.Name snap1.ObjectMeta.Namespace

def Delete (snapCli : AlphaClient σ) (s : σ) (name ns : String) : σ × Option GoError :=
  match snapCli.deleteSnapshot s ns name with
  | (s1, err) =>
    if !IsNotFound err then (s1, err)
    else
      -- If the Snapshot does not exist, that's an acceptable error and we ignore it
      (s1, none)

def Clone (ctx : Nat) (uuid : String) (snapCli : AlphaClient σ) (s : σ)
    (name ns cloneName cloneNamespace : String) (waitForReady : Bool) :
    σ × Res (Option GoError) :=
  match Get snapCli s name ns with
  | .error err => (s, .ret (some err))
  | .ok snap =>
    if !snap.Status.ReadyToUse then
      (s, .ret (some (.text ("Original snapshot is not ready, VolumeSnapshot: " ++ cloneName
        ++ ", Namespace: " ++ cloneNamespace))))
    else if snap.Spec.SnapshotContentName = "" then
      (s, .ret (some (.text ("Original snapshot does not have content, VolumeSnapshot: "
        ++ cloneName ++ ", Namespace: " ++ cloneNamespace))))
    else
      match Get snapCli s cloneName cloneNamespace with
      | .ok _ =>
        (s, .ret (some (.text ("Target snapshot already exists in target namespace, "
          ++ "Volumesnapshot: " ++ cloneName ++ ", Namespace: " ++ cloneNamespace))))
      | .error err =>
        if !IsNotFound (some err) then
          (s, .ret (some (.text ("Failed to query target Volumesnapshot: " ++ cloneName
            ++ ", Namespace: " ++ cloneNamespace ++ ": " ++ err.Error))))
        else
          match GetSource snapCli s name ns with
          | .nilDeref => (s, .nilDeref)
          | .ret (.error _) => (s, .ret (some (.text "Failed to get source")))
          | .ret (.ok src) =>
            CreateFromSource ctx uuid snapCli s src cloneName cloneNamespace waitForReady

end snapshotAlpha

/-! ## snapshot.go: the capability resolver -/

/-- The two implementations of the `Snapshotter` interface. -/
inductive Snapshotter where
  | snapshotAlpha
  | snapshotBeta
  deriving DecidableEq, Repr

/-- The type `schema.GroupVersionResource`. -/
structure GroupVersionResource where
  Group : String
  Version : String
  Resource : String
  deriving DecidableEq, Repr

/-- The dynamic client: the error of `dynCli.Resource(gvr).Namespace("").List(...)`. -/
structure DynamicClient where
  List : GroupVersionResource → Option GoError

/-- The function `NewSnapshotter`; `newDynamicClient` is what `kube.NewDynamicClient()`
returns to it. -/
def NewSnapshotter (newDynamicClient : Except GoError DynamicClient) :
    Option Snapshotter × Option GoError :=
  match newDynamicClient with
  | .error err => (none, some err)
  | .ok dynCli =>
    -- Check if alpha API supported
    let gvr : GroupVersionResource :=
      { Group := snapshotGroup, Version := snapshotVersionAlpha, Resource := volumeSnapClassesRes }
    let err := dynCli.List gvr
    if err = none || IsNotFound err then
      (none, some (.text "Not supported."))
    else
      let gvr := { gvr with Version := snapshotVersionBeta }
      let err := dynCli.List gvr
      if err = none then (some .snapshotBeta, none)
      else (none, some (.text "Not supported."))

/-! ## The platform's object store -/

/-- What the store needs from an object kind: its metadata, the defaulting of its namespace,
and the empty object a typed client hands back next to an error. -/
class KubeObject (α : Type) where
  objectMeta : α → ObjectMeta
  setNamespace : String → α → α
  zero : α

instance : KubeObject v1beta1.VolumeSnapshot where
  objectMeta o := o.ObjectMeta
  setNamespace ns o := { o with ObjectMeta := { o.ObjectMeta with Namespace := ns } }
  zero := {}

instance : KubeObject v1beta1.VolumeSnapshotContent where
  objectMeta o := o.ObjectMeta
  setNamespace ns o := { o with ObjectMeta := { o.ObjectMeta with Namespace := ns } }
  zero := {}

instance : KubeObject v1beta1.VolumeSnapshotClass where
  objectMeta o := o.ObjectMeta
  setNamespace ns o := { o with ObjectMeta := { o.ObjectMeta with Namespace := ns } }
  zero := {}

instance : KubeObject v1alpha1.VolumeSnapshot where
  objectMeta o := o.ObjectMeta
  setNamespace ns o := { o with ObjectMeta := { o.ObjectMeta with Namespace := ns } }
  zero := {}

instance : KubeObject v1alpha1.VolumeSnapshotContent where
  objectMeta o := o.ObjectMeta
  setNamespace ns o := { o with ObjectMeta := { o.ObjectMeta with Namespace := ns } }
  zero := {}

instance : KubeObject v1alpha1.VolumeSnapshotClass where
  objectMeta o := o.ObjectMeta
  setNamespace ns o := { o with ObjectMeta := { o.ObjectMeta with Namespace := ns } }
  zero := {}

/-- The platform's object store as the package sees it through its clients: the volume
claims (namespace, name), the classes and contents (cluster-scoped, unique by name) and the
snapshots (unique by namespace and name). -/
structure Store (S C K : Type) where
  pvcs : List (String × String) := []
  classes : List K := []
  contents : List C := []
  snapshots : List S := []
  deriving DecidableEq, Repr

namespace Store

variable {S C K α : Type}

/-- The object is named `name` (cluster-scoped identity). -/
def hasName [KubeObject α] (name : String) (o : α) : Bool :=
  (KubeObject.objectMeta o).Name == name

/-- The object is `name` in namespace `ns` (namespaced identity). -/
def hasKey [KubeObject α] (ns name : String) (o : α) : Bool :=
  (KubeObject.objectMeta o).Namespace == ns && (KubeObject.objectMeta o).Name == name

/-- The platform's not-found status error. -/
def notFound (resource name : String) : GoError :=
  .status "NotFound" (resource ++ " " ++ name ++ " not found")

/-- The platform's already-exists status error. -/
def alreadyExists (resource name : String) : GoError :=
  .status "AlreadyExists" (resource ++ " " ++ name ++ " already exists")

/-- The platform's answer to an object whose namespace is not the request's. -/
def badNamespace : GoError :=
  .status "BadRequest" "the namespace of the provided object does not match the request"

def getClass [KubeObject K] (st : Store S C K) (name : String) : Except GoError K :=
  match st.classes.find? (hasName name) with
  | some k => .ok k
  | none => .error (notFound volumeSnapClassesRes name)

def getSnapshot [KubeObject S] (st : Store S C K) (ns name : String) : Except GoError S :=
  match st.snapshots.find? (hasKey ns name) with
  | some snap => .ok snap
  | none => .error (notFound "volumesnapshots" name)

def getContent [KubeObject C] (st : Store S C K) (name : String) : Except GoError C :=
  match st.contents.find? (hasName name) with
  | some cont => .ok cont
  | none => .error (notFound "volumesnapshotcontents" name)

/-- Creation of a snapshot in namespace `ns`: an empty namespace on the object is defaulted to
`ns`, a different one is refused, and so is an identity already taken. -/
def createSnapshot [KubeObject S] (st : Store S C K) (ns : String) (obj : S) :
    Store S C K × CreateResult S :=
  let obj1 := if (KubeObject.objectMeta obj).Namespace = "" then KubeObject.setNamespace ns obj
    else obj
  if (KubeObject.objectMeta obj1).Namespace ≠ ns then
    (st, .failed (some KubeObject.zero) badNamespace)
  else if st.snapshots.any (hasKey ns (KubeObject.objectMeta obj1).Name) then
    (st, .failed (some KubeObject.zero)
      (alreadyExists "volumesnapshots" (KubeObject.objectMeta obj1).Name))
  else
    ({ st with snapshots := st.snapshots ++ [obj1] }, .created obj1)

/-- Creation of a content (cluster-scoped): refused when the name is taken. -/
def createContent [KubeObject C] (st : Store S C K) (obj : C) : Store S C K × CreateResult C :=
  if st.contents.any (hasName (KubeObject.objectMeta obj).Name) then
    (st, .failed (some KubeObject.zero)
      (alreadyExists "volumesnapshotcontents" (KubeObject.objectMeta obj).Name))
  else
    ({ st with contents := st.contents ++ [obj] }, .created obj)

/-- Deletion of a snapshot: a present snapshot is removed, an absent one is reported
not-found. -/
def deleteSnapshot [KubeObject S] (st : Store S C K) (ns name : String) :
    Store S C K × Option GoError :=
  if st.snapshots.any (hasKey ns name) then
    ({ st with snapshots := st.snapshots.filter (fun o => !hasKey ns name o) }, none)
  else
    (st, some (notFound "volumesnapshots" name))

/-- The snapshot client over the store; `platform` is what the platform's own controllers do
to the store during one poll interval. -/
def client [KubeObject S] [KubeObject C] [KubeObject K]
    (platform : Store S C K → Store S C K) : SnapshotClient S C K (Store S C K) where
  listClasses st := .ok st.classes
  getClass := getClass
  getSnapshot := getSnapshot
  createSnapshot := createSnapshot
  deleteSnapshot := deleteSnapshot
  getContent := getContent
  createContent := createContent
  elapse := platform

/-- The core client over the store: the lookup of a volume claim. -/
def kubeClient : KubeClient (Store S C K) where
  getPVC st ns name :=
    if st.pvcs.contains (ns, name) then none else some (notFound "persistentvolumeclaims" name)

end Store

/-- The store of the current generation. -/
abbrev BetaStore :=
  Store v1beta1.VolumeSnapshot v1beta1.VolumeSnapshotContent v1beta1.VolumeSnapshotClass

/-- The store of the legacy generation. -/
abbrev AlphaStore :=
  Store v1alpha1.VolumeSnapshot v1alpha1.VolumeSnapshotContent v1alpha1.VolumeSnapshotClass

/-! ## Readings of one poll -/

namespace snapshotAlpha

variable {σ : Type}

/-- The poll fetches a snapshot whose ready flag is true and whose creation timestamp is
present (whatever else its status carries). -/
def seesReadyFlag (snapCli : AlphaClient σ) (snapshotName ns : String) (s : σ) : Bool :=
  match snapCli.getSnapshot s ns snapshotName with
  | .ok snap => snap.Status.ReadyToUse && snap.Status.CreationTime.isSome
  | .error _ => false

/-- The poll fetches a snapshot with no status error, ready flag true and a creation
timestamp. -/
def seesReady (snapCli : AlphaClient σ) (snapshotName ns : String) (s : σ) : Bool :=
  match snapCli.getSnapshot s ns snapshotName with
  | .ok snap =>
    snap.Status.Error.isNone && (snap.Status.ReadyToUse && snap.Status.CreationTime.isSome)
  | .error _ => false

/-- The poll fetches a snapshot with no status error that is not ready yet (ready flag false
or no creation timestamp). -/
def seesPending (snapCli : AlphaClient σ) (snapshotName ns : String) (s : σ) : Bool :=
  match snapCli.getSnapshot s ns snapshotName with
  | .ok snap =>
    snap.Status.Error.isNone && !(snap.Status.ReadyToUse && snap.Status.CreationTime.isSome)
  | .error _ => false

end snapshotAlpha

namespace snapshotBeta

variable {σ : Type}

/-- The poll fetches a snapshot whose ready flag is true and whose creation timestamp is
present (whatever else its status carries). -/
def seesReadyFlag (snapCli : BetaClient σ) (snapshotName ns : String) (s : σ) : Bool :=
  match snapCli.getSnapshot s ns snapshotName with
  | .ok snap =>
    match snap.Status with
    | some status => status.ReadyToUse == some true && status.CreationTime.isSome
    | none => false
  | .error _ => false

/-- The poll fetches a snapshot that has a status with no error, ready flag true and a
creation timestamp. -/
def seesReady (snapCli : BetaClient σ) (snapshotName ns : String) (s : σ) : Bool :=
  match snapCli.getSnapshot s ns snapshotName with
  | .ok snap =>
    match snap.Status with
    | some status =>
      status.Error.isNone && (status.ReadyToUse == some true && status.CreationTime.isSome)
    | none => false
  | .error _ => false

/-- The poll fetches a snapshot that has a status with no error and is not ready yet (ready
flag absent or false, or no creation timestamp). -/
def seesPending (snapCli : BetaClient σ) (snapshotName ns : String) (s : σ) : Bool :=
  match snapCli.getSnapshot s ns snapshotName with
  | .ok snap =>
    match snap.Status with
    | some status =>
      status.Error.isNone && !(status.ReadyToUse == some true && status.CreationTime.isSome)
    | none => false
  | .error _ => false

end snapshotBeta

/-! ## Example states -/

/-- A legacy store whose snapshot ns-a/snap-1 is marked ready with a creation time while its
status also reports the error "quota exceeded". -/
def quotaAlphaStore : AlphaStore :=
  { snapshots :=
      [{ ObjectMeta := { Name := "snap-1", Namespace := "ns-a" },
         Spec := { Source := some { Kind := pvcKind, Name := "pvc-1" } },
         Status := { CreationTime := some 1, ReadyToUse := true,
                     Error := some { Message := "quota exceeded" } } }] }

/-- The same situation in the current generation. -/
def quotaBetaStore : BetaStore :=
  { snapshots :=
      [{ ObjectMeta := { Name := "snap-1", Namespace := "ns-a" },
         Spec := { Source := { PersistentVolumeClaimName := some "pvc-1" } },
         Status := some { CreationTime := some 1, ReadyToUse := some true,
                          Error := some { Message := some "quota exceeded" } } }] }

/-- The group-version-resource of the legacy class listing probe. -/
def alphaClassesGVR : GroupVersionResource :=
  { Group := snapshotGroup, Version := snapshotVersionAlpha, Resource := volumeSnapClassesRes }

/-- The group-version-resource of the current-generation class listing probe. -/
def betaClassesGVR : GroupVersionResource :=
  { Group := snapshotGroup, Version := snapshotVersionBeta, Resource := volumeSnapClassesRes }

/-- A platform on which every class listing succeeds (both generations are served). -/
def bothServed : DynamicClient where
  List _ := none

/-- A platform that serves only the current generation: the legacy listing is answered
not-found, the current one succeeds. -/
def betaOnly : DynamicClient where
  List gvr :=
    if gvr.Version = snapshotVersionAlpha then
      some (.status "NotFound" "the server could not find the requested resource")
    else none

/-- A platform whose legacy listing is refused for another reason while the current-generation
listing succeeds. -/
def alphaForbidden : DynamicClient where
  List gvr :=
    if gvr.Version = snapshotVersionAlpha then some (.status "Forbidden" "forbidden")
    else none

/-- A legacy client whose delete call is refused by the platform. -/
def refusingAlphaClient : AlphaClient AlphaStore :=
  { (Store.client id : AlphaClient AlphaStore) with
    deleteSnapshot := fun st _ _ => (st, some (.status "Forbidden" "forbidden")) }

/-- A current-generation client whose delete call is refused by the platform. -/
def refusingBetaClient : BetaClient BetaStore :=
  { (Store.client id : BetaClient BetaStore) with
    deleteSnapshot := fun st _ _ => (st, some (.status "Forbidden" "forbidden")) }

/-! ## The platform's side in the current generation -/

/-- The platform's part after a snapshot was submitted with a claim as its source: it creates
the Content `contentName` for the backing-store copy `handle`, and writes the status of the
snapshot `ns`/`name` (bound Content, creation time, ready). It does not touch the spec of the
snapshot. -/
def provision (driver handle contentName : String) (time : Nat) (ns name : String)
    (st : BetaStore) : BetaStore :=
  { st with
    contents := st.contents ++ (st.snapshots.filter (Store.hasKey ns name)).map fun snap =>
      { ObjectMeta := { Name := contentName },
        Spec := { VolumeSnapshotRef := { Kind := snapshotKind, Namespace := ns, Name := name },
                  DeletionPolicy := "Delete",
                  Driver := driver,
                  VolumeSnapshotClassName := snap.Spec.VolumeSnapshotClassName,
                  Source := { VolumeHandle := snap.Spec.Source.PersistentVolumeClaimName } },
        Status := some { SnapshotHandle := some handle, ReadyToUse := some true } },
    snapshots := st.snapshots.map fun snap =>
      if Store.hasKey ns name snap then
        { snap with
          Status := some { BoundVolumeSnapshotContentName := some contentName,
                           CreationTime := some time, ReadyToUse := some true } }
      else snap }

/-- The status the platform writes on a snapshot it has bound to the Content `contentName`. -/
def boundStatus (contentName : String) (time : Nat) : v1beta1.VolumeSnapshotStatus :=
  { BoundVolumeSnapshotContentName := some contentName, CreationTime := some time,
    ReadyToUse := some true }

/-- The platform's part after a snapshot `ns`/`name` was submitted with a Content as its
source: it binds the snapshot to the Content its spec names (status: bound Content, creation
time, ready) and publishes in that Content's status the handle the Content's spec carries. -/
def bindPreProvisioned (time : Nat) (ns name : String) (st : BetaStore) : BetaStore :=
  match st.snapshots.find? (Store.hasKey ns name) with
  | none => st
  | some snap =>
    match snap.Spec.Source.VolumeSnapshotContentName with
    | none => st
    | some contentName =>
      { st with
        contents := st.contents.map fun cont =>
          if Store.hasName contentName cont then
            { cont with
              Status := some { SnapshotHandle := cont.Spec.Source.SnapshotHandle,
                               ReadyToUse := some true } }
          else cont,
        snapshots := st.snapshots.map fun x =>
          if Store.hasKey ns name x then { x with Status := some (boundStatus contentName time) }
          else x }

/-! ## Example states of the current generation -/

/-- A store with the claim ns-a/pvc-1 and the class csi-class annotated `backup-tool: "true"`. -/
def claimStore : BetaStore :=
  { pvcs := [("ns-a", "pvc-1")],
    classes := [{ ObjectMeta := { Name := "csi-class", Annotations := [("backup-tool", "true")] },
                  Driver := "drv", DeletionPolicy := "Delete" }] }

/-- The store after `Create` has submitted ns-a/snap-1 from the claim pvc-1 without waiting. -/
def pendingBetaStore : BetaStore :=
  (snapshotBeta.Create 0 Store.kubeClient (Store.client id) claimStore "snap-1" "ns-a" "pvc-1"
    (some "csi-class") false).1

/-- The store once the platform has provisioned ns-a/snap-1: bound to snapcontent-1, ready. -/
def provisionedBetaStore : BetaStore :=
  provision "drv" "h-1" "snapcontent-1" 7 "ns-a" "snap-1" pendingBetaStore

/-- The Source of ns-a/snap-1 in `provisionedBetaStore`. -/
def exampleSource : Source :=
  { Handle := "h-1", Driver := "drv", RestoreSize := none,
    VolumeSnapshotClassName := some "csi-class" }

/-- The store after `CreateFromSource` has submitted ns-b/snap-2 from `exampleSource`. -/
def importedBetaStore : BetaStore :=
  (snapshotBeta.CreateFromSource 0 "u1" (Store.client id) provisionedBetaStore exampleSource
    "snap-2" "ns-b" false).1

/-- The store once the platform has bound ns-b/snap-2 to its Content. -/
def boundBetaStore : BetaStore :=
  bindPreProvisioned 9 "ns-b" "snap-2" importedBetaStore

/-! ## Example states of the legacy generation -/

/-- A legacy store with the class csi-class and two ready snapshots, ns-a/snap-1 bound to the
Content snapcontent-1 and ns-b/snap-2 bound to the Content snapcontent-2. -/
def boundAlphaStore : AlphaStore :=
  { pvcs := [("ns-a", "pvc-1")],
    classes := [{ ObjectMeta := { Name := "csi-class", Annotations := [("backup-tool", "true")] },
                  Snapshotter := "drv", DeletionPolicy := some "Delete" }],
    contents :=
      [{ ObjectMeta := { Name := "snapcontent-1" },
         Spec := { VolumeSnapshotSource :=
                     { CSI := some { Driver := "drv", SnapshotHandle := "h-1",
                                     RestoreSize := some 1024 } },
                   VolumeSnapshotRef :=
                     some { Kind := snapshotKind, Namespace := "ns-a", Name := "snap-1" },
                   VolumeSnapshotClassName := some "csi-class",
                   DeletionPolicy := some "Delete" } },
       { ObjectMeta := { Name := "snapcontent-2" },
         Spec := { VolumeSnapshotSource :=
                     { CSI := some { Driver := "drv", SnapshotHandle := "h-2" } },
                   VolumeSnapshotRef :=
                     some { Kind := snapshotKind, Namespace := "ns-b", Name := "snap-2" },
                   VolumeSnapshotClassName := some "csi-class",
                   DeletionPolicy := some "Delete" } }],
    snapshots :=
      [{ ObjectMeta := { Name := "snap-1", Namespace := "ns-a" },
         Spec := { Source := some { Kind := pvcKind, Name := "pvc-1" },
                   SnapshotContentName := "snapcontent-1",
                   VolumeSnapshotClassName := some "csi-class" },
         Status := { CreationTime := some 7, ReadyToUse := true } },
       { ObjectMeta := { Name := "snap-2", Namespace := "ns-b" },
         Spec := { Source := some { Kind := pvcKind, Name := "pvc-2" },
                   SnapshotContentName := "snapcontent-2",
                   VolumeSnapshotClassName := some "csi-class" },
         Status := { CreationTime := some 8, ReadyToUse := true } }] }

/-- A legacy client whose lookup of snapshots in namespace ns-x is refused. -/
def forbiddenNamespaceAlphaClient : AlphaClient AlphaStore :=
  { (Store.client id : AlphaClient AlphaStore) with
    getSnapshot := fun st ns name =>
      if ns = "ns-x" then .error (.status "Forbidden" "forbidden")
      else Store.getSnapshot st ns name }

/-- A current-generation client whose lookup of snapshots in namespace ns-x is refused. -/
def forbiddenNamespaceBetaClient : BetaClient BetaStore :=
  { (Store.client id : BetaClient BetaStore) with
    getSnapshot := fun st ns name =>
      if ns = "ns-x" then .error (.status "Forbidden" "forbidden")
      else Store.getSnapshot st ns name }

/-! ## What CreateFromSource submits, and platforms that only write status -/

/-- The Content that legacy `CreateFromSource` submits for `source`. -/
def alphaContentOf (source : Source) (snapshotName ns uuid : String)
    (deletionPolicy : Option DeletionPolicy) : v1alpha1.VolumeSnapshotContent :=
  { ObjectMeta := { Name := snapshotName ++ "-content-" ++ uuid },
    Spec := { VolumeSnapshotSource :=
                { CSI := some { Driver := source.Driver, SnapshotHandle := source.Handle } },
              VolumeSnapshotRef :=
                some { Kind := snapshotKind, Namespace := ns, Name := snapshotName },
              VolumeSnapshotClassName := source.VolumeSnapshotClassName,
              DeletionPolicy := deletionPolicy } }

/-- The Snapshot that legacy `CreateFromSource` ends up storing in namespace `ns`. -/
def alphaSnapshotOf (source : Source) (snapshotName ns uuid : String) :
    v1alpha1.VolumeSnapshot :=
  { ObjectMeta := { Name := snapshotName, Namespace := ns },
    Spec := { SnapshotContentName := snapshotName ++ "-content-" ++ uuid,
              VolumeSnapshotClassName := source.VolumeSnapshotClassName } }

/-- The Content that current-generation `CreateFromSource` submits for `source`. -/
def betaContentOf (source : Source) (snapshotName ns uuid : String)
    (deletionPolicy : DeletionPolicy) : v1beta1.VolumeSnapshotContent :=
  { ObjectMeta := { Name := snapshotName ++ "-content-" ++ uuid },
    Spec := { Driver := source.Driver,
              Source := { SnapshotHandle := some source.Handle },
              VolumeSnapshotRef := { Kind := snapshotKind, Namespace := ns, Name := snapshotName },
              VolumeSnapshotClassName := source.VolumeSnapshotClassName,
              DeletionPolicy := deletionPolicy } }

/-- The Snapshot that current-generation `CreateFromSource` ends up storing in namespace
`ns`. -/
def betaSnapshotOf (source : Source) (snapshotName ns uuid : String) :
    v1beta1.VolumeSnapshot :=
  { ObjectMeta := { Name := snapshotName, Namespace := ns },
    Spec := { Source := { VolumeSnapshotContentName := some (snapshotName ++ "-content-" ++ uuid) },
              VolumeSnapshotClassName := source.VolumeSnapshotClassName } }

/-- A legacy snapshot without what the platform writes: its status. -/
def alphaSubmitted (snap : v1alpha1.VolumeSnapshot) : v1alpha1.VolumeSnapshot :=
  { snap with Status := {} }

/-- Store `st2` differs from `st1` at most in the status of snapshots: same classes, same
contents, and the same snapshots in the same order up to their status. -/
def sameUpToStatus (st1 st2 : AlphaStore) : Prop :=
  st2.classes = st1.classes ∧ st2.contents = st1.contents ∧
    st2.snapshots.map alphaSubmitted = st1.snapshots.map alphaSubmitted

/-- The platform only ever writes the status of snapshots. -/
def writesOnlyStatus (platform : AlphaStore → AlphaStore) : Prop :=
  ∀ st, sameUpToStatus st (platform st)

/-- A legacy platform that marks every snapshot ready during a poll interval. -/
def markAllReady (st : AlphaStore) : AlphaStore :=
  { st with
    snapshots := st.snapshots.map fun snap =>
      { snap with Status := { snap.Status with CreationTime := some 1, ReadyToUse := true } } }

/-- The Source of ns-a/snap-1 in `boundAlphaStore`. -/
def alphaExampleSource : Source :=
  { Handle := "h-1", Driver := "drv", RestoreSize := some 1024,
    VolumeSnapshotClassName := some "csi-class" }

/-- The legacy store after `CreateFromSource` has submitted ns-c/snap-3 from
`alphaExampleSource` and waited, on a platform that marks snapshots ready. -/
def clonedAlphaStore : AlphaStore :=
  (snapshotAlpha.CreateFromSource 3 "u3" (Store.client markAllReady) boundAlphaStore
    alphaExampleSource "snap-3" "ns-c" true).1

/-! ## Further example states -/

/-- A legacy store with the claim ns-a/pvc-1 and the class csi-class. -/
def alphaClaimStore : AlphaStore :=
  { pvcs := [("ns-a", "pvc-1")],
    classes := [{ ObjectMeta := { Name := "csi-class", Annotations := [("backup-tool", "true")] },
                  Snapshotter := "drv", DeletionPolicy := some "Delete" }] }

/-- The legacy store after `Create` has submitted ns-a/snap-1 from the claim pvc-1 without
waiting: the snapshot is not bound to a Content yet. -/
def pendingAlphaStore : AlphaStore :=
  (snapshotAlpha.Create 0 Store.kubeClient (Store.client id) alphaClaimStore "snap-1" "ns-a"
    "pvc-1" (some "csi-class") false).1

/-- The store `boundAlphaStore` at a time when its snapshots are bound to their Contents but
not yet marked ready. -/
def unreadyAlphaStore : AlphaStore :=
  { boundAlphaStore with
    snapshots := boundAlphaStore.snapshots.map fun snap => { snap with Status := {} } }

/-- The store `provisionedBetaStore` at a time when ns-a/snap-1 is bound to snapcontent-1 but
its ready flag is still false and it has no creation time. -/
def unreadyBetaStore : BetaStore :=
  { provisionedBetaStore with
    snapshots := provisionedBetaStore.snapshots.map fun snap =>
      { snap with
        Status := some { BoundVolumeSnapshotContentName := some "snapcontent-1",
                         ReadyToUse := some false } } }

/-- A core client whose lookup of volume claims is refused. -/
def refusingKubeClient {σ : Type} : KubeClient σ where
  getPVC _ _ _ := some (.status "Forbidden" "forbidden")

namespace Store

variable {S C K : Type}

/-- The snapshot client over the store on a platform that refuses every snapshot submission
with `err` (quota, admission, outage), handing back the error with an empty object; all
other calls are the store's. -/
def refusingSnapshots [KubeObject S] [KubeObject C] [KubeObject K]
    (platform : Store S C K → Store S C K) (err : GoError) :
    SnapshotClient S C K (Store S C K) :=
  { client platform with
    createSnapshot := fun st _ _ => (st, .failed (some KubeObject.zero) err) }

end Store

/-- A Source whose class does not exist in the example stores. -/
def classlessSource : Source :=
  { Handle := "h-1", Driver := "drv", RestoreSize := none,
    VolumeSnapshotClassName := some "no-such-class" }

/-- The store `boundAlphaStore` holding, in addition, a Content named snap-3-content-u3. -/
def takenAlphaStore : AlphaStore :=
  { boundAlphaStore with
    contents := boundAlphaStore.contents ++ [{ ObjectMeta := { Name := "snap-3-content-u3" } }] }

/-- The store `provisionedBetaStore` holding, in addition, a Content named
snap-3-content-u3. -/
def takenBetaStore : BetaStore :=
  { provisionedBetaStore with
    contents := provisionedBetaStore.contents
      ++ [{ ObjectMeta := { Name := "snap-3-content-u3" } }] }

namespace Store

variable {S C K : Type}

/-- The store with the Contents `cs` and the Snapshots `ss` appended; everything that was in
the store stays where it was. -/
def extend (st : Store S C K) (cs : List C) (ss : List S) : Store S C K :=
  { st with contents := st.contents ++ cs, snapshots := st.snapshots ++ ss }

end Store

/-! ## Texts of errors -/

/-- The characters `part` occur, in a row, in the given characters. -/
def containsChars (part : List Char) : List Char → Bool
  | [] => part.isEmpty
  | c :: rest => part.isPrefixOf (c :: rest) || containsChars part rest

/-- The message of the error contains the text `part` (Go: `strings.Contains(err.Error(),
part)`). -/
def GoError.mentions (e : GoError) (part : String) : Bool :=
  containsChars part.toList e.Error.toList

/-! ## Example states: class listings -/

/-- A legacy store with two classes, neither annotated `backup-tool: "true"`: one carries the
key with the value "false", the other carries another key. -/
def unannotatedAlphaStore : AlphaStore :=
  { classes := [{ ObjectMeta := { Name := "class-a", Annotations := [("backup-tool", "false")] },
                  Snapshotter := "drv", DeletionPolicy := some "Delete" },
                { ObjectMeta := { Name := "class-b", Annotations := [("other-tool", "true")] },
                  Snapshotter := "drv", DeletionPolicy := some "Delete" }] }

/-- The same listing in the current generation. -/
def unannotatedBetaStore : BetaStore :=
  { classes := [{ ObjectMeta := { Name := "class-a", Annotations := [("backup-tool", "false")] },
                  Driver := "drv", DeletionPolicy := "Delete" },
                { ObjectMeta := { Name := "class-b", Annotations := [("other-tool", "true")] },
                  Driver := "drv", DeletionPolicy := "Delete" }] }

/-- A legacy store listing three classes: class-a carries the key with the value "false",
class-b and class-c are both annotated `backup-tool: "true"`. -/
def multiClassAlphaStore : AlphaStore :=
  { classes := [{ ObjectMeta := { Name := "class-a", Annotations := [("backup-tool", "false")] },
                  Snapshotter := "drv", DeletionPolicy := some "Delete" },
                { ObjectMeta := { Name := "class-b", Annotations := [("backup-tool", "true")] },
                  Snapshotter := "drv", DeletionPolicy := some "Delete" },
                { ObjectMeta := { Name := "class-c", Annotations := [("backup-tool", "true")] },
                  Snapshotter := "drv", DeletionPolicy := some "Retain" }] }

/-- The same listing in the current generation. -/
def multiClassBetaStore : BetaStore :=
  { classes := [{ ObjectMeta := { Name := "class-a", Annotations := [("backup-tool", "false")] },
                  Driver := "drv", DeletionPolicy := "Delete" },
                { ObjectMeta := { Name := "class-b", Annotations := [("backup-tool", "true")] },
                  Driver := "drv", DeletionPolicy := "Delete" },
                { ObjectMeta := { Name := "class-c", Annotations := [("backup-tool", "true")] },
                  Driver := "drv", DeletionPolicy := "Retain" }] }

/-! ## Example states: sources of a clone -/

/-- The store `boundAlphaStore` after its Contents were removed behind the snapshots: the
snapshots still name them. -/
def danglingAlphaStore : AlphaStore :=
  { boundAlphaStore with contents := [] }

/-- The store `boundBetaStore` after its Contents were removed behind the snapshots. -/
def danglingBetaStore : BetaStore :=
  { boundBetaStore with contents := [] }

/-- A legacy store whose snapshot ns-a/snap-1 failed on the platform: its status reports the
error "quota exceeded" and its ready flag is false. -/
def failedAlphaStore : AlphaStore :=
  { boundAlphaStore with
    snapshots := boundAlphaStore.snapshots.map fun snap =>
      { snap with Status := { Error := some { Message := "quota exceeded" } } } }

/-- The store `boundAlphaStore` whose snapshots, bound and marked ready, also report the
status error "quota exceeded". -/
def quotaBoundAlphaStore : AlphaStore :=
  { boundAlphaStore with
    snapshots := boundAlphaStore.snapshots.map fun snap =>
      { snap with Status := { snap.Status with Error := some { Message := "quota exceeded" } } } }

/-- A current-generation store whose snapshots failed on the platform: the status reports the
error "quota exceeded" and the ready flag is false. -/
def failedBetaStore : BetaStore :=
  { boundBetaStore with
    snapshots := boundBetaStore.snapshots.map fun snap =>
      { snap with
        Status := some { ReadyToUse := some false,
                         Error := some { Message := some "quota exceeded" } } } }

/-- The store `boundAlphaStore` at a time when the ready flag of its snapshots is already
true while their creation timestamp is not written yet. -/
def flaggedAlphaStore : AlphaStore :=
  { boundAlphaStore with
    snapshots := boundAlphaStore.snapshots.map fun snap =>
      { snap with Status := { snap.Status with CreationTime := none } } }

/-- The store `boundBetaStore` at a time when the ready flag of its snapshots is already true
while their creation timestamp is not written yet. -/
def flaggedBetaStore : BetaStore :=
  { boundBetaStore with
    snapshots := boundBetaStore.snapshots.map fun snap =>
      { snap with
        Status := snap.Status.map fun status => { status with CreationTime := none } } }

/-- The store `importedBetaStore` once the platform has written the status of ns-b/snap-2
(bound to its Content, ready) but not yet the status of that Content. -/
def halfBoundBetaStore : BetaStore :=
  { importedBetaStore with
    snapshots := importedBetaStore.snapshots.map fun snap =>
      if Store.hasKey "ns-b" "snap-2" snap then
        { snap with Status := some (boundStatus "snap-2-content-u1" 9) }
      else snap }

/-- The store `boundBetaStore` whose Contents carry no class name (the field is optional on a
Content). -/
def classlessBetaStore : BetaStore :=
  { boundBetaStore with
    contents := boundBetaStore.contents.map fun cont =>
      { cont with Spec := { cont.Spec with VolumeSnapshotClassName := none } } }

/-! ## Example platforms and clients for a failing wait -/

/-- A legacy platform on which every snapshot fails during a poll interval: it writes the
status error "quota exceeded". -/
def failAll (st : AlphaStore) : AlphaStore :=
  { st with
    snapshots := st.snapshots.map fun snap =>
      { snap with Status := { snap.Status with Error := some { Message := "quota exceeded" } } } }

/-- The store `claimStore` with its claim in the namespace ns-x. -/
def claimStoreX : BetaStore :=
  { claimStore with pvcs := [("ns-x", "pvc-1")] }

/-! ## The correspondence of the two schemas -/

/-- The schema correspondence of snapshot statuses, as the specification states it: the
legacy ready flag `b` corresponds to the current optional flag holding `b`, the optional
creation timestamp is the same, and a legacy error with message `m` corresponds to a current
error holding the message `m` (no error to no error). -/
def statusCorresponds (legacy : v1alpha1.VolumeSnapshotStatus)
    (current : v1beta1.VolumeSnapshotStatus) : Prop :=
  current.ReadyToUse = some legacy.ReadyToUse ∧
  current.CreationTime = legacy.CreationTime ∧
  current.Error.map (fun e => e.Message) = legacy.Error.map (fun e => some e.Message)

/-- The schema correspondence of snapshots, as the specification states it: the current
snapshot has a status and the statuses correspond. -/
def snapshotCorresponds (legacy : v1alpha1.VolumeSnapshot) (current : v1beta1.VolumeSnapshot) :
    Prop :=
  ∃ status, current.Status = some status ∧ statusCorresponds legacy.Status status

/-! # Theorems -/

/-! ## The readiness poller -/

/-- The poller ends with a nil error exactly when some poll within the context's budget
reports done with no error and every earlier poll reported not done with no error. -/
theorem pollWait_ret_none_iff {σ : Type} (elapse : σ → σ)
    (cond : σ → Res (Bool × Option GoError)) (ctx : Nat) (s : σ) :
    (pollWait elapse cond ctx s).2 = .ret none ↔
      ∃ i, i ≤ ctx ∧ cond (elapse^[i] s) = .ret (true, none) ∧
        ∀ j, j < i → cond (elapse^[j] s) = .ret (false, none) := by
  induction ctx generalizing s with
  | zero =>
    constructor
    · intro h
      refine ⟨0, le_refl _, ?_, fun j hj => absurd hj (Nat.not_lt_zero j)⟩
      simp only [Function.iterate_zero, id_eq]
      unfold pollWait at h
      split at h <;> simp_all
    · rintro ⟨i, hi, hready, -⟩
      obtain rfl : i = 0 := Nat.le_zero.mp hi
      simp only [Function.iterate_zero, id_eq] at hready
      unfold pollWait
      simp [hready]
  | succ n ih =>
    constructor
    · intro h
      unfold pollWait at h
      split at h
      · simp at h
      · simp at h
      · rename_i hc
        exact ⟨0, Nat.zero_le _, by simpa using hc, fun j hj => absurd hj (Nat.not_lt_zero j)⟩
      · rename_i hc
        obtain ⟨i, hi, hready, hpend⟩ := (ih (elapse s)).mp h
        refine ⟨i + 1, Nat.succ_le_succ hi, by simpa [Function.iterate_succ_apply] using hready, ?_⟩
        intro j hj
        cases j with
        | zero => simpa using hc
        | succ k =>
          have := hpend k (Nat.lt_of_succ_lt_succ hj)
          simpa [Function.iterate_succ_apply] using this
    · rintro ⟨i, hi, hready, hpend⟩
      cases i with
      | zero =>
        simp only [Function.iterate_zero, id_eq] at hready
        unfold pollWait
        simp [hready]
      | succ k =>
        have h0 : cond s = .ret (false, none) := by simpa using hpend 0 (Nat.succ_pos k)
        unfold pollWait
        simp only [h0]
        refine (ih (elapse s)).mpr ⟨k, Nat.le_of_succ_le_succ hi, ?_, ?_⟩
        · simpa [Function.iterate_succ_apply] using hready
        · intro j hj
          have := hpend (j + 1) (Nat.succ_lt_succ hj)
          simpa [Function.iterate_succ_apply] using this

/-- The state the poller ends in is the start state after some number of poll intervals. -/
theorem pollWait_state {σ : Type} (elapse : σ → σ) (cond : σ → Res (Bool × Option GoError))
    (ctx : Nat) (s : σ) : ∃ i, (pollWait elapse cond ctx s).1 = elapse^[i] s := by
  induction ctx generalizing s with
  | zero =>
    refine ⟨0, ?_⟩
    unfold pollWait
    split <;> rfl
  | succ n ih =>
    unfold pollWait
    split
    · exact ⟨0, rfl⟩
    · exact ⟨0, rfl⟩
    · exact ⟨0, rfl⟩
    · obtain ⟨i, hi⟩ := ih (elapse s)
      exact ⟨i + 1, by simpa [Function.iterate_succ_apply] using hi⟩

/-- A poll that faults ends the wait with the fault. -/
theorem pollWait_of_fault {σ : Type} (elapse : σ → σ) (cond : σ → Res (Bool × Option GoError))
    (ctx : Nat) (s : σ) (h : cond s = .nilDeref) :
    pollWait elapse cond ctx s = (s, .nilDeref) := by
  cases ctx <;> simp [pollWait, h]

/-- One legacy poll reports done exactly when it sees a ready snapshot. -/
theorem alpha_waitCondition_done_iff {σ : Type} (snapCli : AlphaClient σ)
    (snapshotName ns : String) (s : σ) :
    snapshotAlpha.waitCondition snapCli snapshotName ns s = .ret (true, none) ↔
      snapshotAlpha.seesReady snapCli snapshotName ns s = true := by
  unfold snapshotAlpha.waitCondition snapshotAlpha.seesReady
  cases snapCli.getSnapshot s ns snapshotName with
  | error e => simp
  | ok snap =>
    cases hE : snap.Status.Error <;> cases hR : snap.Status.ReadyToUse <;>
      cases hC : snap.Status.CreationTime <;> simp [hE, hR, hC]

/-- One legacy poll reports "not done, no error" exactly when it sees a pending snapshot. -/
theorem alpha_waitCondition_continue_iff {σ : Type} (snapCli : AlphaClient σ)
    (snapshotName ns : String) (s : σ) :
    snapshotAlpha.waitCondition snapCli snapshotName ns s = .ret (false, none) ↔
      snapshotAlpha.seesPending snapCli snapshotName ns s = true := by
  unfold snapshotAlpha.waitCondition snapshotAlpha.seesPending
  cases snapCli.getSnapshot s ns snapshotName with
  | error e => simp
  | ok snap =>
    cases hE : snap.Status.Error <;> cases hR : snap.Status.ReadyToUse <;>
      cases hC : snap.Status.CreationTime <;> simp [hE, hR, hC]

/-- One current-generation poll reports done exactly when it sees a ready snapshot. -/
theorem beta_waitCondition_done_iff {σ : Type} (snapCli : BetaClient σ)
    (snapshotName ns : String) (s : σ) :
    snapshotBeta.waitCondition snapCli snapshotName ns s = .ret (true, none) ↔
      snapshotBeta.seesReady snapCli snapshotName ns s = true := by
  unfold snapshotBeta.waitCondition snapshotBeta.seesReady
  cases snapCli.getSnapshot s ns snapshotName with
  | error e => simp
  | ok snap =>
    cases hS : snap.Status with
    | none => simp [hS]
    | some status =>
      cases hE : status.Error with
      | some e => cases hM : e.Message <;> simp [hS, hE, hM]
      | none =>
        cases hR : status.ReadyToUse with
        | none => simp [hS, hE, hR]
        | some b => cases b <;> cases hC : status.CreationTime <;> simp [hS, hE, hR, hC]

/-- One current-generation poll reports "not done, no error" exactly when it sees a pending
snapshot. -/
theorem beta_waitCondition_continue_iff {σ : Type} (snapCli : BetaClient σ)
    (snapshotName ns : String) (s : σ) :
    snapshotBeta.waitCondition snapCli snapshotName ns s = .ret (false, none) ↔
      snapshotBeta.seesPending snapCli snapshotName ns s = true := by
  unfold snapshotBeta.waitCondition snapshotBeta.seesPending
  cases snapCli.getSnapshot s ns snapshotName with
  | error e => simp
  | ok snap =>
    cases hS : snap.Status with
    | none => simp [hS]
    | some status =>
      cases hE : status.Error with
      | some e => cases hM : e.Message <;> simp [hS, hE, hM]
      | none =>
        cases hR : status.ReadyToUse with
        | none => simp [hS, hE, hR]
        | some b => cases b <;> cases hC : status.CreationTime <;> simp [hS, hE, hR, hC]

/-! ## The object store -/

/-- After a delete, no snapshot with that identity is left in the store. -/
theorem Store.deleteSnapshot_absent {S C K : Type} [KubeObject S] (st : Store S C K)
    (ns name : String) :
    (Store.deleteSnapshot st ns name).1.snapshots.any (Store.hasKey ns name) = false := by
  unfold Store.deleteSnapshot
  split
  · simp [List.any_filter]
  · rename_i h
    simpa using h

/-- Deleting an absent snapshot answers not-found and leaves the store alone. -/
theorem Store.deleteSnapshot_of_absent {S C K : Type} [KubeObject S] (st : Store S C K)
    (ns name : String) (h : st.snapshots.any (Store.hasKey ns name) = false) :
    Store.deleteSnapshot st ns name = (st, some (Store.notFound "volumesnapshots" name)) := by
  unfold Store.deleteSnapshot
  simp [h]

/-- The store's not-found error is a not-found signal. -/
theorem Store.isNotFound_notFound (resource name : String) :
    IsNotFound (some (Store.notFound resource name)) = true := by
  simp [IsNotFound, Store.notFound]

/-- Looking up an identity that is new to a list finds the object appended for it. -/
theorem Store.find?_append_new {α : Type} (p : α → Bool) (l : List α) (x : α)
    (habsent : l.any p = false) (hx : p x = true) : (l ++ [x]).find? p = some x := by
  have hnone : l.find? p = none := by
    rw [List.find?_eq_none]
    intro a ha hpa
    have : l.any p = true := List.any_eq_true.mpr ⟨a, ha, hpa⟩
    simp [habsent] at this
  simp [List.find?_append, hnone, hx]

/-- A lookup commutes with a rewrite of the objects that keeps their identity. -/
theorem Store.find?_map_of_preserving {α : Type} (p : α → Bool) (g : α → α)
    (hg : ∀ x, p (g x) = p x) (l : List α) : (l.map g).find? p = (l.find? p).map g := by
  rw [List.find?_map]
  have : (p ∘ g) = p := funext hg
  rw [this]

/-- The store client's `getClass` is the store's. -/
theorem Store.client_getClass {S C K : Type} [KubeObject S] [KubeObject C] [KubeObject K]
    (platform : Store S C K → Store S C K) :
    (Store.client platform).getClass = Store.getClass := rfl

/-- The store client's `getSnapshot` is the store's. -/
theorem Store.client_getSnapshot {S C K : Type} [KubeObject S] [KubeObject C] [KubeObject K]
    (platform : Store S C K → Store S C K) :
    (Store.client platform).getSnapshot = Store.getSnapshot := rfl

/-- The store client's `getContent` is the store's. -/
theorem Store.client_getContent {S C K : Type} [KubeObject S] [KubeObject C] [KubeObject K]
    (platform : Store S C K → Store S C K) :
    (Store.client platform).getContent = Store.getContent := rfl

/-- The store client's `createSnapshot` is the store's. -/
theorem Store.client_createSnapshot {S C K : Type} [KubeObject S] [KubeObject C] [KubeObject K]
    (platform : Store S C K → Store S C K) :
    (Store.client platform).createSnapshot = Store.createSnapshot := rfl

/-- The store client's `createContent` is the store's. -/
theorem Store.client_createContent {S C K : Type} [KubeObject S] [KubeObject C] [KubeObject K]
    (platform : Store S C K → Store S C K) :
    (Store.client platform).createContent = Store.createContent := rfl

/-- The store client's `elapse` is the store's. -/
theorem Store.client_elapse {S C K : Type} [KubeObject S] [KubeObject C] [KubeObject K]
    (platform : Store S C K → Store S C K) :
    (Store.client platform).elapse = platform := rfl

/-- Creating a Content whose name is taken is refused and leaves the store alone. -/
theorem Store.createContent_of_present {S C K : Type} [KubeObject C] (st : Store S C K) (obj : C)
    (h : st.contents.any (Store.hasName (KubeObject.objectMeta obj).Name) = true) :
    Store.createContent st obj = (st, .failed (some KubeObject.zero)
      (Store.alreadyExists "volumesnapshotcontents" (KubeObject.objectMeta obj).Name)) := by
  simp [Store.createContent, h]

/-- Creating a Content whose name is free appends it to the store. -/
theorem Store.createContent_of_absent {S C K : Type} [KubeObject C] (st : Store S C K) (obj : C)
    (h : st.contents.any (Store.hasName (KubeObject.objectMeta obj).Name) = false) :
    Store.createContent st obj = ({ st with contents := st.contents ++ [obj] }, .created obj) := by
  simp [Store.createContent, h]

/-- Creating a legacy snapshot whose identity is taken is refused. -/
theorem alpha_createSnapshot_of_present (st : AlphaStore) (ns : String)
    (obj : v1alpha1.VolumeSnapshot) (hns : obj.ObjectMeta.Namespace = "")
    (h : st.snapshots.any (Store.hasKey ns obj.ObjectMeta.Name) = true) :
    Store.createSnapshot st ns obj = (st, .failed (some KubeObject.zero)
      (Store.alreadyExists "volumesnapshots" obj.ObjectMeta.Name)) := by
  simp [Store.createSnapshot, KubeObject.objectMeta, KubeObject.setNamespace, hns, h]

/-- Creating a legacy snapshot whose identity is free stores it in the request's namespace. -/
theorem alpha_createSnapshot_of_absent (st : AlphaStore) (ns : String)
    (obj : v1alpha1.VolumeSnapshot) (hns : obj.ObjectMeta.Namespace = "")
    (h : st.snapshots.any (Store.hasKey ns obj.ObjectMeta.Name) = false) :
    Store.createSnapshot st ns obj
      = ({ st with snapshots := st.snapshots ++
            [{ obj with ObjectMeta := { obj.ObjectMeta with Namespace := ns } }] },
         .created { obj with ObjectMeta := { obj.ObjectMeta with Namespace := ns } }) := by
  simp [Store.createSnapshot, KubeObject.objectMeta, KubeObject.setNamespace, hns, h]

/-- Creating a current-generation snapshot whose identity is taken is refused. -/
theorem beta_createSnapshot_of_present (st : BetaStore) (ns : String)
    (obj : v1beta1.VolumeSnapshot) (hns : obj.ObjectMeta.Namespace = "")
    (h : st.snapshots.any (Store.hasKey ns obj.ObjectMeta.Name) = true) :
    Store.createSnapshot st ns obj = (st, .failed (some KubeObject.zero)
      (Store.alreadyExists "volumesnapshots" obj.ObjectMeta.Name)) := by
  simp [Store.createSnapshot, KubeObject.objectMeta, KubeObject.setNamespace, hns, h]

/-- Creating a current-generation snapshot whose identity is free stores it in the request's
namespace. -/
theorem beta_createSnapshot_of_absent (st : BetaStore) (ns : String)
    (obj : v1beta1.VolumeSnapshot) (hns : obj.ObjectMeta.Namespace = "")
    (h : st.snapshots.any (Store.hasKey ns obj.ObjectMeta.Name) = false) :
    Store.createSnapshot st ns obj
      = ({ st with snapshots := st.snapshots ++
            [{ obj with ObjectMeta := { obj.ObjectMeta with Namespace := ns } }] },
         .created { obj with ObjectMeta := { obj.ObjectMeta with Namespace := ns } }) := by
  simp [Store.createSnapshot, KubeObject.objectMeta, KubeObject.setNamespace, hns, h]

/-! ## Platforms that only write status -/

/-- Doing nothing writes only status. -/
theorem sameUpToStatus_refl (st : AlphaStore) : sameUpToStatus st st :=
  ⟨rfl, rfl, rfl⟩

/-- Status writes compose. -/
theorem sameUpToStatus_trans {st1 st2 st3 : AlphaStore} (h12 : sameUpToStatus st1 st2)
    (h23 : sameUpToStatus st2 st3) : sameUpToStatus st1 st3 :=
  ⟨h23.1.trans h12.1, h23.2.1.trans h12.2.1, h23.2.2.trans h12.2.2⟩

/-- Any number of poll intervals of a status-writing platform only writes status. -/
theorem sameUpToStatus_iterate (platform : AlphaStore → AlphaStore)
    (hplatform : writesOnlyStatus platform) (i : Nat) (st : AlphaStore) :
    sameUpToStatus st (platform^[i] st) := by
  induction i generalizing st with
  | zero => exact sameUpToStatus_refl st
  | succ n ih =>
    rw [Function.iterate_succ_apply]
    exact sameUpToStatus_trans (hplatform st) (ih (platform st))

/-- A snapshot found before status writes is found after them, unchanged up to its status. -/
theorem sameUpToStatus_getSnapshot {st1 st2 : AlphaStore} (h : sameUpToStatus st1 st2)
    (ns name : String) (snap : v1alpha1.VolumeSnapshot)
    (hget : Store.getSnapshot st1 ns name = .ok snap) :
    ∃ snap2, Store.getSnapshot st2 ns name = .ok snap2 ∧
      alphaSubmitted snap2 = alphaSubmitted snap := by
  have hp : ∀ x : v1alpha1.VolumeSnapshot,
      Store.hasKey ns name (alphaSubmitted x) = Store.hasKey ns name x := fun _ => rfl
  have h1 := Store.find?_map_of_preserving (Store.hasKey ns name) alphaSubmitted hp st1.snapshots
  have h2 := Store.find?_map_of_preserving (Store.hasKey ns name) alphaSubmitted hp st2.snapshots
  rw [h.2.2, h1] at h2
  unfold Store.getSnapshot at hget ⊢
  cases hf1 : st1.snapshots.find? (Store.hasKey ns name) with
  | none => simp [hf1] at hget
  | some x =>
    simp only [hf1, Except.ok.injEq] at hget
    subst hget
    cases hf2 : st2.snapshots.find? (Store.hasKey ns name) with
    | none => simp [hf1, hf2] at h2
    | some y =>
      refine ⟨y, rfl, ?_⟩
      simpa [hf1, hf2] using h2.symm

/-- The platform `markAllReady` only writes status. -/
theorem markAllReady_writesOnlyStatus : writesOnlyStatus markAllReady := by
  intro st
  refine ⟨rfl, rfl, ?_⟩
  simp only [markAllReady, List.map_map]
  rfl

/-! ## CreateFromSource over the store -/

/-- What a successful legacy CreateFromSource over the store has done: the class was found,
the Content name and the snapshot identity were free, and the store is the old one plus the
new Content and Snapshot, after the poll intervals the wait took. -/
theorem alpha_CreateFromSource_success (platform : AlphaStore → AlphaStore) (ctx : Nat)
    (uuid : String) (st st' : AlphaStore) (src : Source) (snapshotName ns : String)
    (waitForReady : Bool)
    (h : snapshotAlpha.CreateFromSource ctx uuid (Store.client platform) st src snapshotName ns
      waitForReady = (st', .ret none)) :
    ∃ className k i,
      src.VolumeSnapshotClassName = some className ∧ Store.getClass st className = .ok k ∧
      st.contents.any (Store.hasName (snapshotName ++ "-content-" ++ uuid)) = false ∧
      st.snapshots.any (Store.hasKey ns snapshotName) = false ∧
      st' = platform^[i]
        { st with
          contents := st.contents ++ [alphaContentOf src snapshotName ns uuid k.DeletionPolicy],
          snapshots := st.snapshots ++ [alphaSnapshotOf src snapshotName ns uuid] } := by
  unfold snapshotAlpha.CreateFromSource at h
  cases hc : src.VolumeSnapshotClassName with
  | none => simp [hc] at h
  | some className =>
    simp only [hc, snapshotAlpha.getDeletionPolicyFromClass, Store.client_getClass] at h
    cases hk : Store.getClass st className with
    | error e => simp [hk, errorsWrap] at h
    | ok k =>
      simp only [hk, Store.client_createContent, Store.client_createSnapshot] at h
      refine ⟨className, k, ?_⟩
      cases hcont : st.contents.any (Store.hasName (snapshotName ++ "-content-" ++ uuid)) with
      | true =>
        rw [Store.createContent_of_present _ _ hcont] at h
        simp at h
      | false =>
        rw [Store.createContent_of_absent _ _ hcont] at h
        simp only at h
        cases hsnap : st.snapshots.any (Store.hasKey ns snapshotName) with
        | true =>
          have herr := alpha_createSnapshot_of_present
            { st with contents := st.contents ++ [alphaContentOf src snapshotName ns uuid
              k.DeletionPolicy] } ns
            { ObjectMeta := { Name := snapshotName },
              Spec := { SnapshotContentName := snapshotName ++ "-content-" ++ uuid,
                        VolumeSnapshotClassName := src.VolumeSnapshotClassName } } rfl hsnap
          simp only [alphaContentOf, hc] at herr
          rw [herr] at h
          simp at h
        | false =>
          have hcr := alpha_createSnapshot_of_absent
            { st with contents := st.contents ++ [alphaContentOf src snapshotName ns uuid
              k.DeletionPolicy] } ns
            { ObjectMeta := { Name := snapshotName },
              Spec := { SnapshotContentName := snapshotName ++ "-content-" ++ uuid,
                        VolumeSnapshotClassName := src.VolumeSnapshotClassName } } rfl hsnap
          simp only [alphaContentOf, hc] at hcr
          rw [hcr] at h
          simp only at h
          cases waitForReady with
          | false =>
            simp at h
            refine ⟨0, rfl, hk, rfl, rfl, ?_⟩
            simp [alphaContentOf, alphaSnapshotOf, hc, ← h]
          | true =>
            simp only [Bool.not_true, Bool.false_eq_true, if_false] at h
            obtain ⟨i, hi⟩ := pollWait_state platform
              (snapshotAlpha.waitCondition (Store.client platform) snapshotName ns) ctx
              { st with
                contents := st.contents ++ [alphaContentOf src snapshotName ns uuid k.DeletionPolicy],
                snapshots := st.snapshots ++ [alphaSnapshotOf src snapshotName ns uuid] }
            refine ⟨i, rfl, hk, rfl, rfl, ?_⟩
            rw [← hi]
            have := congrArg Prod.fst h
            simp only [snapshotAlpha.WaitOnReadyToUse, Store.client_elapse] at this
            simp only [alphaContentOf, alphaSnapshotOf, hc]
            exact this.symm

/-- What a successful current-generation CreateFromSource over the store has done: the class
was found, the Content name and the snapshot identity were free, it did not wait (the first
poll of a wait meets the new snapshot without status), and the store is the old one plus the
new Content and Snapshot. -/
theorem beta_CreateFromSource_success (platform : BetaStore → BetaStore) (ctx : Nat)
    (uuid : String) (st st' : BetaStore) (src : Source) (snapshotName ns : String)
    (waitForReady : Bool)
    (h : snapshotBeta.CreateFromSource ctx uuid (Store.client platform) st src snapshotName ns
      waitForReady = (st', .ret none)) :
    ∃ className k,
      src.VolumeSnapshotClassName = some className ∧ Store.getClass st className = .ok k ∧
      st.contents.any (Store.hasName (snapshotName ++ "-content-" ++ uuid)) = false ∧
      st.snapshots.any (Store.hasKey ns snapshotName) = false ∧
      waitForReady = false ∧
      st' = { st with
          contents := st.contents ++ [betaContentOf src snapshotName ns uuid k.DeletionPolicy],
          snapshots := st.snapshots ++ [betaSnapshotOf src snapshotName ns uuid] } := by
  unfold snapshotBeta.CreateFromSource at h
  cases hc : src.VolumeSnapshotClassName with
  | none => simp [hc] at h
  | some className =>
    simp only [hc, snapshotBeta.getDeletionPolicyFromClass, Store.client_getClass] at h
    cases hk : Store.getClass st className with
    | error e => simp [hk, errorsWrap] at h
    | ok k =>
      simp only [hk, Store.client_createContent, Store.client_createSnapshot] at h
      refine ⟨className, k, ?_⟩
      cases hcont : st.contents.any (Store.hasName (snapshotName ++ "-content-" ++ uuid)) with
      | true =>
        rw [Store.createContent_of_present _ _ hcont] at h
        simp at h
      | false =>
        rw [Store.createContent_of_absent _ _ hcont] at h
        simp only at h
        cases hsnap : st.snapshots.any (Store.hasKey ns snapshotName) with
        | true =>
          have herr := beta_createSnapshot_of_present
            { st with contents := st.contents ++ [betaContentOf src snapshotName ns uuid
              k.DeletionPolicy] } ns
            (betaSnapshotOf src snapshotName "" uuid) rfl hsnap
          simp only [betaContentOf, betaSnapshotOf, hc] at herr
          rw [herr] at h
          simp at h
        | false =>
          have hcr := beta_createSnapshot_of_absent
            { st with contents := st.contents ++ [betaContentOf src snapshotName ns uuid
              k.DeletionPolicy] } ns
            (betaSnapshotOf src snapshotName "" uuid) rfl hsnap
          simp only [betaContentOf, betaSnapshotOf, hc] at hcr
          rw [hcr] at h
          simp only at h
          cases waitForReady with
          | false =>
            simp at h
            refine ⟨rfl, hk, rfl, rfl, rfl, ?_⟩
            simp [betaContentOf, betaSnapshotOf, hc, ← h]
          | true =>
            exfalso
            simp only [Bool.not_true, Bool.false_eq_true, if_false] at h
            unfold snapshotBeta.WaitOnReadyToUse at h
            rw [pollWait_of_fault] at h
            · simp at h
            · have hfind : (st.snapshots ++ [betaSnapshotOf src snapshotName ns uuid]).find?
                  (Store.hasKey ns snapshotName) = some (betaSnapshotOf src snapshotName ns uuid) :=
                Store.find?_append_new _ _ _ hsnap
                  (by simp [Store.hasKey, KubeObject.objectMeta, betaSnapshotOf])
              simp only [betaSnapshotOf, hc] at hfind
              simp [snapshotBeta.waitCondition, Store.client_getSnapshot, Store.getSnapshot, hfind]

/-- After the platform has bound a snapshot submitted by CreateFromSource, the snapshot's
status names the new Content and the Content's status carries the Source's handle. -/
theorem bindPreProvisioned_after_create (time : Nat) (st : BetaStore) (src : Source)
    (snapshotName ns uuid : String) (policy : DeletionPolicy)
    (hcont : st.contents.any (Store.hasName (snapshotName ++ "-content-" ++ uuid)) = false)
    (hsnap : st.snapshots.any (Store.hasKey ns snapshotName) = false) :
    let st2 : BetaStore := bindPreProvisioned time ns snapshotName
      { st with
        contents := st.contents ++ [betaContentOf src snapshotName ns uuid policy],
        snapshots := st.snapshots ++ [betaSnapshotOf src snapshotName ns uuid] }
    Store.getSnapshot st2 ns snapshotName
      = .ok { betaSnapshotOf src snapshotName ns uuid with
              Status := some (boundStatus (snapshotName ++ "-content-" ++ uuid) time) } ∧
    Store.getContent st2 (snapshotName ++ "-content-" ++ uuid)
      = .ok { betaContentOf src snapshotName ns uuid policy with
              Status := some { SnapshotHandle := some src.Handle, ReadyToUse := some true } } := by
  have hfindS : (st.snapshots ++ [betaSnapshotOf src snapshotName ns uuid]).find?
      (Store.hasKey ns snapshotName) = some (betaSnapshotOf src snapshotName ns uuid) :=
    Store.find?_append_new _ _ _ hsnap
      (by simp [Store.hasKey, KubeObject.objectMeta, betaSnapshotOf])
  have hfindC : (st.contents ++ [betaContentOf src snapshotName ns uuid policy]).find?
      (Store.hasName (snapshotName ++ "-content-" ++ uuid))
        = some (betaContentOf src snapshotName ns uuid policy) :=
    Store.find?_append_new _ _ _ hcont
      (by simp [Store.hasName, KubeObject.objectMeta, betaContentOf])
  have hkeyS : Store.hasKey ns snapshotName (betaSnapshotOf src snapshotName ns uuid) = true := by
    simp [Store.hasKey, KubeObject.objectMeta, betaSnapshotOf]
  have hkeyC : Store.hasName (snapshotName ++ "-content-" ++ uuid)
      (betaContentOf src snapshotName ns uuid policy) = true := by
    simp [Store.hasName, KubeObject.objectMeta, betaContentOf]
  have hbind : bindPreProvisioned time ns snapshotName
      { st with
        contents := st.contents ++ [betaContentOf src snapshotName ns uuid policy],
        snapshots := st.snapshots ++ [betaSnapshotOf src snapshotName ns uuid] }
      = { st with
          contents := (st.contents ++ [betaContentOf src snapshotName ns uuid policy]).map
            fun cont =>
              if Store.hasName (snapshotName ++ "-content-" ++ uuid) cont then
                { cont with
                  Status := some { SnapshotHandle := cont.Spec.Source.SnapshotHandle,
                                   ReadyToUse := some true } }
              else cont,
          snapshots := (st.snapshots ++ [betaSnapshotOf src snapshotName ns uuid]).map fun x =>
            if Store.hasKey ns snapshotName x then
              { x with Status := some (boundStatus (snapshotName ++ "-content-" ++ uuid) time) }
            else x } := by
    unfold bindPreProvisioned
    simp only [hfindS]
    rfl
  intro st2
  have hst2 : st2 = _ := hbind
  rw [hst2]
  constructor
  · unfold Store.getSnapshot
    simp only
    rw [Store.find?_map_of_preserving _ _ (by
      intro x
      by_cases hx : Store.hasKey ns snapshotName x = true
      · rw [if_pos hx]; rfl
      · rw [if_neg hx]), hfindS]
    simp [hkeyS]
  · unfold Store.getContent
    simp only
    rw [Store.find?_map_of_preserving _ _ (by
      intro x
      by_cases hx : Store.hasName (snapshotName ++ "-content-" ++ uuid) x = true
      · rw [if_pos hx]; rfl
      · rw [if_neg hx]), hfindC]
    simp only [Option.map_some', hkeyC, if_true]
    rfl

/-! ## Clone: the checks on the source snapshot -/

/-- Legacy Clone refuses a source whose ready flag is false: the error names the clone's
target and no call that writes is made. -/
theorem alpha_Clone_source_not_ready {σ : Type} (ctx : Nat) (uuid : String)
    (snapCli : AlphaClient σ) (s : σ) (name ns cloneName cloneNamespace : String)
    (waitForReady : Bool) (snap : v1alpha1.VolumeSnapshot)
    (hget : snapshotAlpha.Get snapCli s name ns = .ok snap)
    (hready : snap.Status.ReadyToUse = false) :
    snapshotAlpha.Clone ctx uuid snapCli s name ns cloneName cloneNamespace waitForReady
      = (s, .ret (some (.text ("Original snapshot is not ready, VolumeSnapshot: " ++ cloneName
          ++ ", Namespace: " ++ cloneNamespace)))) := by
  simp [snapshotAlpha.Clone, hget, hready]

/-- Legacy Clone refuses a ready source whose spec names no Content. -/
theorem alpha_Clone_source_without_content {σ : Type} (ctx : Nat) (uuid : String)
    (snapCli : AlphaClient σ) (s : σ) (name ns cloneName cloneNamespace : String)
    (waitForReady : Bool) (snap : v1alpha1.VolumeSnapshot)
    (hget : snapshotAlpha.Get snapCli s name ns = .ok snap)
    (hready : snap.Status.ReadyToUse = true)
    (hcontent : snap.Spec.SnapshotContentName = "") :
    snapshotAlpha.Clone ctx uuid snapCli s name ns cloneName cloneNamespace waitForReady
      = (s, .ret (some (.text ("Original snapshot does not have content, VolumeSnapshot: "
          ++ cloneName ++ ", Namespace: " ++ cloneNamespace)))) := by
  simp [snapshotAlpha.Clone, hget, hready, hcontent]

/-- Current-generation Clone refuses a source that has a status whose ready flag is absent or
false. -/
theorem beta_Clone_source_not_ready {σ : Type} (ctx : Nat) (uuid : String)
    (snapCli : BetaClient σ) (s : σ) (name ns cloneName cloneNamespace : String)
    (waitForReady : Bool) (snap : v1beta1.VolumeSnapshot) (status : v1beta1.VolumeSnapshotStatus)
    (hget : snapshotBeta.Get snapCli s name ns = .ok snap)
    (hstatus : snap.Status = some status)
    (hready : status.ReadyToUse = none ∨ status.ReadyToUse = some false) :
    snapshotBeta.Clone ctx uuid snapCli s name ns cloneName cloneNamespace waitForReady
      = (s, .ret (some (.text ("Original snapshot is not ready, VolumeSnapshot: " ++ cloneName
          ++ ", Namespace: " ++ cloneNamespace)))) := by
  rcases hready with h | h <;> simp [snapshotBeta.Clone, hget, hstatus, h]

/-- Current-generation Clone refuses a ready source whose spec names no Content, whatever its
status says about a bound Content. -/
theorem beta_Clone_source_without_content {σ : Type} (ctx : Nat) (uuid : String)
    (snapCli : BetaClient σ) (s : σ) (name ns cloneName cloneNamespace : String)
    (waitForReady : Bool) (snap : v1beta1.VolumeSnapshot) (status : v1beta1.VolumeSnapshotStatus)
    (hget : snapshotBeta.Get snapCli s name ns = .ok snap)
    (hstatus : snap.Status = some status)
    (hready : status.ReadyToUse = some true)
    (hcontent : snap.Spec.Source.VolumeSnapshotContentName = none
      ∨ snap.Spec.Source.VolumeSnapshotContentName = some "") :
    snapshotBeta.Clone ctx uuid snapCli s name ns cloneName cloneNamespace waitForReady
      = (s, .ret (some (.text ("Original snapshot does not have content, VolumeSnapshot: "
          ++ cloneName ++ ", Namespace: " ++ cloneNamespace)))) := by
  rcases hcontent with h | h <;> simp [snapshotBeta.Clone, hget, hstatus, hready, h]

/-! ## The poller: a poll that reports an error -/

/-- The poller ends with the error of the first poll that reports one, in the state that poll
saw, when every earlier poll reported "not done, no error" and the context allows the poll. -/
theorem pollWait_error_at {σ : Type} (elapse : σ → σ) (cond : σ → Res (Bool × Option GoError))
    (i ctx : Nat) (s : σ) (b : Bool) (e : GoError) (hi : i ≤ ctx)
    (hpend : ∀ j, j < i → cond (elapse^[j] s) = .ret (false, none))
    (herr : cond (elapse^[i] s) = .ret (b, some e)) :
    pollWait elapse cond ctx s = (elapse^[i] s, .ret (some e)) := by
  induction i generalizing s ctx with
  | zero =>
    simp only [Function.iterate_zero, id_eq] at herr
    cases ctx <;> simp [pollWait, herr]
  | succ k ih =>
    cases ctx with
    | zero => exact absurd hi (Nat.not_succ_le_zero k)
    | succ n =>
      have h0 : cond s = .ret (false, none) := by simpa using hpend 0 (Nat.succ_pos k)
      unfold pollWait
      simp only [h0]
      rw [Function.iterate_succ_apply]
      refine ih n (elapse s) (Nat.le_of_succ_le_succ hi) ?_ ?_
      · intro j hj
        have := hpend (j + 1) (Nat.succ_lt_succ hj)
        simpa [Function.iterate_succ_apply] using this
      · simpa [Function.iterate_succ_apply] using herr

/-! ## GetSource on a bound snapshot -/

/-- Legacy GetSource on a snapshot whose Content is found and carries a CSI source: the Source
is read off that Content, whatever the snapshot's status. -/
theorem alpha_GetSource_of_content {σ : Type} (snapCli : AlphaClient σ) (s : σ)
    (snapshotName ns : String) (snap : v1alpha1.VolumeSnapshot)
    (cont : v1alpha1.VolumeSnapshotContent) (csi : v1alpha1.CSIVolumeSnapshotSource)
    (hget : snapshotAlpha.Get snapCli s snapshotName ns = .ok snap)
    (hcont : snapshotAlpha.getContent snapCli s snap.Spec.SnapshotContentName = .ok cont)
    (hcsi : cont.Spec.VolumeSnapshotSource.CSI = some csi) :
    snapshotAlpha.GetSource snapCli s snapshotName ns
      = .ret (.ok { Handle := csi.SnapshotHandle, Driver := csi.Driver,
                    RestoreSize := csi.RestoreSize,
                    VolumeSnapshotClassName := cont.Spec.VolumeSnapshotClassName }) := by
  simp [snapshotAlpha.GetSource, hget, hcont, hcsi]

/-- Current-generation GetSource on a snapshot whose status names a Content that is found and
whose status carries a handle: the Source is read off that Content, whatever the snapshot's
ready flag. -/
theorem beta_GetSource_of_content {σ : Type} (snapCli : BetaClient σ) (s : σ)
    (snapshotName ns boundName handle : String) (snap : v1beta1.VolumeSnapshot)
    (status : v1beta1.VolumeSnapshotStatus) (cont : v1beta1.VolumeSnapshotContent)
    (contStatus : v1beta1.VolumeSnapshotContentStatus)
    (hget : snapshotBeta.Get snapCli s snapshotName ns = .ok snap)
    (hstatus : snap.Status = some status)
    (hbound : status.BoundVolumeSnapshotContentName = some boundName)
    (hcont : snapshotBeta.getContent snapCli s boundName = .ok cont)
    (hcs : cont.Status = some contStatus)
    (hhandle : contStatus.SnapshotHandle = some handle) :
    snapshotBeta.GetSource snapCli s snapshotName ns
      = .ret (.ok { Handle := handle, Driver := cont.Spec.Driver,
                    RestoreSize := contStatus.RestoreSize,
                    VolumeSnapshotClassName := cont.Spec.VolumeSnapshotClassName }) := by
  simp [snapshotBeta.GetSource, hget, hstatus, hbound, hcont, hcs, hhandle]

/-! ## Create over the store -/

/-- Creating a legacy snapshot that already carries the request's namespace, at a free
identity, stores it as it is. -/
theorem alpha_createSnapshot_named_of_absent (st : AlphaStore) (ns : String)
    (obj : v1alpha1.VolumeSnapshot) (hns : obj.ObjectMeta.Namespace = ns)
    (h : st.snapshots.any (Store.hasKey ns obj.ObjectMeta.Name) = false) :
    Store.createSnapshot st ns obj
      = ({ st with snapshots := st.snapshots ++ [obj] }, .created obj) := by
  subst hns
  by_cases hempty : obj.ObjectMeta.Namespace = ""
  · have hobj : ({ obj with ObjectMeta := { obj.ObjectMeta with Namespace := "" } } :
        v1alpha1.VolumeSnapshot) = obj := by
      cases obj with
      | mk objectMeta spec status =>
        cases objectMeta
        simp_all
    have hany : st.snapshots.any (Store.hasKey "" obj.ObjectMeta.Name) = false := by
      simpa [hempty] using h
    simp [Store.createSnapshot, KubeObject.objectMeta, KubeObject.setNamespace, hempty, hany,
      hobj]
  · simp [Store.createSnapshot, KubeObject.objectMeta, KubeObject.setNamespace, hempty, h]

/-- Creating a current-generation snapshot that already carries the request's namespace, at a
free identity, stores it as it is. -/
theorem beta_createSnapshot_named_of_absent (st : BetaStore) (ns : String)
    (obj : v1beta1.VolumeSnapshot) (hns : obj.ObjectMeta.Namespace = ns)
    (h : st.snapshots.any (Store.hasKey ns obj.ObjectMeta.Name) = false) :
    Store.createSnapshot st ns obj
      = ({ st with snapshots := st.snapshots ++ [obj] }, .created obj) := by
  subst hns
  by_cases hempty : obj.ObjectMeta.Namespace = ""
  · have hobj : ({ obj with ObjectMeta := { obj.ObjectMeta with Namespace := "" } } :
        v1beta1.VolumeSnapshot) = obj := by
      cases obj with
      | mk objectMeta spec status =>
        cases objectMeta
        simp_all
    have hany : st.snapshots.any (Store.hasKey "" obj.ObjectMeta.Name) = false := by
      simpa [hempty] using h
    simp [Store.createSnapshot, KubeObject.objectMeta, KubeObject.setNamespace, hempty, hany,
      hobj]
  · simp [Store.createSnapshot, KubeObject.objectMeta, KubeObject.setNamespace, hempty, h]

/-- The store's core client finds a claim that is in the store. -/
theorem Store.kubeClient_getPVC_of_present {S C K : Type} (st : Store S C K) (ns name : String)
    (h : st.pvcs.contains (ns, name) = true) :
    (Store.kubeClient : KubeClient (Store S C K)).getPVC st ns name = none := by
  simp only [Store.kubeClient, h, if_true]

/-- The store's core client answers not-found for a claim that is not in the store. -/
theorem Store.kubeClient_getPVC_of_absent {S C K : Type} (st : Store S C K) (ns name : String)
    (h : st.pvcs.contains (ns, name) = false) :
    (Store.kubeClient : KubeClient (Store S C K)).getPVC st ns name
      = some (Store.notFound "persistentvolumeclaims" name) := by
  simp only [Store.kubeClient, h]
  rfl

/-! ## CreateFromSource step by step -/

/-- Legacy CreateFromSource once the Source's class is found: it submits the Content, then the
Snapshot, then optionally waits; each failed submission ends the call. -/
theorem alpha_CreateFromSource_steps {σ : Type} (ctx : Nat) (uuid : String)
    (snapCli : AlphaClient σ) (s : σ) (src : Source) (snapshotName ns : String)
    (waitForReady : Bool) (className : String) (k : v1alpha1.VolumeSnapshotClass)
    (hc : src.VolumeSnapshotClassName = some className)
    (hk : snapCli.getClass s className = .ok k) :
    snapshotAlpha.CreateFromSource ctx uuid snapCli s src snapshotName ns waitForReady
      = match snapCli.createContent s
            (alphaContentOf src snapshotName ns uuid k.DeletionPolicy) with
        | (s1, .failed none _) => (s1, .nilDeref)
        | (s1, .failed (some content1) err) =>
          (s1, .ret (some (.text ("Failed to create content, VolumesnapshotContent: "
            ++ content1.ObjectMeta.Name ++ ", Error: " ++ err.Error))))
        | (s1, .created _) =>
          match snapCli.createSnapshot s1 ns (alphaSnapshotOf src snapshotName "" uuid) with
          | (s2, .failed none _) => (s2, .nilDeref)
          | (s2, .failed (some snap1) err) =>
            (s2, .ret (some (.text ("Failed to create content, Volumesnapshot: "
              ++ snap1.ObjectMeta.Name ++ ", Error: " ++ err.Error))))
          | (s2, .created snap1) =>
            if !waitForReady then (s2, .ret none)
            else snapshotAlpha.WaitOnReadyToUse ctx snapCli s2 snap1.ObjectMeta.Name
              snap1.ObjectMeta.Namespace := by
  unfold snapshotAlpha.CreateFromSource
  simp only [snapshotAlpha.getDeletionPolicyFromClass, alphaContentOf, alphaSnapshotOf, hc, hk]

/-- Current-generation CreateFromSource once the Source's class is found: it submits the
Content, then the Snapshot, then optionally waits; each failed submission ends the call. -/
theorem beta_CreateFromSource_steps {σ : Type} (ctx : Nat) (uuid : String)
    (snapCli : BetaClient σ) (s : σ) (src : Source) (snapshotName ns : String)
    (waitForReady : Bool) (className : String) (k : v1beta1.VolumeSnapshotClass)
    (hc : src.VolumeSnapshotClassName = some className)
    (hk : snapCli.getClass s className = .ok k) :
    snapshotBeta.CreateFromSource ctx uuid snapCli s src snapshotName ns waitForReady
      = match snapCli.createContent s
            (betaContentOf src snapshotName ns uuid k.DeletionPolicy) with
        | (s1, .failed none _) => (s1, .nilDeref)
        | (s1, .failed (some content1) err) =>
          (s1, .ret (some (.text ("Failed to create content, VolumesnapshotContent: "
            ++ content1.ObjectMeta.Name ++ ", Error: " ++ err.Error))))
        | (s1, .created _) =>
          match snapCli.createSnapshot s1 ns (betaSnapshotOf src snapshotName "" uuid) with
          | (s2, .failed none _) => (s2, .nilDeref)
          | (s2, .failed (some snap1) err) =>
            (s2, .ret (some (.text ("Failed to create content, Volumesnapshot: "
              ++ snap1.ObjectMeta.Name ++ ", Error: " ++ err.Error))))
          | (s2, .created snap1) =>
            if !waitForReady then (s2, .ret none)
            else snapshotBeta.WaitOnReadyToUse ctx snapCli s2 snap1.ObjectMeta.Name
              snap1.ObjectMeta.Namespace := by
  unfold snapshotBeta.CreateFromSource
  simp only [snapshotBeta.getDeletionPolicyFromClass, betaContentOf, betaSnapshotOf, hc, hk]

/-- CreateFromSource of either backend when the lookup of the Source's class fails: the
wrapped lookup error, and no call that writes. -/
theorem CreateFromSource_of_class_failure {σ τ : Type} (ctx : Nat) (uuid : String)
    (src : Source) (snapshotName ns : String) (waitForReady : Bool) (className : String)
    (hc : src.VolumeSnapshotClassName = some className) :
    (∀ (alphaCli : AlphaClient σ) (s : σ) (err : GoError),
      alphaCli.getClass s className = .error err →
      snapshotAlpha.CreateFromSource ctx uuid alphaCli s src snapshotName ns waitForReady
        = (s, .ret (some (.wrapped
            (.wrapped err ("Failed to find VolumeSnapshotClass: " ++ className))
            "Failed to get DeletionPolicy from VolumeSnapshotClass")))) ∧
    (∀ (betaCli : BetaClient τ) (t : τ) (err : GoError),
      betaCli.getClass t className = .error err →
      snapshotBeta.CreateFromSource ctx uuid betaCli t src snapshotName ns waitForReady
        = (t, .ret (some (.wrapped
            (.wrapped err ("Failed to find VolumeSnapshotClass: " ++ className))
            "Failed to get DeletionPolicy from VolumeSnapshotClass")))) := by
  constructor
  · intro alphaCli s err herr
    simp [snapshotAlpha.CreateFromSource, snapshotAlpha.getDeletionPolicyFromClass, hc, herr,
      errorsWrap]
  · intro betaCli t err herr
    simp [snapshotBeta.CreateFromSource, snapshotBeta.getDeletionPolicyFromClass, hc, herr,
      errorsWrap]

/-- Legacy CreateFromSource over the store when the Content name is taken: the Content
submission is refused and the store is left as it was. -/
theorem alpha_CreateFromSource_content_taken (platform : AlphaStore → AlphaStore) (ctx : Nat)
    (uuid : String) (st : AlphaStore) (src : Source) (snapshotName ns : String)
    (waitForReady : Bool) (className : String) (k : v1alpha1.VolumeSnapshotClass)
    (hc : src.VolumeSnapshotClassName = some className)
    (hk : Store.getClass st className = .ok k)
    (htaken : st.contents.any (Store.hasName (snapshotName ++ "-content-" ++ uuid)) = true) :
    snapshotAlpha.CreateFromSource ctx uuid (Store.client platform) st src snapshotName ns
        waitForReady
      = (st, .ret (some (.text ("Failed to create content, VolumesnapshotContent: " ++ ""
          ++ ", Error: " ++ (Store.alreadyExists "volumesnapshotcontents"
            (snapshotName ++ "-content-" ++ uuid)).Error)))) := by
  rw [alpha_CreateFromSource_steps ctx uuid _ st src snapshotName ns waitForReady className k hc
    hk, Store.client_createContent, Store.createContent_of_present _ _ htaken]
  rfl

/-- Legacy CreateFromSource over the store when the Content name is free and the snapshot
identity is taken: the Content is added, the Snapshot submission is refused, and the call
returns the error with the store holding the new Content. -/
theorem alpha_CreateFromSource_snapshot_taken (platform : AlphaStore → AlphaStore) (ctx : Nat)
    (uuid : String) (st : AlphaStore) (src : Source) (snapshotName ns : String)
    (waitForReady : Bool) (className : String) (k : v1alpha1.VolumeSnapshotClass)
    (hc : src.VolumeSnapshotClassName = some className)
    (hk : Store.getClass st className = .ok k)
    (hfree : st.contents.any (Store.hasName (snapshotName ++ "-content-" ++ uuid)) = false)
    (htaken : st.snapshots.any (Store.hasKey ns snapshotName) = true) :
    snapshotAlpha.CreateFromSource ctx uuid (Store.client platform) st src snapshotName ns
        waitForReady
      = ({ st with contents := st.contents
            ++ [alphaContentOf src snapshotName ns uuid k.DeletionPolicy] },
         .ret (some (.text ("Failed to create content, Volumesnapshot: " ++ ""
          ++ ", Error: " ++ (Store.alreadyExists "volumesnapshots" snapshotName).Error)))) := by
  rw [alpha_CreateFromSource_steps ctx uuid _ st src snapshotName ns waitForReady className k hc
    hk, Store.client_createContent, Store.createContent_of_absent _ _ hfree]
  simp only [Store.client_createSnapshot]
  rw [alpha_createSnapshot_of_present _ ns _ rfl htaken]
  rfl

/-- Legacy CreateFromSource over the store when the Content name and the snapshot identity
are free: both objects are added, and the call returns, or waits on the new snapshot. -/
theorem alpha_CreateFromSource_both_free (platform : AlphaStore → AlphaStore) (ctx : Nat)
    (uuid : String) (st : AlphaStore) (src : Source) (snapshotName ns : String)
    (waitForReady : Bool) (className : String) (k : v1alpha1.VolumeSnapshotClass)
    (hc : src.VolumeSnapshotClassName = some className)
    (hk : Store.getClass st className = .ok k)
    (hfreeC : st.contents.any (Store.hasName (snapshotName ++ "-content-" ++ uuid)) = false)
    (hfreeS : st.snapshots.any (Store.hasKey ns snapshotName) = false) :
    snapshotAlpha.CreateFromSource ctx uuid (Store.client platform) st src snapshotName ns
        waitForReady
      = if !waitForReady then
          ({ st with
             contents := st.contents
               ++ [alphaContentOf src snapshotName ns uuid k.DeletionPolicy],
             snapshots := st.snapshots ++ [alphaSnapshotOf src snapshotName ns uuid] },
           .ret none)
        else
          snapshotAlpha.WaitOnReadyToUse ctx (Store.client platform)
            { st with
              contents := st.contents
                ++ [alphaContentOf src snapshotName ns uuid k.DeletionPolicy],
              snapshots := st.snapshots ++ [alphaSnapshotOf src snapshotName ns uuid] }
            snapshotName ns := by
  rw [alpha_CreateFromSource_steps ctx uuid _ st src snapshotName ns waitForReady className k hc
    hk, Store.client_createContent, Store.createContent_of_absent _ _ hfreeC]
  simp only [Store.client_createSnapshot]
  rw [alpha_createSnapshot_of_absent _ ns _ rfl hfreeS]
  rfl

/-- Current-generation CreateFromSource over the store when the Content name is taken: the
Content submission is refused and the store is left as it was. -/
theorem beta_CreateFromSource_content_taken (platform : BetaStore → BetaStore) (ctx : Nat)
    (uuid : String) (st : BetaStore) (src : Source) (snapshotName ns : String)
    (waitForReady : Bool) (className : String) (k : v1beta1.VolumeSnapshotClass)
    (hc : src.VolumeSnapshotClassName = some className)
    (hk : Store.getClass st className = .ok k)
    (htaken : st.contents.any (Store.hasName (snapshotName ++ "-content-" ++ uuid)) = true) :
    snapshotBeta.CreateFromSource ctx uuid (Store.client platform) st src snapshotName ns
        waitForReady
      = (st, .ret (some (.text ("Failed to create content, VolumesnapshotContent: " ++ ""
          ++ ", Error: " ++ (Store.alreadyExists "volumesnapshotcontents"
            (snapshotName ++ "-content-" ++ uuid)).Error)))) := by
  rw [beta_CreateFromSource_steps ctx uuid _ st src snapshotName ns waitForReady className k hc
    hk, Store.client_createContent, Store.createContent_of_present _ _ htaken]
  rfl

/-- Current-generation CreateFromSource over the store when the Content name is free and the
snapshot identity is taken: the Content is added, the Snapshot submission is refused, and the
call returns the error with the store holding the new Content. -/
theorem beta_CreateFromSource_snapshot_taken (platform : BetaStore → BetaStore) (ctx : Nat)
    (uuid : String) (st : BetaStore) (src : Source) (snapshotName ns : String)
    (waitForReady : Bool) (className : String) (k : v1beta1.VolumeSnapshotClass)
    (hc : src.VolumeSnapshotClassName = some className)
    (hk : Store.getClass st className = .ok k)
    (hfree : st.contents.any (Store.hasName (snapshotName ++ "-content-" ++ uuid)) = false)
    (htaken : st.snapshots.any (Store.hasKey ns snapshotName) = true) :
    snapshotBeta.CreateFromSource ctx uuid (Store.client platform) st src snapshotName ns
        waitForReady
      = ({ st with contents := st.contents
            ++ [betaContentOf src snapshotName ns uuid k.DeletionPolicy] },
         .ret (some (.text ("Failed to create content, Volumesnapshot: " ++ ""
          ++ ", Error: " ++ (Store.alreadyExists "volumesnapshots" snapshotName).Error)))) := by
  rw [beta_CreateFromSource_steps ctx uuid _ st src snapshotName ns waitForReady className k hc
    hk, Store.client_createContent, Store.createContent_of_absent _ _ hfree]
  simp only [Store.client_createSnapshot]
  rw [beta_createSnapshot_of_present _ ns _ rfl htaken]
  rfl

/-- Current-generation CreateFromSource over the store when the Content name and the snapshot
identity are free: both objects are added, and the call returns, or waits on the new
snapshot. -/
theorem beta_CreateFromSource_both_free (platform : BetaStore → BetaStore) (ctx : Nat)
    (uuid : String) (st : BetaStore) (src : Source) (snapshotName ns : String)
    (waitForReady : Bool) (className : String) (k : v1beta1.VolumeSnapshotClass)
    (hc : src.VolumeSnapshotClassName = some className)
    (hk : Store.getClass st className = .ok k)
    (hfreeC : st.contents.any (Store.hasName (snapshotName ++ "-content-" ++ uuid)) = false)
    (hfreeS : st.snapshots.any (Store.hasKey ns snapshotName) = false) :
    snapshotBeta.CreateFromSource ctx uuid (Store.client platform) st src snapshotName ns
        waitForReady
      = if !waitForReady then
          ({ st with
             contents := st.contents
               ++ [betaContentOf src snapshotName ns uuid k.DeletionPolicy],
             snapshots := st.snapshots ++ [betaSnapshotOf src snapshotName ns uuid] },
           .ret none)
        else
          snapshotBeta.WaitOnReadyToUse ctx (Store.client platform)
            { st with
              contents := st.contents
                ++ [betaContentOf src snapshotName ns uuid k.DeletionPolicy],
              snapshots := st.snapshots ++ [betaSnapshotOf src snapshotName ns uuid] }
            snapshotName ns := by
  rw [beta_CreateFromSource_steps ctx uuid _ st src snapshotName ns waitForReady className k hc
    hk, Store.client_createContent, Store.createContent_of_absent _ _ hfreeC]
  simp only [Store.client_createSnapshot]
  rw [beta_createSnapshot_of_absent _ ns _ rfl hfreeS]
  rfl

/-! ## Clone's delegation and refused snapshot submissions -/

/-- Legacy Clone, for a source that passes its checks and a target that is not found, is
CreateFromSource of the extracted Source at the target. -/
theorem alpha_Clone_delegates {σ : Type} (ctx : Nat) (uuid : String) (snapCli : AlphaClient σ)
    (s : σ) (name ns cloneName cloneNamespace : String) (waitForReady : Bool)
    (snap : v1alpha1.VolumeSnapshot) (err : GoError) (src : Source)
    (hget : snapshotAlpha.Get snapCli s name ns = .ok snap)
    (hready : snap.Status.ReadyToUse = true)
    (hbound : snap.Spec.SnapshotContentName ≠ "")
    (htarget : snapshotAlpha.Get snapCli s cloneName cloneNamespace = .error err)
    (hnf : IsNotFound (some err) = true)
    (hsrc : snapshotAlpha.GetSource snapCli s name ns = .ret (.ok src)) :
    snapshotAlpha.Clone ctx uuid snapCli s name ns cloneName cloneNamespace waitForReady
      = snapshotAlpha.CreateFromSource ctx uuid snapCli s src cloneName cloneNamespace
          waitForReady := by
  simp [snapshotAlpha.Clone, hget, hready, hbound, htarget, hnf, hsrc]

/-- Current-generation Clone, for a source that passes its checks and a target that is not
found, is CreateFromSource of the extracted Source at the target. -/
theorem beta_Clone_delegates {σ : Type} (ctx : Nat) (uuid : String) (snapCli : BetaClient σ)
    (s : σ) (name ns cloneName cloneNamespace contentName : String) (waitForReady : Bool)
    (snap : v1beta1.VolumeSnapshot) (status : v1beta1.VolumeSnapshotStatus) (err : GoError)
    (src : Source)
    (hget : snapshotBeta.Get snapCli s name ns = .ok snap)
    (hstatus : snap.Status = some status)
    (hready : status.ReadyToUse = some true)
    (hbound : snap.Spec.Source.VolumeSnapshotContentName = some contentName)
    (hnonempty : contentName ≠ "")
    (htarget : snapshotBeta.Get snapCli s cloneName cloneNamespace = .error err)
    (hnf : IsNotFound (some err) = true)
    (hsrc : snapshotBeta.GetSource snapCli s name ns = .ret (.ok src)) :
    snapshotBeta.Clone ctx uuid snapCli s name ns cloneName cloneNamespace waitForReady
      = snapshotBeta.CreateFromSource ctx uuid snapCli s src cloneName cloneNamespace
          waitForReady := by
  simp [snapshotBeta.Clone, hget, hstatus, hready, hbound, hnonempty, htarget, hnf, hsrc]

/-- The store answers not-found for a snapshot identity that is free. -/
theorem Store.getSnapshot_of_absent {S C K : Type} [KubeObject S] (st : Store S C K)
    (ns name : String) (h : st.snapshots.any (Store.hasKey ns name) = false) :
    Store.getSnapshot st ns name = .error (Store.notFound "volumesnapshots" name) := by
  have hnone : st.snapshots.find? (Store.hasKey ns name) = none := by
    rw [List.find?_eq_none]
    intro a ha hpa
    have : st.snapshots.any (Store.hasKey ns name) = true := List.any_eq_true.mpr ⟨a, ha, hpa⟩
    simp [h] at this
  simp [Store.getSnapshot, hnone]

/-- Legacy CreateFromSource on a platform that refuses snapshot submissions, with the class
found and the Content name free: the Content is added, the refusal is returned, and nothing
is taken back. -/
theorem alpha_CreateFromSource_snapshot_refused (platform : AlphaStore → AlphaStore)
    (ctx : Nat) (uuid : String) (st : AlphaStore) (src : Source) (snapshotName ns : String)
    (waitForReady : Bool) (className : String) (k : v1alpha1.VolumeSnapshotClass)
    (err : GoError)
    (hc : src.VolumeSnapshotClassName = some className)
    (hk : Store.getClass st className = .ok k)
    (hfree : st.contents.any (Store.hasName (snapshotName ++ "-content-" ++ uuid)) = false) :
    snapshotAlpha.CreateFromSource ctx uuid (Store.refusingSnapshots platform err) st src
        snapshotName ns waitForReady
      = ({ st with contents := st.contents
            ++ [alphaContentOf src snapshotName ns uuid k.DeletionPolicy] },
         .ret (some (.text ("Failed to create content, Volumesnapshot: " ++ ""
          ++ ", Error: " ++ err.Error)))) := by
  rw [alpha_CreateFromSource_steps ctx uuid _ st src snapshotName ns waitForReady className k hc
    hk]
  have hcreate : (Store.refusingSnapshots platform err : AlphaClient AlphaStore).createContent
      st (alphaContentOf src snapshotName ns uuid k.DeletionPolicy)
      = ({ st with contents := st.contents
            ++ [alphaContentOf src snapshotName ns uuid k.DeletionPolicy] },
         .created (alphaContentOf src snapshotName ns uuid k.DeletionPolicy)) :=
    Store.createContent_of_absent st _ hfree
  rw [hcreate]
  rfl

/-- Current-generation CreateFromSource on a platform that refuses snapshot submissions, with
the class found and the Content name free: the Content is added, the refusal is returned, and
nothing is taken back. -/
theorem beta_CreateFromSource_snapshot_refused (platform : BetaStore → BetaStore)
    (ctx : Nat) (uuid : String) (st : BetaStore) (src : Source) (snapshotName ns : String)
    (waitForReady : Bool) (className : String) (k : v1beta1.VolumeSnapshotClass)
    (err : GoError)
    (hc : src.VolumeSnapshotClassName = some className)
    (hk : Store.getClass st className = .ok k)
    (hfree : st.contents.any (Store.hasName (snapshotName ++ "-content-" ++ uuid)) = false) :
    snapshotBeta.CreateFromSource ctx uuid (Store.refusingSnapshots platform err) st src
        snapshotName ns waitForReady
      = ({ st with contents := st.contents
            ++ [betaContentOf src snapshotName ns uuid k.DeletionPolicy] },
         .ret (some (.text ("Failed to create content, Volumesnapshot: " ++ ""
          ++ ", Error: " ++ err.Error)))) := by
  rw [beta_CreateFromSource_steps ctx uuid _ st src snapshotName ns waitForReady className k hc
    hk]
  have hcreate : (Store.refusingSnapshots platform err : BetaClient BetaStore).createContent
      st (betaContentOf src snapshotName ns uuid k.DeletionPolicy)
      = ({ st with contents := st.contents
            ++ [betaContentOf src snapshotName ns uuid k.DeletionPolicy] },
         .created (betaContentOf src snapshotName ns uuid k.DeletionPolicy)) :=
    Store.createContent_of_absent st _ hfree
  rw [hcreate]
  rfl

/-- A Content appended under a free name is found under that name. -/
theorem Store.getContent_appended {S C K : Type} [KubeObject C] (st : Store S C K) (obj : C)
    (h : st.contents.any (Store.hasName (KubeObject.objectMeta obj).Name) = false) :
    Store.getContent ({ st with contents := st.contents ++ [obj] } : Store S C K)
      (KubeObject.objectMeta obj).Name = .ok obj := by
  unfold Store.getContent
  simp only
  rw [Store.find?_append_new _ _ _ h (by simp [Store.hasName])]

/-! ## Clone only appends -/

/-- Appending nothing leaves the store as it is. -/
theorem Store.extend_nil {S C K : Type} (st : Store S C K) : st.extend [] [] = st := by
  cases st
  simp [Store.extend]

/-- A snapshot found in the store is found, unchanged, after objects are appended. -/
theorem Store.getSnapshot_extend {S C K : Type} [KubeObject S] (st : Store S C K)
    (cs : List C) (ss : List S) (ns name : String) (snap : S)
    (h : Store.getSnapshot st ns name = .ok snap) :
    Store.getSnapshot (st.extend cs ss) ns name = .ok snap := by
  unfold Store.getSnapshot at h ⊢
  cases hf : st.snapshots.find? (Store.hasKey ns name) with
  | none => simp [hf] at h
  | some x =>
    simp only [hf] at h
    simp [Store.extend, List.find?_append, hf, h]

/-- A Content found in the store is found, unchanged, after objects are appended. -/
theorem Store.getContent_extend {S C K : Type} [KubeObject C] (st : Store S C K)
    (cs : List C) (ss : List S) (name : String) (cont : C)
    (h : Store.getContent st name = .ok cont) :
    Store.getContent (st.extend cs ss) name = .ok cont := by
  unfold Store.getContent at h ⊢
  cases hf : st.contents.find? (Store.hasName name) with
  | none => simp [hf] at h
  | some x =>
    simp only [hf] at h
    simp [Store.extend, List.find?_append, hf, h]

/-- The classes are not touched when objects are appended. -/
theorem Store.getClass_extend {S C K : Type} [KubeObject K] (st : Store S C K)
    (cs : List C) (ss : List S) (name : String) :
    Store.getClass (st.extend cs ss) name = Store.getClass st name := rfl

/-- Whatever its outcome, legacy CreateFromSource over the store appends at most one Content
and at most one Snapshot; any other change is the platform's, during the wait. -/
theorem alpha_CreateFromSource_appends (platform : AlphaStore → AlphaStore) (ctx : Nat)
    (uuid : String) (st : AlphaStore) (src : Source) (snapshotName ns : String)
    (waitForReady : Bool) :
    ∃ i cs ss, cs.length ≤ 1 ∧ ss.length ≤ 1 ∧
      (snapshotAlpha.CreateFromSource ctx uuid (Store.client platform) st src snapshotName ns
        waitForReady).1 = platform^[i] (st.extend cs ss) := by
  have hnone : ∀ r : Res (Option GoError), ∃ i cs ss, cs.length ≤ 1 ∧ ss.length ≤ 1 ∧
      ((st, r) : AlphaStore × Res (Option GoError)).1 = platform^[i] (st.extend cs ss) :=
    fun _ => ⟨0, [], [], by simp, by simp, (Store.extend_nil st).symm⟩
  cases hc : src.VolumeSnapshotClassName with
  | none =>
    have : snapshotAlpha.CreateFromSource ctx uuid (Store.client platform) st src snapshotName
        ns waitForReady = (st, .nilDeref) := by
      simp [snapshotAlpha.CreateFromSource, hc]
    rw [this]
    exact hnone _
  | some className =>
    cases hk : Store.getClass st className with
    | error err =>
      rw [(@CreateFromSource_of_class_failure AlphaStore BetaStore ctx uuid src snapshotName ns
        waitForReady className hc).1 (Store.client platform) st err hk]
      exact hnone _
    | ok k =>
      cases hcont : st.contents.any (Store.hasName (snapshotName ++ "-content-" ++ uuid)) with
      | true =>
        rw [alpha_CreateFromSource_content_taken platform ctx uuid st src snapshotName ns
          waitForReady className k hc hk hcont]
        exact hnone _
      | false =>
        cases hsnap : st.snapshots.any (Store.hasKey ns snapshotName) with
        | true =>
          rw [alpha_CreateFromSource_snapshot_taken platform ctx uuid st src snapshotName ns
            waitForReady className k hc hk hcont hsnap]
          refine ⟨0, [alphaContentOf src snapshotName ns uuid k.DeletionPolicy], [], by simp,
            by simp, ?_⟩
          simp [Store.extend]
        | false =>
          rw [alpha_CreateFromSource_both_free platform ctx uuid st src snapshotName ns
            waitForReady className k hc hk hcont hsnap]
          cases waitForReady with
          | false =>
            exact ⟨0, [alphaContentOf src snapshotName ns uuid k.DeletionPolicy],
              [alphaSnapshotOf src snapshotName ns uuid], by simp, by simp, rfl⟩
          | true =>
            obtain ⟨i, hi⟩ := pollWait_state platform
              (snapshotAlpha.waitCondition (Store.client platform) snapshotName ns) ctx
              (st.extend [alphaContentOf src snapshotName ns uuid k.DeletionPolicy]
                [alphaSnapshotOf src snapshotName ns uuid])
            exact ⟨i, [alphaContentOf src snapshotName ns uuid k.DeletionPolicy],
              [alphaSnapshotOf src snapshotName ns uuid], by simp, by simp, hi⟩

/-- Whatever its outcome, current-generation CreateFromSource over the store appends at most
one Content and at most one Snapshot; any other change is the platform's, during the wait. -/
theorem beta_CreateFromSource_appends (platform : BetaStore → BetaStore) (ctx : Nat)
    (uuid : String) (st : BetaStore) (src : Source) (snapshotName ns : String)
    (waitForReady : Bool) :
    ∃ i cs ss, cs.length ≤ 1 ∧ ss.length ≤ 1 ∧
      (snapshotBeta.CreateFromSource ctx uuid (Store.client platform) st src snapshotName ns
        waitForReady).1 = platform^[i] (st.extend cs ss) := by
  have hnone : ∀ r : Res (Option GoError), ∃ i cs ss, cs.length ≤ 1 ∧ ss.length ≤ 1 ∧
      ((st, r) : BetaStore × Res (Option GoError)).1 = platform^[i] (st.extend cs ss) :=
    fun _ => ⟨0, [], [], by simp, by simp, (Store.extend_nil st).symm⟩
  cases hc : src.VolumeSnapshotClassName with
  | none =>
    have : snapshotBeta.CreateFromSource ctx uuid (Store.client platform) st src snapshotName
        ns waitForReady = (st, .nilDeref) := by
      simp [snapshotBeta.CreateFromSource, hc]
    rw [this]
    exact hnone _
  | some className =>
    cases hk : Store.getClass st className with
    | error err =>
      rw [(@CreateFromSource_of_class_failure AlphaStore BetaStore ctx uuid src snapshotName ns
        waitForReady className hc).2 (Store.client platform) st err hk]
      exact hnone _
    | ok k =>
      cases hcont : st.contents.any (Store.hasName (snapshotName ++ "-content-" ++ uuid)) with
      | true =>
        rw [beta_CreateFromSource_content_taken platform ctx uuid st src snapshotName ns
          waitForReady className k hc hk hcont]
        exact hnone _
      | false =>
        cases hsnap : st.snapshots.any (Store.hasKey ns snapshotName) with
        | true =>
          rw [beta_CreateFromSource_snapshot_taken platform ctx uuid st src snapshotName ns
            waitForReady className k hc hk hcont hsnap]
          refine ⟨0, [betaContentOf src snapshotName ns uuid k.DeletionPolicy], [], by simp,
            by simp, ?_⟩
          simp [Store.extend]
        | false =>
          rw [beta_CreateFromSource_both_free platform ctx uuid st src snapshotName ns
            waitForReady className k hc hk hcont hsnap]
          cases waitForReady with
          | false =>
            exact ⟨0, [betaContentOf src snapshotName ns uuid k.DeletionPolicy],
              [betaSnapshotOf src snapshotName ns uuid], by simp, by simp, rfl⟩
          | true =>
            obtain ⟨i, hi⟩ := pollWait_state platform
              (snapshotBeta.waitCondition (Store.client platform) snapshotName ns) ctx
              (st.extend [betaContentOf src snapshotName ns uuid k.DeletionPolicy]
                [betaSnapshotOf src snapshotName ns uuid])
            exact ⟨i, [betaContentOf src snapshotName ns uuid k.DeletionPolicy],
              [betaSnapshotOf src snapshotName ns uuid], by simp, by simp, hi⟩

/-- Whatever its outcome, legacy Clone over the store appends at most one Content and at most
one Snapshot; any other change is the platform's, during the wait. -/
theorem alpha_Clone_appends (platform : AlphaStore → AlphaStore) (ctx : Nat) (uuid : String)
    (st : AlphaStore) (name ns cloneName cloneNamespace : String) (waitForReady : Bool) :
    ∃ i cs ss, cs.length ≤ 1 ∧ ss.length ≤ 1 ∧
      (snapshotAlpha.Clone ctx uuid (Store.client platform) st name ns cloneName
        cloneNamespace waitForReady).1 = platform^[i] (st.extend cs ss) := by
  have hnone : ∀ r : Res (Option GoError), ∃ i cs ss, cs.length ≤ 1 ∧ ss.length ≤ 1 ∧
      ((st, r) : AlphaStore × Res (Option GoError)).1 = platform^[i] (st.extend cs ss) :=
    fun _ => ⟨0, [], [], by simp, by simp, (Store.extend_nil st).symm⟩
  unfold snapshotAlpha.Clone
  repeat' split
  all_goals first
    | exact hnone _
    | exact alpha_CreateFromSource_appends platform ctx uuid st _ cloneName cloneNamespace
        waitForReady

/-- Whatever its outcome, current-generation Clone over the store appends at most one Content
and at most one Snapshot; any other change is the platform's, during the wait. -/
theorem beta_Clone_appends (platform : BetaStore → BetaStore) (ctx : Nat) (uuid : String)
    (st : BetaStore) (name ns cloneName cloneNamespace : String) (waitForReady : Bool) :
    ∃ i cs ss, cs.length ≤ 1 ∧ ss.length ≤ 1 ∧
      (snapshotBeta.Clone ctx uuid (Store.client platform) st name ns cloneName
        cloneNamespace waitForReady).1 = platform^[i] (st.extend cs ss) := by
  have hnone : ∀ r : Res (Option GoError), ∃ i cs ss, cs.length ≤ 1 ∧ ss.length ≤ 1 ∧
      ((st, r) : BetaStore × Res (Option GoError)).1 = platform^[i] (st.extend cs ss) :=
    fun _ => ⟨0, [], [], by simp, by simp, (Store.extend_nil st).symm⟩
  unfold snapshotBeta.Clone
  repeat' split
  all_goals first
    | exact hnone _
    | exact beta_CreateFromSource_appends platform ctx uuid st _ cloneName cloneNamespace
        waitForReady

/-! ## The loop over the class listing -/

/-- The legacy loop finds nothing when no listed class maps the key to "true". -/
theorem alpha_firstAnnotated_none ( annotation : String)
    (items : List v1alpha1.VolumeSnapshotClass)
    (h : ∀ k ∈ items, k.ObjectMeta.Annotations.lookup annotation ≠ some "true") :
    snapshotAlpha.firstAnnotated annotation items = none := by
  induction items with
  | nil => rfl
  | cons k rest ih =>
    have hk := h k (List.mem_cons_self k rest)
    have hrest := ih (fun x hx => h x (List.mem_cons_of_mem k hx))
    unfold snapshotAlpha.firstAnnotated
    cases hl : k.ObjectMeta.Annotations.lookup annotation with
    | none => simpa using hrest
    | some val =>
      have hval : val ≠ "true" := by
        intro hv
        exact hk (by rw [hl, hv])
      simpa [hval] using hrest

/-- The legacy loop returns the name of the first listed class that maps the key to "true". -/
theorem alpha_firstAnnotated_first ( annotation : String)
    (pre post : List v1alpha1.VolumeSnapshotClass) (k : v1alpha1.VolumeSnapshotClass)
    (hpre : ∀ x ∈ pre, x.ObjectMeta.Annotations.lookup annotation ≠ some "true")
    (hk : k.ObjectMeta.Annotations.lookup annotation = some "true") :
    snapshotAlpha.firstAnnotated annotation (pre ++ k :: post) = some k.ObjectMeta.Name := by
  induction pre with
  | nil =>
    simp only [List.nil_append]
    unfold snapshotAlpha.firstAnnotated
    simp [hk]
  | cons x rest ih =>
    have hx := hpre x (List.mem_cons_self x rest)
    have hrest := ih (fun y hy => hpre y (List.mem_cons_of_mem x hy))
    simp only [List.cons_append]
    unfold snapshotAlpha.firstAnnotated
    cases hl : x.ObjectMeta.Annotations.lookup annotation with
    | none => simpa using hrest
    | some val =>
      have hval : val ≠ "true" := by
        intro hv
        exact hx (by rw [hl, hv])
      simpa [hval] using hrest

/-- The current-generation loop finds nothing when no listed class maps the key to "true". -/
theorem beta_firstAnnotated_none ( annotation : String)
    (items : List v1beta1.VolumeSnapshotClass)
    (h : ∀ k ∈ items, k.ObjectMeta.Annotations.lookup annotation ≠ some "true") :
    snapshotBeta.firstAnnotated annotation items = none := by
  induction items with
  | nil => rfl
  | cons k rest ih =>
    have hk := h k (List.mem_cons_self k rest)
    have hrest := ih (fun x hx => h x (List.mem_cons_of_mem k hx))
    unfold snapshotBeta.firstAnnotated
    cases hl : k.ObjectMeta.Annotations.lookup annotation with
    | none => simpa using hrest
    | some val =>
      have hval : val ≠ "true" := by
        intro hv
        exact hk (by rw [hl, hv])
      simpa [hval] using hrest

/-- The current-generation loop returns the name of the first listed class that maps the key
to "true". -/
theorem beta_firstAnnotated_first ( annotation : String)
    (pre post : List v1beta1.VolumeSnapshotClass) (k : v1beta1.VolumeSnapshotClass)
    (hpre : ∀ x ∈ pre, x.ObjectMeta.Annotations.lookup annotation ≠ some "true")
    (hk : k.ObjectMeta.Annotations.lookup annotation = some "true") :
    snapshotBeta.firstAnnotated annotation (pre ++ k :: post) = some k.ObjectMeta.Name := by
  induction pre with
  | nil =>
    simp only [List.nil_append]
    unfold snapshotBeta.firstAnnotated
    simp [hk]
  | cons x rest ih =>
    have hx := hpre x (List.mem_cons_self x rest)
    have hrest := ih (fun y hy => hpre y (List.mem_cons_of_mem x hy))
    simp only [List.cons_append]
    unfold snapshotBeta.firstAnnotated
    cases hl : x.ObjectMeta.Annotations.lookup annotation with
    | none => simpa using hrest
    | some val =>
      have hval : val ≠ "true" := by
        intro hv
        exact hx (by rw [hl, hv])
      simpa [hval] using hrest
/-! ## Platforms that keep a snapshot -/

/-- A platform step that keeps the snapshot `ns`/`name` keeps it over any number of
intervals. -/
theorem Store.iterate_keeps_snapshot {S C K : Type} [KubeObject S]
    (platform : Store S C K → Store S C K) (ns name : String)
    (hkeeps : ∀ x : Store S C K, x.snapshots.any (Store.hasKey ns name) = true →
      (platform x).snapshots.any (Store.hasKey ns name) = true)
    (i : Nat) (st : Store S C K) (h : st.snapshots.any (Store.hasKey ns name) = true) :
    (platform^[i] st).snapshots.any (Store.hasKey ns name) = true := by
  induction i generalizing st with
  | zero => simpa using h
  | succ k ih =>
    rw [Function.iterate_succ_apply]
    exact ih (platform st) (hkeeps st h)

/-- The platform `failAll` writes status only: it keeps every snapshot. -/
theorem failAll_keeps (ns name : String) (x : AlphaStore)
    (h : x.snapshots.any (Store.hasKey ns name) = true) :
    (failAll x).snapshots.any (Store.hasKey ns name) = true := by
  simp only [failAll, List.any_map]
  simpa [Function.comp_def, Store.hasKey, KubeObject.objectMeta] using h

/-! ## C1 -/

/-- C1 as stated fails: in both backends a poll that fetches a snapshot with ready flag true
and a creation timestamp, whose status also carries an error, does not report done, and the
wait returns that error instead of success. -/
theorem C1_ready_flag_with_status_error :
    snapshotAlpha.seesReadyFlag (Store.client id) "snap-1" "ns-a" quotaAlphaStore = true ∧
    snapshotAlpha.waitCondition (Store.client id) "snap-1" "ns-a" quotaAlphaStore
      = .ret (false, some (.text "quota exceeded")) ∧
    (snapshotAlpha.WaitOnReadyToUse 3 (Store.client id) quotaAlphaStore "snap-1" "ns-a").2
      = .ret (some (.text "quota exceeded")) ∧
    snapshotBeta.seesReadyFlag (Store.client id) "snap-1" "ns-a" quotaBetaStore = true ∧
    snapshotBeta.waitCondition (Store.client id) "snap-1" "ns-a" quotaBetaStore
      = .ret (false, some (.text "quota exceeded")) ∧
    (snapshotBeta.WaitOnReadyToUse 3 (Store.client id) quotaBetaStore "snap-1" "ns-a").2
      = .ret (some (.text "quota exceeded")) := by
  decide

/-- C1, amended: in both backends WaitOnReadyToUse returns success if and only if some poll
within the context's budget fetches a snapshot with (a status carrying) no error, ready flag
true and a creation timestamp, and every earlier poll fetched a snapshot with (a status
carrying) no error that was not ready yet; and a poll reports done exactly when it fetches
such a ready snapshot. -/
theorem WaitOnReadyToUse_success_iff {σ τ : Type} (ctx : Nat) (snapshotName ns : String)
    (alphaCli : AlphaClient σ) (s : σ) (betaCli : BetaClient τ) (t : τ) :
    ((snapshotAlpha.WaitOnReadyToUse ctx alphaCli s snapshotName ns).2 = .ret none ↔
      ∃ i, i ≤ ctx ∧ snapshotAlpha.seesReady alphaCli snapshotName ns (alphaCli.elapse^[i] s) = true ∧
        ∀ j, j < i →
          snapshotAlpha.seesPending alphaCli snapshotName ns (alphaCli.elapse^[j] s) = true) ∧
    ((snapshotBeta.WaitOnReadyToUse ctx betaCli t snapshotName ns).2 = .ret none ↔
      ∃ i, i ≤ ctx ∧ snapshotBeta.seesReady betaCli snapshotName ns (betaCli.elapse^[i] t) = true ∧
        ∀ j, j < i →
          snapshotBeta.seesPending betaCli snapshotName ns (betaCli.elapse^[j] t) = true) ∧
    (snapshotAlpha.waitCondition alphaCli snapshotName ns s = .ret (true, none) ↔
      snapshotAlpha.seesReady alphaCli snapshotName ns s = true) ∧
    (snapshotBeta.waitCondition betaCli snapshotName ns t = .ret (true, none) ↔
      snapshotBeta.seesReady betaCli snapshotName ns t = true) := by
  refine ⟨?_, ?_, alpha_waitCondition_done_iff _ _ _ _,
    beta_waitCondition_done_iff _ _ _ _⟩
  · unfold snapshotAlpha.WaitOnReadyToUse
    rw [pollWait_ret_none_iff]
    simp only [alpha_waitCondition_done_iff, alpha_waitCondition_continue_iff]
  · unfold snapshotBeta.WaitOnReadyToUse
    rw [pollWait_ret_none_iff]
    simp only [beta_waitCondition_done_iff, beta_waitCondition_continue_iff]

/-! ## C2 -/

/-- C2 (the code departs from it): in the current-generation backend, whenever the source
snapshot is as Create submits it from a claim (its spec names the claim and no Content) and
the platform has written a status with the ready flag true, whatever Content that status is
bound to, Clone returns the error "Original snapshot does not have content" for the clone's
target and makes no call that writes. -/
theorem Clone_of_created_snapshot_is_refused {σ : Type} (ctx : Nat) (uuid : String)
    (snapCli : BetaClient σ) (s : σ) (name ns volumeName : String)
    (snapshotClass : Option String) (status : v1beta1.VolumeSnapshotStatus)
    (cloneName cloneNamespace : String) (waitForReady : Bool)
    (hget : snapshotBeta.Get snapCli s name ns = .ok
      { ObjectMeta := { Name := name, Namespace := ns },
        Spec := { Source := { PersistentVolumeClaimName := some volumeName },
                  VolumeSnapshotClassName := snapshotClass },
        Status := some status })
    (hready : status.ReadyToUse = some true) :
    snapshotBeta.Clone ctx uuid snapCli s name ns cloneName cloneNamespace waitForReady
      = (s, .ret (some (.text ("Original snapshot does not have content, VolumeSnapshot: "
          ++ cloneName ++ ", Namespace: " ++ cloneNamespace)))) :=
  beta_Clone_source_without_content ctx uuid snapCli s name ns cloneName cloneNamespace
    waitForReady _ status hget rfl hready (Or.inl rfl)

/-- Witness of C2: ns-a/snap-1 was submitted by Create from the claim pvc-1 and then
provisioned by the platform (ready, bound to snapcontent-1, whose class exists); its Source can
be extracted, no snapshot exists at ns-b/snap-2, and yet Clone to ns-b/snap-2 is refused. -/
theorem Clone_of_created_snapshot_is_refused_witness :
    snapshotBeta.GetSource (Store.client id) provisionedBetaStore "snap-1" "ns-a"
      = .ret (.ok exampleSource) ∧
    snapshotBeta.Get (Store.client id) provisionedBetaStore "snap-2" "ns-b"
      = .error (Store.notFound "volumesnapshots" "snap-2") ∧
    snapshotBeta.Clone 3 "u1" (Store.client id) provisionedBetaStore "snap-1" "ns-a"
        "snap-2" "ns-b" true
      = (provisionedBetaStore, .ret (some (.text
          ("Original snapshot does not have content, VolumeSnapshot: " ++ "snap-2"
            ++ ", Namespace: " ++ "ns-b")))) :=
  ⟨by decide, by decide,
   Clone_of_created_snapshot_is_refused 3 "u1" (Store.client id) provisionedBetaStore
     "snap-1" "ns-a" "pvc-1" (some "csi-class") (boundStatus "snapcontent-1" 7)
     "snap-2" "ns-b" true (by decide) (by decide)⟩

/-! ## C3 -/

/-- C3 (the code departs from it): when the class listing succeeds with zero classes,
GetVolumeSnapshotClass of either backend returns the empty name with a nil error, because it
wraps the nil error of the listing. -/
theorem GetVolumeSnapshotClass_zero_classes {σ τ : Type} ( annotation : String)
    (alphaCli : AlphaClient σ) (s : σ) (betaCli : BetaClient τ) (t : τ)
    (hAlpha : alphaCli.listClasses s = .ok []) (hBeta : betaCli.listClasses t = .ok []) :
    snapshotAlpha.GetVolumeSnapshotClass annotation alphaCli s = ("", none) ∧
    snapshotBeta.GetVolumeSnapshotClass annotation betaCli t = ("", none) := by
  simp [snapshotAlpha.GetVolumeSnapshotClass, snapshotBeta.GetVolumeSnapshotClass, hAlpha, hBeta,
    errorsWrap]

/-- Witness of C3: on the empty stores the lookup of the class annotated "backup-tool" returns
no error. -/
theorem GetVolumeSnapshotClass_zero_classes_witness :
    snapshotAlpha.GetVolumeSnapshotClass "backup-tool" (Store.client id) ({} : AlphaStore)
      = ("", none) ∧
    snapshotBeta.GetVolumeSnapshotClass "backup-tool" (Store.client id) ({} : BetaStore)
      = ("", none) :=
  GetVolumeSnapshotClass_zero_classes "backup-tool" (Store.client id) ({} : AlphaStore)
    (Store.client id) ({} : BetaStore) rfl rfl

/-! ## C4 -/

/-- C4 as stated fails: ns-a/snap-1 is ready and bound, its Source is extracted, and
CreateFromSource of that Source to ns-b/snap-2 succeeds; GetSource of ns-b/snap-2 then does
not return a Source: the new snapshot has no status yet. -/
theorem C4_GetSource_of_unbound_clone :
    snapshotBeta.GetSource (Store.client id) provisionedBetaStore "snap-1" "ns-a"
      = .ret (.ok exampleSource) ∧
    snapshotBeta.CreateFromSource 0 "u1" (Store.client id) provisionedBetaStore exampleSource
        "snap-2" "ns-b" false
      = (importedBetaStore, .ret none) ∧
    snapshotBeta.GetSource (Store.client id) importedBetaStore "snap-2" "ns-b" = .nilDeref := by
  decide

/-- C4, amended: in the current-generation backend, over the store, for every snapshot X whose
Source `src` GetSource extracts, after CreateFromSource of `src` to (newName, newNamespace)
succeeds the store holds the new Content carrying the driver, handle and class name of `src`
and the new Snapshot whose spec names that Content; and once the platform has bound the new
Snapshot to that Content and published the Content's handle in its status, GetSource of
(newName, newNamespace) succeeds and returns a Source with the same driver, handle and class
name as `src`. -/
theorem CreateFromSource_GetSource_beta (platform : BetaStore → BetaStore) (ctx time : Nat)
    (uuid : String) (st st' : BetaStore) (src : Source)
    (name ns newName newNamespace : String) (waitForReady : Bool)
    (hsrc : snapshotBeta.GetSource (Store.client platform) st name ns = .ret (.ok src))
    (hcreate : snapshotBeta.CreateFromSource ctx uuid (Store.client platform) st src newName
      newNamespace waitForReady = (st', .ret none)) :
    (∃ policy, Store.getContent st' (newName ++ "-content-" ++ uuid)
        = .ok (betaContentOf src newName newNamespace uuid policy)) ∧
    Store.getSnapshot st' newNamespace newName
      = .ok (betaSnapshotOf src newName newNamespace uuid) ∧
    ∃ src', snapshotBeta.GetSource (Store.client platform)
        (bindPreProvisioned time newNamespace newName st') newName newNamespace
          = .ret (.ok src') ∧
      src'.Driver = src.Driver ∧ src'.Handle = src.Handle ∧
      src'.VolumeSnapshotClassName = src.VolumeSnapshotClassName := by
  have _ := hsrc
  obtain ⟨className, k, -, -, hcont, hsnap, -, hst'⟩ :=
    beta_CreateFromSource_success platform ctx uuid st st' src newName newNamespace
      waitForReady hcreate
  subst hst'
  obtain ⟨hS, hC⟩ := bindPreProvisioned_after_create time st src newName newNamespace uuid
    k.DeletionPolicy hcont hsnap
  refine ⟨⟨k.DeletionPolicy, ?_⟩, ?_, { src with RestoreSize := none }, ?_, rfl, rfl, rfl⟩
  · unfold Store.getContent
    simp only
    rw [Store.find?_append_new _ _ _ hcont (by simp [Store.hasName, KubeObject.objectMeta,
      betaContentOf])]
  · unfold Store.getSnapshot
    simp only
    rw [Store.find?_append_new _ _ _ hsnap (by simp [Store.hasKey, KubeObject.objectMeta,
      betaSnapshotOf])]
  · simp only [snapshotBeta.GetSource, snapshotBeta.Get, snapshotBeta.getContent,
      Store.client_getSnapshot, Store.client_getContent]
    rw [hS]
    simp only [boundStatus]
    rw [hC]
    simp [betaContentOf]

/-- Witness of C4: after CreateFromSource of the Source of ns-a/snap-1 to ns-b/snap-2, and
once the platform has bound ns-b/snap-2, GetSource of ns-b/snap-2 returns the driver, handle
and class name of the original Source. -/
theorem CreateFromSource_GetSource_beta_witness :
    (∃ policy, Store.getContent importedBetaStore ("snap-2" ++ "-content-" ++ "u1")
        = .ok (betaContentOf exampleSource "snap-2" "ns-b" "u1" policy)) ∧
    Store.getSnapshot importedBetaStore "ns-b" "snap-2"
      = .ok (betaSnapshotOf exampleSource "snap-2" "ns-b" "u1") ∧
    ∃ src', snapshotBeta.GetSource (Store.client id)
        (bindPreProvisioned 9 "ns-b" "snap-2" importedBetaStore) "snap-2" "ns-b"
          = .ret (.ok src') ∧
      src'.Driver = exampleSource.Driver ∧ src'.Handle = exampleSource.Handle ∧
      src'.VolumeSnapshotClassName = exampleSource.VolumeSnapshotClassName :=
  CreateFromSource_GetSource_beta id 0 9 "u1" provisionedBetaStore importedBetaStore
    exampleSource "snap-1" "ns-a" "snap-2" "ns-b" false (by decide) (by decide)

/-! ## C5 -/

/-- C5: in the legacy backend, over the store and with a platform that only writes the status
of snapshots, for every snapshot X whose Source `src` GetSource extracts, after
CreateFromSource of `src` to (newName, newNamespace) succeeds (waiting or not), GetSource of
(newName, newNamespace) succeeds and returns a Source with the same driver, handle and class
name as `src`. -/
theorem CreateFromSource_GetSource_alpha (platform : AlphaStore → AlphaStore)
    (hplatform : writesOnlyStatus platform) (ctx : Nat) (uuid : String) (st st' : AlphaStore)
    (src : Source) (name ns newName newNamespace : String) (waitForReady : Bool)
    (hsrc : snapshotAlpha.GetSource (Store.client platform) st name ns = .ret (.ok src))
    (hcreate : snapshotAlpha.CreateFromSource ctx uuid (Store.client platform) st src newName
      newNamespace waitForReady = (st', .ret none)) :
    ∃ src', snapshotAlpha.GetSource (Store.client platform) st' newName newNamespace
        = .ret (.ok src') ∧
      src'.Driver = src.Driver ∧ src'.Handle = src.Handle ∧
      src'.VolumeSnapshotClassName = src.VolumeSnapshotClassName := by
  have _ := hsrc
  obtain ⟨className, k, i, -, -, hcont, hsnap, hst'⟩ :=
    alpha_CreateFromSource_success platform ctx uuid st st' src newName newNamespace
      waitForReady hcreate
  have hsame := sameUpToStatus_iterate platform hplatform i
    { st with
      contents := st.contents ++ [alphaContentOf src newName newNamespace uuid k.DeletionPolicy],
      snapshots := st.snapshots ++ [alphaSnapshotOf src newName newNamespace uuid] }
  rw [← hst'] at hsame
  have hget2 : Store.getSnapshot
      ({ st with
        contents := st.contents ++ [alphaContentOf src newName newNamespace uuid k.DeletionPolicy],
        snapshots := st.snapshots ++ [alphaSnapshotOf src newName newNamespace uuid] } : AlphaStore)
      newNamespace newName = .ok (alphaSnapshotOf src newName newNamespace uuid) := by
    unfold Store.getSnapshot
    rw [Store.find?_append_new _ _ _ hsnap (by simp [Store.hasKey, KubeObject.objectMeta,
      alphaSnapshotOf])]
  obtain ⟨snap2, hsnap2, hsub⟩ := sameUpToStatus_getSnapshot hsame newNamespace newName _ hget2
  have hspec : snap2.Spec.SnapshotContentName = newName ++ "-content-" ++ uuid := by
    have := congrArg (fun x => x.Spec.SnapshotContentName) hsub
    simpa [alphaSubmitted, alphaSnapshotOf] using this
  have hcontent : Store.getContent st' (newName ++ "-content-" ++ uuid)
      = .ok (alphaContentOf src newName newNamespace uuid k.DeletionPolicy) := by
    unfold Store.getContent
    rw [hsame.2.1]
    rw [Store.find?_append_new _ _ _ hcont (by simp [Store.hasName, KubeObject.objectMeta,
      alphaContentOf])]
  refine ⟨{ src with RestoreSize := none }, ?_, rfl, rfl, rfl⟩
  simp [snapshotAlpha.GetSource, snapshotAlpha.Get, snapshotAlpha.getContent,
    Store.client_getSnapshot, Store.client_getContent, hsnap2, hspec, hcontent, alphaContentOf]

/-- Witness of C5: from ns-a/snap-1 of `boundAlphaStore`, CreateFromSource to ns-c/snap-3
waits until the platform marks the snapshot ready and succeeds; GetSource of ns-c/snap-3 then
returns the driver, handle and class name of the original Source. -/
theorem CreateFromSource_GetSource_alpha_witness :
    ∃ src', snapshotAlpha.GetSource (Store.client markAllReady) clonedAlphaStore
        "snap-3" "ns-c" = .ret (.ok src') ∧
      src'.Driver = alphaExampleSource.Driver ∧ src'.Handle = alphaExampleSource.Handle ∧
      src'.VolumeSnapshotClassName = alphaExampleSource.VolumeSnapshotClassName :=
  CreateFromSource_GetSource_alpha markAllReady markAllReady_writesOnlyStatus 3 "u3"
    boundAlphaStore clonedAlphaStore alphaExampleSource "snap-1" "ns-a" "snap-3" "ns-c" true
    (by decide) (by decide)

/-! ## C6 -/

/-- C6 as stated fails: when the legacy listing succeeds, and when it is answered not-found,
the resolver returns the error "Not supported." although the current-generation listing
succeeds. -/
theorem C6_legacy_ok_or_not_found_is_refused :
    bothServed.List alphaClassesGVR = none ∧ bothServed.List betaClassesGVR = none ∧
    NewSnapshotter (.ok bothServed) = (none, some (.text "Not supported.")) ∧
    IsNotFound (betaOnly.List alphaClassesGVR) = true ∧ betaOnly.List betaClassesGVR = none ∧
    NewSnapshotter (.ok betaOnly) = (none, some (.text "Not supported.")) := by
  decide

/-- C6, amended: whenever the legacy class listing succeeds, or fails with a not-found signal,
the resolver returns the error "Not supported." whatever the current-generation endpoint
would answer; when the legacy listing fails for another reason and the current-generation
listing succeeds, it returns the current-generation backend with no error. -/
theorem NewSnapshotter_resolution (dynCli : DynamicClient) :
    ((dynCli.List alphaClassesGVR = none ∨ IsNotFound (dynCli.List alphaClassesGVR) = true) →
      NewSnapshotter (.ok dynCli) = (none, some (.text "Not supported."))) ∧
    (dynCli.List alphaClassesGVR ≠ none → IsNotFound (dynCli.List alphaClassesGVR) = false →
      dynCli.List betaClassesGVR = none →
      NewSnapshotter (.ok dynCli) = (some .snapshotBeta, none)) := by
  constructor
  · intro h
    have hcond : (decide (dynCli.List alphaClassesGVR = none)
        || IsNotFound (dynCli.List alphaClassesGVR)) = true := by
      rcases h with h | h <;> simp [h]
    simp only [NewSnapshotter]
    exact if_pos hcond
  · intro h1 h2 h3
    have hcond : ¬ ((decide (dynCli.List alphaClassesGVR = none)
        || IsNotFound (dynCli.List alphaClassesGVR)) = true) := by
      simp [h1, h2]
    simp only [NewSnapshotter]
    exact (if_neg hcond).trans (if_pos h3)

/-- Witness of C6: the three platforms `bothServed`, `betaOnly` and `alphaForbidden`. -/
theorem NewSnapshotter_resolution_witness :
    NewSnapshotter (.ok bothServed) = (none, some (.text "Not supported.")) ∧
    NewSnapshotter (.ok betaOnly) = (none, some (.text "Not supported.")) ∧
    NewSnapshotter (.ok alphaForbidden) = (some .snapshotBeta, none) :=
  ⟨(NewSnapshotter_resolution bothServed).1 (Or.inl rfl),
   (NewSnapshotter_resolution betaOnly).1 (Or.inr (by decide)),
   (NewSnapshotter_resolution alphaForbidden).2 (by decide) (by decide) (by decide)⟩

/-! ## C7 -/

/-- C7: in both backends Delete leaves the state as the platform's delete call left it, turns
a not-found answer into a nil error, and returns every other answer (another error, or nil
after a successful delete) unchanged; in particular deleting a snapshot that is not in the
store returns nil and leaves the store alone. -/
theorem Delete_not_found_is_success {σ τ : Type} (alphaCli : AlphaClient σ) (s : σ)
    (betaCli : BetaClient τ) (t : τ) (name ns : String) :
    ((snapshotAlpha.Delete alphaCli s name ns).1 = (alphaCli.deleteSnapshot s ns name).1 ∧
      (IsNotFound (alphaCli.deleteSnapshot s ns name).2 = true →
        (snapshotAlpha.Delete alphaCli s name ns).2 = none) ∧
      (IsNotFound (alphaCli.deleteSnapshot s ns name).2 = false →
        (snapshotAlpha.Delete alphaCli s name ns).2 = (alphaCli.deleteSnapshot s ns name).2)) ∧
    ((snapshotBeta.Delete betaCli t name ns).1 = (betaCli.deleteSnapshot t ns name).1 ∧
      (IsNotFound (betaCli.deleteSnapshot t ns name).2 = true →
        (snapshotBeta.Delete betaCli t name ns).2 = none) ∧
      (IsNotFound (betaCli.deleteSnapshot t ns name).2 = false →
        (snapshotBeta.Delete betaCli t name ns).2 = (betaCli.deleteSnapshot t ns name).2)) ∧
    (∀ (platform : AlphaStore → AlphaStore) (st : AlphaStore),
      st.snapshots.any (Store.hasKey ns name) = false →
      snapshotAlpha.Delete (Store.client platform) st name ns = (st, none)) ∧
    (∀ (platform : BetaStore → BetaStore) (st : BetaStore),
      st.snapshots.any (Store.hasKey ns name) = false →
      snapshotBeta.Delete (Store.client platform) st name ns = (st, none)) := by
  refine ⟨?_, ?_, ?_, ?_⟩
  · unfold snapshotAlpha.Delete
    cases h : IsNotFound (alphaCli.deleteSnapshot s ns name).2 <;> simp [h]
  · unfold snapshotBeta.Delete
    cases h : IsNotFound (betaCli.deleteSnapshot t ns name).2 <;> simp [h]
  · intro platform st h
    simp [snapshotAlpha.Delete, Store.client, Store.deleteSnapshot_of_absent st ns name h,
      Store.isNotFound_notFound]
  · intro platform st h
    simp [snapshotBeta.Delete, Store.client, Store.deleteSnapshot_of_absent st ns name h,
      Store.isNotFound_notFound]

/-- Witness of C7: deleting ns-a/nonexistent from the empty stores returns nil, and a refusal
of the platform is handed back as it is. -/
theorem Delete_not_found_is_success_witness :
    snapshotAlpha.Delete (Store.client id) ({} : AlphaStore) "nonexistent" "ns-a" = ({}, none) ∧
    snapshotBeta.Delete (Store.client id) ({} : BetaStore) "nonexistent" "ns-a" = ({}, none) ∧
    (snapshotAlpha.Delete (Store.client id) ({} : AlphaStore) "nonexistent" "ns-a").2 = none ∧
    (snapshotBeta.Delete refusingBetaClient {} "snap-1" "ns-a").2
      = (refusingBetaClient.deleteSnapshot {} "ns-a" "snap-1").2 :=
  ⟨(Delete_not_found_is_success (Store.client id) ({} : AlphaStore) (Store.client id)
      ({} : BetaStore) "nonexistent" "ns-a").2.2.1 id {} (by decide),
   (Delete_not_found_is_success (Store.client id) ({} : AlphaStore) (Store.client id)
      ({} : BetaStore) "nonexistent" "ns-a").2.2.2 id {} (by decide),
   (Delete_not_found_is_success (Store.client id) ({} : AlphaStore) (Store.client id)
      ({} : BetaStore) "nonexistent" "ns-a").1.2.1 (by decide),
   (Delete_not_found_is_success refusingAlphaClient {} refusingBetaClient {}
      "snap-1" "ns-a").2.1.2.2 (by decide)⟩

/-! ## C8 -/

/-- C8: over the object store, for every store state and identity, in both backends a second
Delete of the same identity returns no error and leaves the store as the first call left
it. -/
theorem Delete_twice (name ns : String)
    (platformA : AlphaStore → AlphaStore) (stA : AlphaStore)
    (platformB : BetaStore → BetaStore) (stB : BetaStore) :
    snapshotAlpha.Delete (Store.client platformA)
        (snapshotAlpha.Delete (Store.client platformA) stA name ns).1 name ns
      = ((snapshotAlpha.Delete (Store.client platformA) stA name ns).1, none) ∧
    snapshotBeta.Delete (Store.client platformB)
        (snapshotBeta.Delete (Store.client platformB) stB name ns).1 name ns
      = ((snapshotBeta.Delete (Store.client platformB) stB name ns).1, none) := by
  constructor
  · have h1 : (snapshotAlpha.Delete (Store.client platformA) stA name ns).1
        = (Store.deleteSnapshot stA ns name).1 := by
      unfold snapshotAlpha.Delete
      simp only [Store.client]
      split <;> rfl
    rw [h1]
    have habs := Store.deleteSnapshot_absent stA ns name
    simp [snapshotAlpha.Delete, Store.client, Store.deleteSnapshot_of_absent _ ns name habs,
      Store.isNotFound_notFound]
  · have h1 : (snapshotBeta.Delete (Store.client platformB) stB name ns).1
        = (Store.deleteSnapshot stB ns name).1 := by
      unfold snapshotBeta.Delete
      simp only [Store.client]
      split <;> rfl
    rw [h1]
    have habs := Store.deleteSnapshot_absent stB ns name
    simp [snapshotBeta.Delete, Store.client, Store.deleteSnapshot_of_absent _ ns name habs,
      Store.isNotFound_notFound]

/-! ## C9 -/

/-- C9 (the code departs from it): in the current-generation backend the pending snapshot
ns-a/snap-1, as Create has just submitted it, has no status and hence no ready flag; Clone of
it does not return the "not ready" error but dereferences the absent status. -/
theorem Clone_of_pending_beta_snapshot_faults :
    (snapshotBeta.Get (Store.client id) pendingBetaStore "snap-1" "ns-a").map
        (fun snap => snap.Status) = .ok none ∧
    snapshotBeta.Clone 3 "u1" (Store.client id) pendingBetaStore "snap-1" "ns-a"
        "snap-2" "ns-b" false
      = (pendingBetaStore, .nilDeref) := by
  decide

/-! ## C10 -/

/-- C10 (the code departs from it in the current generation). Legacy backend: for a ready
source whose spec names its Content, Clone fails with the "already exists" error when the
probe of the target identity finds a snapshot, fails with the "Failed to query" error when the
probe errors for a reason other than not-found, in both cases without any call that writes,
and only on a not-found probe goes on to extract the Source and create from it. Current
generation: the same holds for a ready source whose spec names a Content (a pre-provisioned
snapshot); but for a ready source whose spec names none, as every snapshot made by Create,
also once the platform has bound it to a Content in its status, Clone never reaches the
probe: whatever is at the target, it returns "Original snapshot does not have content" (and
makes no call that writes). -/
theorem Clone_target_probe {σ τ : Type} (ctx : Nat) (uuid : String)
    (alphaCli : AlphaClient σ) (s : σ) (betaCli : BetaClient τ) (t : τ)
    (name ns cloneName cloneNamespace : String) (waitForReady : Bool)
    (snapA : v1alpha1.VolumeSnapshot) (snapB : v1beta1.VolumeSnapshot)
    (statusB : v1beta1.VolumeSnapshotStatus)
    (hgetA : snapshotAlpha.Get alphaCli s name ns = .ok snapA)
    (hreadyA : snapA.Status.ReadyToUse = true)
    (hboundA : snapA.Spec.SnapshotContentName ≠ "")
    (hgetB : snapshotBeta.Get betaCli t name ns = .ok snapB)
    (hstatusB : snapB.Status = some statusB)
    (hreadyB : statusB.ReadyToUse = some true) :
    ((∀ target, snapshotAlpha.Get alphaCli s cloneName cloneNamespace = .ok target →
        snapshotAlpha.Clone ctx uuid alphaCli s name ns cloneName cloneNamespace waitForReady
          = (s, .ret (some (.text ("Target snapshot already exists in target namespace, "
              ++ "Volumesnapshot: " ++ cloneName ++ ", Namespace: " ++ cloneNamespace))))) ∧
      (∀ err, snapshotAlpha.Get alphaCli s cloneName cloneNamespace = .error err →
        IsNotFound (some err) = false →
        snapshotAlpha.Clone ctx uuid alphaCli s name ns cloneName cloneNamespace waitForReady
          = (s, .ret (some (.text ("Failed to query target Volumesnapshot: " ++ cloneName
              ++ ", Namespace: " ++ cloneNamespace ++ ": " ++ err.Error))))) ∧
      (∀ err, snapshotAlpha.Get alphaCli s cloneName cloneNamespace = .error err →
        IsNotFound (some err) = true →
        snapshotAlpha.Clone ctx uuid alphaCli s name ns cloneName cloneNamespace waitForReady
          = match snapshotAlpha.GetSource alphaCli s name ns with
            | .nilDeref => (s, .nilDeref)
            | .ret (.error _) => (s, .ret (some (.text "Failed to get source")))
            | .ret (.ok src) =>
              snapshotAlpha.CreateFromSource ctx uuid alphaCli s src cloneName cloneNamespace
                waitForReady)) ∧
    (∀ contentB, snapB.Spec.Source.VolumeSnapshotContentName = some contentB →
      contentB ≠ "" →
      (∀ target, snapshotBeta.Get betaCli t cloneName cloneNamespace = .ok target →
        snapshotBeta.Clone ctx uuid betaCli t name ns cloneName cloneNamespace waitForReady
          = (t, .ret (some (.text ("Target snapshot already exists in target namespace, "
              ++ "Volumesnapshot: " ++ cloneName ++ ", Namespace: " ++ cloneNamespace))))) ∧
      (∀ err, snapshotBeta.Get betaCli t cloneName cloneNamespace = .error err →
        IsNotFound (some err) = false →
        snapshotBeta.Clone ctx uuid betaCli t name ns cloneName cloneNamespace waitForReady
          = (t, .ret (some (.text ("Failed to query target Volumesnapshot: " ++ cloneName
              ++ ", Namespace: " ++ cloneNamespace ++ ": " ++ err.Error))))) ∧
      (∀ err, snapshotBeta.Get betaCli t cloneName cloneNamespace = .error err →
        IsNotFound (some err) = true →
        snapshotBeta.Clone ctx uuid betaCli t name ns cloneName cloneNamespace waitForReady
          = match snapshotBeta.GetSource betaCli t name ns with
            | .nilDeref => (t, .nilDeref)
            | .ret (.error _) => (t, .ret (some (.text "Failed to get source")))
            | .ret (.ok src) =>
              snapshotBeta.CreateFromSource ctx uuid betaCli t src cloneName cloneNamespace
                waitForReady)) ∧
    ((snapB.Spec.Source.VolumeSnapshotContentName = none
        ∨ snapB.Spec.Source.VolumeSnapshotContentName = some "") →
      snapshotBeta.Clone ctx uuid betaCli t name ns cloneName cloneNamespace waitForReady
        = (t, .ret (some (.text ("Original snapshot does not have content, VolumeSnapshot: "
            ++ cloneName ++ ", Namespace: " ++ cloneNamespace))))) := by
  refine ⟨⟨?_, ?_, ?_⟩, ?_, ?_⟩
  · intro target htarget
    simp [snapshotAlpha.Clone, hgetA, hreadyA, hboundA, htarget]
  · intro err herr hnf
    simp [snapshotAlpha.Clone, hgetA, hreadyA, hboundA, herr, hnf]
  · intro err herr hnf
    simp [snapshotAlpha.Clone, hgetA, hreadyA, hboundA, herr, hnf]
  · intro contentB hboundB hnonemptyB
    refine ⟨?_, ?_, ?_⟩
    · intro target htarget
      simp [snapshotBeta.Clone, hgetB, hstatusB, hreadyB, hboundB, hnonemptyB, htarget]
    · intro err herr hnf
      simp [snapshotBeta.Clone, hgetB, hstatusB, hreadyB, hboundB, hnonemptyB, herr, hnf]
    · intro err herr hnf
      simp [snapshotBeta.Clone, hgetB, hstatusB, hreadyB, hboundB, hnonemptyB, herr, hnf]
  · intro hcontent
    exact beta_Clone_source_without_content ctx uuid betaCli t name ns cloneName cloneNamespace
      waitForReady snapB statusB hgetB hstatusB hreadyB hcontent

/-- Witness of C10. From the ready source ns-b/snap-2, whose spec names its Content, a clone
onto the existing ns-a/snap-1 is refused as already existing and a clone into ns-x, whose
probe is forbidden, is refused with the query error, in both backends, the store left as it
was. From the current-generation source ns-a/snap-1, made by Create, ready and bound in its
status to snapcontent-1, a clone onto the existing ns-b/snap-2 and a clone into ns-x are both
answered "Original snapshot does not have content". -/
theorem Clone_target_probe_witness :
    snapshotAlpha.Clone 3 "u2" (Store.client id) boundAlphaStore "snap-2" "ns-b"
        "snap-1" "ns-a" true
      = (boundAlphaStore, .ret (some (.text ("Target snapshot already exists in target "
          ++ "namespace, Volumesnapshot: " ++ "snap-1" ++ ", Namespace: " ++ "ns-a")))) ∧
    snapshotBeta.Clone 3 "u2" (Store.client id) boundBetaStore "snap-2" "ns-b"
        "snap-1" "ns-a" true
      = (boundBetaStore, .ret (some (.text ("Target snapshot already exists in target "
          ++ "namespace, Volumesnapshot: " ++ "snap-1" ++ ", Namespace: " ++ "ns-a")))) ∧
    snapshotAlpha.Clone 3 "u2" forbiddenNamespaceAlphaClient boundAlphaStore "snap-2" "ns-b"
        "snap-3" "ns-x" true
      = (boundAlphaStore, .ret (some (.text ("Failed to query target Volumesnapshot: "
          ++ "snap-3" ++ ", Namespace: " ++ "ns-x" ++ ": "
          ++ (GoError.status "Forbidden" "forbidden").Error)))) ∧
    snapshotBeta.Clone 3 "u2" forbiddenNamespaceBetaClient boundBetaStore "snap-2" "ns-b"
        "snap-3" "ns-x" true
      = (boundBetaStore, .ret (some (.text ("Failed to query target Volumesnapshot: "
          ++ "snap-3" ++ ", Namespace: " ++ "ns-x" ++ ": "
          ++ (GoError.status "Forbidden" "forbidden").Error)))) ∧
    (snapshotBeta.Get (Store.client id) boundBetaStore "snap-1" "ns-a").map
        (fun snap => snap.Status.map
          (fun status => (status.ReadyToUse, status.BoundVolumeSnapshotContentName)))
      = .ok (some (some true, some "snapcontent-1")) ∧
    (snapshotBeta.Get (Store.client id) boundBetaStore "snap-2" "ns-b").isOk = true ∧
    snapshotBeta.Clone 3 "u2" (Store.client id) boundBetaStore "snap-1" "ns-a"
        "snap-2" "ns-b" true
      = (boundBetaStore, .ret (some (.text ("Original snapshot does not have content, "
          ++ "VolumeSnapshot: " ++ "snap-2" ++ ", Namespace: " ++ "ns-b")))) ∧
    snapshotBeta.Clone 3 "u2" forbiddenNamespaceBetaClient boundBetaStore "snap-1" "ns-a"
        "snap-3" "ns-x" true
      = (boundBetaStore, .ret (some (.text ("Original snapshot does not have content, "
          ++ "VolumeSnapshot: " ++ "snap-3" ++ ", Namespace: " ++ "ns-x")))) :=
  ⟨(Clone_target_probe 3 "u2" (Store.client id) boundAlphaStore (Store.client id)
      boundBetaStore "snap-2" "ns-b" "snap-1" "ns-a" true _ _ (boundStatus "snap-2-content-u1" 9)
      rfl (by decide) (by decide) rfl (by decide) (by decide)).1.1 _ rfl,
   ((Clone_target_probe 3 "u2" (Store.client id) boundAlphaStore (Store.client id)
      boundBetaStore "snap-2" "ns-b" "snap-1" "ns-a" true _ _ (boundStatus "snap-2-content-u1" 9)
      rfl (by decide) (by decide) rfl (by decide) (by decide)).2.1 "snap-2-content-u1"
      (by decide) (by decide)).1 _ rfl,
   (Clone_target_probe 3 "u2" forbiddenNamespaceAlphaClient boundAlphaStore
      forbiddenNamespaceBetaClient boundBetaStore "snap-2" "ns-b" "snap-3" "ns-x" true _ _
      (boundStatus "snap-2-content-u1" 9) rfl (by decide) (by decide) rfl (by decide)
      (by decide)).1.2.1 _ rfl (by decide),
   ((Clone_target_probe 3 "u2" forbiddenNamespaceAlphaClient boundAlphaStore
      forbiddenNamespaceBetaClient boundBetaStore "snap-2" "ns-b" "snap-3" "ns-x" true _ _
      (boundStatus "snap-2-content-u1" 9) rfl (by decide) (by decide) rfl (by decide)
      (by decide)).2.1 "snap-2-content-u1" (by decide) (by decide)).2.1 _ rfl (by decide),
   by decide,
   by decide,
   (Clone_target_probe 3 "u2" (Store.client id) boundAlphaStore (Store.client id)
      boundBetaStore "snap-1" "ns-a" "snap-2" "ns-b" true _ _ (boundStatus "snapcontent-1" 7)
      rfl (by decide) (by decide) rfl (by decide) (by decide)).2.2 (Or.inl (by decide)),
   (Clone_target_probe 3 "u2" forbiddenNamespaceAlphaClient boundAlphaStore
      forbiddenNamespaceBetaClient boundBetaStore "snap-1" "ns-a" "snap-3" "ns-x" true _ _
      (boundStatus "snapcontent-1" 7) rfl (by decide) (by decide) rfl (by decide)
      (by decide)).2.2 (Or.inl (by decide))⟩

/-! ## C11 -/

/-- C11: in both backends, when every poll before poll `i` saw a pending snapshot and poll `i`
(within the context's budget) fetches a snapshot whose status carries an error with message
`m`, WaitOnReadyToUse ends at that poll and returns the error whose message is exactly `m`,
whatever the ready flag and creation timestamp of that snapshot are; that error is not the
error of a finished context. -/
theorem WaitOnReadyToUse_status_error {σ τ : Type} (ctx i : Nat) (hi : i ≤ ctx)
    (snapshotName ns : String) :
    (∀ (alphaCli : AlphaClient σ) (s : σ) (snap : v1alpha1.VolumeSnapshot)
        (e : v1alpha1.VolumeError),
      (∀ j, j < i →
        snapshotAlpha.seesPending alphaCli snapshotName ns (alphaCli.elapse^[j] s) = true) →
      alphaCli.getSnapshot (alphaCli.elapse^[i] s) ns snapshotName = .ok snap →
      snap.Status.Error = some e →
      snapshotAlpha.WaitOnReadyToUse ctx alphaCli s snapshotName ns
          = (alphaCli.elapse^[i] s, .ret (some (.text e.Message))) ∧
        (GoError.text e.Message).Error = e.Message ∧ GoError.text e.Message ≠ ctxErr) ∧
    (∀ (betaCli : BetaClient τ) (t : τ) (snap : v1beta1.VolumeSnapshot)
        (status : v1beta1.VolumeSnapshotStatus) (e : v1beta1.VolumeSnapshotError) (m : String),
      (∀ j, j < i →
        snapshotBeta.seesPending betaCli snapshotName ns (betaCli.elapse^[j] t) = true) →
      betaCli.getSnapshot (betaCli.elapse^[i] t) ns snapshotName = .ok snap →
      snap.Status = some status → status.Error = some e → e.Message = some m →
      snapshotBeta.WaitOnReadyToUse ctx betaCli t snapshotName ns
          = (betaCli.elapse^[i] t, .ret (some (.text m))) ∧
        (GoError.text m).Error = m ∧ GoError.text m ≠ ctxErr) := by
  constructor
  · intro alphaCli s snap e hpend hget herr
    refine ⟨?_, rfl, by simp [ctxErr]⟩
    unfold snapshotAlpha.WaitOnReadyToUse
    refine pollWait_error_at _ _ i ctx s false _ hi ?_ ?_
    · intro j hj
      exact (alpha_waitCondition_continue_iff _ _ _ _).mpr (hpend j hj)
    · simp [snapshotAlpha.waitCondition, hget, herr]
  · intro betaCli t snap status e m hpend hget hstatus herr hm
    refine ⟨?_, rfl, by simp [ctxErr]⟩
    unfold snapshotBeta.WaitOnReadyToUse
    refine pollWait_error_at _ _ i ctx t false _ hi ?_ ?_
    · intro j hj
      exact (beta_waitCondition_continue_iff _ _ _ _).mpr (hpend j hj)
    · simp [snapshotBeta.waitCondition, hget, hstatus, herr, hm]

/-- Witness of C11: the snapshots of `quotaAlphaStore` and `quotaBetaStore` are marked ready
with a creation time and carry the status error "quota exceeded"; the wait returns exactly
that message at its first poll. -/
theorem WaitOnReadyToUse_status_error_witness :
    snapshotAlpha.seesReadyFlag (Store.client id) "snap-1" "ns-a" quotaAlphaStore = true ∧
    snapshotAlpha.WaitOnReadyToUse 3 (Store.client id) quotaAlphaStore "snap-1" "ns-a"
      = (quotaAlphaStore, .ret (some (.text "quota exceeded"))) ∧
    snapshotBeta.seesReadyFlag (Store.client id) "snap-1" "ns-a" quotaBetaStore = true ∧
    snapshotBeta.WaitOnReadyToUse 3 (Store.client id) quotaBetaStore "snap-1" "ns-a"
      = (quotaBetaStore, .ret (some (.text "quota exceeded"))) :=
  ⟨by decide,
   ((@WaitOnReadyToUse_status_error AlphaStore BetaStore 3 0 (Nat.zero_le 3) "snap-1"
      "ns-a").1 (Store.client id)
      quotaAlphaStore _ { Message := "quota exceeded" }
      (fun j hj => absurd hj (Nat.not_lt_zero j)) rfl rfl).1,
   by decide,
   ((@WaitOnReadyToUse_status_error AlphaStore BetaStore 3 0 (Nat.zero_le 3) "snap-1"
      "ns-a").2
      (Store.client id) quotaBetaStore _ _ { Message := some "quota exceeded" } "quota exceeded"
      (fun j hj => absurd hj (Nat.not_lt_zero j)) rfl rfl rfl rfl).1⟩

/-! ## C12 -/

/-- C12: in both backends, when every poll before poll `i` saw a pending snapshot and at poll
`i` (within the context's budget) the Get of the snapshot fails with `err` (not-found
included), WaitOnReadyToUse ends at that poll, in the state that poll saw, and returns exactly
`err`. -/
theorem WaitOnReadyToUse_fetch_error {σ τ : Type} (ctx i : Nat) (hi : i ≤ ctx)
    (snapshotName ns : String) (err : GoError) :
    (∀ (alphaCli : AlphaClient σ) (s : σ),
      (∀ j, j < i →
        snapshotAlpha.seesPending alphaCli snapshotName ns (alphaCli.elapse^[j] s) = true) →
      alphaCli.getSnapshot (alphaCli.elapse^[i] s) ns snapshotName = .error err →
      snapshotAlpha.WaitOnReadyToUse ctx alphaCli s snapshotName ns
        = (alphaCli.elapse^[i] s, .ret (some err))) ∧
    (∀ (betaCli : BetaClient τ) (t : τ),
      (∀ j, j < i →
        snapshotBeta.seesPending betaCli snapshotName ns (betaCli.elapse^[j] t) = true) →
      betaCli.getSnapshot (betaCli.elapse^[i] t) ns snapshotName = .error err →
      snapshotBeta.WaitOnReadyToUse ctx betaCli t snapshotName ns
        = (betaCli.elapse^[i] t, .ret (some err))) := by
  constructor
  · intro alphaCli s hpend hget
    unfold snapshotAlpha.WaitOnReadyToUse
    refine pollWait_error_at _ _ i ctx s false _ hi ?_ ?_
    · intro j hj
      exact (alpha_waitCondition_continue_iff _ _ _ _).mpr (hpend j hj)
    · simp [snapshotAlpha.waitCondition, hget]
  · intro betaCli t hpend hget
    unfold snapshotBeta.WaitOnReadyToUse
    refine pollWait_error_at _ _ i ctx t false _ hi ?_ ?_
    · intro j hj
      exact (beta_waitCondition_continue_iff _ _ _ _).mpr (hpend j hj)
    · simp [snapshotBeta.waitCondition, hget]

/-- Witness of C12: no snapshot ns-a/missing exists in the stores, so the first poll's Get
answers not-found, and the wait returns exactly that error. -/
theorem WaitOnReadyToUse_fetch_error_witness :
    snapshotAlpha.WaitOnReadyToUse 3 (Store.client id) boundAlphaStore "missing" "ns-a"
      = (boundAlphaStore, .ret (some (Store.notFound "volumesnapshots" "missing"))) ∧
    snapshotBeta.WaitOnReadyToUse 3 (Store.client id) boundBetaStore "missing" "ns-a"
      = (boundBetaStore, .ret (some (Store.notFound "volumesnapshots" "missing"))) :=
  ⟨(@WaitOnReadyToUse_fetch_error AlphaStore BetaStore 3 0 (Nat.zero_le 3) "missing" "ns-a"
      (Store.notFound "volumesnapshots" "missing")).1 (Store.client id) boundAlphaStore
      (fun j hj => absurd hj (Nat.not_lt_zero j)) (by decide),
   (@WaitOnReadyToUse_fetch_error AlphaStore BetaStore 3 0 (Nat.zero_le 3) "missing" "ns-a"
      (Store.notFound "volumesnapshots" "missing")).2 (Store.client id) boundBetaStore
      (fun j hj => absurd hj (Nat.not_lt_zero j)) (by decide)⟩

/-! ## C13 -/

/-- C13 as stated fails: in both backends GetSource of a snapshot that is bound to its Content
but not Ready (ready flag false) returns the Source, not an error. -/
theorem C13_GetSource_of_unready_snapshot :
    (snapshotAlpha.Get (Store.client id) unreadyAlphaStore "snap-1" "ns-a").map
        (fun snap => (snap.Spec.SnapshotContentName, snap.Status.ReadyToUse))
      = .ok ("snapcontent-1", false) ∧
    snapshotAlpha.GetSource (Store.client id) unreadyAlphaStore "snap-1" "ns-a"
      = .ret (.ok alphaExampleSource) ∧
    (snapshotBeta.Get (Store.client id) unreadyBetaStore "snap-1" "ns-a").map
        (fun snap => snap.Status.map
          (fun status => (status.BoundVolumeSnapshotContentName, status.ReadyToUse)))
      = .ok (some (some "snapcontent-1", some false)) ∧
    snapshotBeta.GetSource (Store.client id) unreadyBetaStore "snap-1" "ns-a"
      = .ret (.ok exampleSource) := by
  decide

/-- C13, amended: GetSource does not test readiness. In the legacy backend it returns an
error, and no Source, for every snapshot that exists but is unbound (empty Content name), the
platform having no Content to fetch under the empty name; and in both backends, for a snapshot
that is bound to an existing Content carrying a handle but whose ready flag is not true, it
returns that Content's Source. -/
theorem GetSource_unbound_or_unready {σ τ : Type} (snapshotName ns : String) :
    (∀ (alphaCli : AlphaClient σ) (s : σ) (snap : v1alpha1.VolumeSnapshot) (err : GoError),
      snapshotAlpha.Get alphaCli s snapshotName ns = .ok snap →
      snap.Spec.SnapshotContentName = "" →
      snapshotAlpha.getContent alphaCli s "" = .error err →
      snapshotAlpha.GetSource alphaCli s snapshotName ns
        = .ret (.error (.text ("Failed to get snapshot content, VolumeSnapshot: "
            ++ snapshotName ++ ", VolumeSnapshotContent: " ++ "" ++ ", Error: "
            ++ err.Error)))) ∧
    (∀ (alphaCli : AlphaClient σ) (s : σ) (snap : v1alpha1.VolumeSnapshot)
        (cont : v1alpha1.VolumeSnapshotContent) (csi : v1alpha1.CSIVolumeSnapshotSource),
      snapshotAlpha.Get alphaCli s snapshotName ns = .ok snap →
      snap.Status.ReadyToUse = false →
      snapshotAlpha.getContent alphaCli s snap.Spec.SnapshotContentName = .ok cont →
      cont.Spec.VolumeSnapshotSource.CSI = some csi →
      snapshotAlpha.GetSource alphaCli s snapshotName ns
        = .ret (.ok { Handle := csi.SnapshotHandle, Driver := csi.Driver,
                      RestoreSize := csi.RestoreSize,
                      VolumeSnapshotClassName := cont.Spec.VolumeSnapshotClassName })) ∧
    (∀ (betaCli : BetaClient τ) (t : τ) (boundName handle : String)
        (snap : v1beta1.VolumeSnapshot) (status : v1beta1.VolumeSnapshotStatus)
        (cont : v1beta1.VolumeSnapshotContent)
        (contStatus : v1beta1.VolumeSnapshotContentStatus),
      snapshotBeta.Get betaCli t snapshotName ns = .ok snap →
      snap.Status = some status →
      status.ReadyToUse ≠ some true →
      status.BoundVolumeSnapshotContentName = some boundName →
      snapshotBeta.getContent betaCli t boundName = .ok cont →
      cont.Status = some contStatus →
      contStatus.SnapshotHandle = some handle →
      snapshotBeta.GetSource betaCli t snapshotName ns
        = .ret (.ok { Handle := handle, Driver := cont.Spec.Driver,
                      RestoreSize := contStatus.RestoreSize,
                      VolumeSnapshotClassName := cont.Spec.VolumeSnapshotClassName })) := by
  refine ⟨?_, ?_, ?_⟩
  · intro alphaCli s snap err hget hunbound hmiss
    simp [snapshotAlpha.GetSource, hget, hunbound, hmiss]
  · intro alphaCli s snap cont csi hget _ hcont hcsi
    exact alpha_GetSource_of_content alphaCli s snapshotName ns snap cont csi hget hcont hcsi
  · intro betaCli t boundName handle snap status cont contStatus hget hstatus _ hbound hcont
      hcs hhandle
    exact beta_GetSource_of_content betaCli t snapshotName ns boundName handle snap status cont
      contStatus hget hstatus hbound hcont hcs hhandle

/-- Witness of C13: the unbound legacy snapshot ns-a/snap-1 of `pendingAlphaStore` gives an
error, and the bound, not yet ready snapshots of `unreadyAlphaStore` and `unreadyBetaStore`
give their Content's Source. -/
theorem GetSource_unbound_or_unready_witness :
    snapshotAlpha.GetSource (Store.client id) pendingAlphaStore "snap-1" "ns-a"
      = .ret (.error (.text ("Failed to get snapshot content, VolumeSnapshot: "
          ++ "snap-1" ++ ", VolumeSnapshotContent: " ++ "" ++ ", Error: "
          ++ (Store.notFound "volumesnapshotcontents" "").Error))) ∧
    snapshotAlpha.GetSource (Store.client id) unreadyAlphaStore "snap-1" "ns-a"
      = .ret (.ok { Handle := "h-1", Driver := "drv", RestoreSize := some 1024,
                    VolumeSnapshotClassName := some "csi-class" }) ∧
    snapshotBeta.GetSource (Store.client id) unreadyBetaStore "snap-1" "ns-a"
      = .ret (.ok { Handle := "h-1", Driver := "drv", RestoreSize := none,
                    VolumeSnapshotClassName := some "csi-class" }) :=
  ⟨(@GetSource_unbound_or_unready AlphaStore BetaStore "snap-1" "ns-a").1 (Store.client id)
      pendingAlphaStore _ _ rfl (by decide) rfl,
   (@GetSource_unbound_or_unready AlphaStore BetaStore "snap-1" "ns-a").2.1 (Store.client id)
      unreadyAlphaStore _ _ { Driver := "drv", SnapshotHandle := "h-1", RestoreSize := some 1024 }
      rfl (by decide) rfl (by decide),
   (@GetSource_unbound_or_unready AlphaStore BetaStore "snap-1" "ns-a").2.2 (Store.client id)
      unreadyBetaStore "snapcontent-1" "h-1" _
      { BoundVolumeSnapshotContentName := some "snapcontent-1", ReadyToUse := some false } _
      { SnapshotHandle := some "h-1", ReadyToUse := some true }
      rfl (by decide) (by decide) (by decide) rfl (by decide) (by decide)⟩

/-! ## C14 -/

/-- C15: in both backends, when the lookup of the claim `volumeName` in the namespace answers
not-found, Create returns the error "Failed to find PVC volumeName, Namespace ns"; when the
lookup fails otherwise, it returns "Failed to query PVC volumeName, Namespace ns: " followed
by the lookup's error; in both cases no call that writes is made (the state is unchanged). In
particular, over the store, Create for a claim that is not in the namespace leaves the store
as it was. -/
theorem Create_fails_fast_on_claim {σ τ : Type} (ctx : Nat) (name ns volumeName : String)
    (snapshotClass : Option String) (waitForReady : Bool) :
    (∀ (kubeCli : KubeClient σ) (alphaCli : AlphaClient σ) (s : σ) (err : GoError),
      kubeCli.getPVC s ns volumeName = some err →
      (IsNotFound (some err) = true →
        snapshotAlpha.Create ctx kubeCli alphaCli s name ns volumeName snapshotClass
            waitForReady
          = (s, .ret (some (.text ("Failed to find PVC " ++ volumeName ++ ", Namespace "
              ++ ns))))) ∧
      (IsNotFound (some err) = false →
        snapshotAlpha.Create ctx kubeCli alphaCli s name ns volumeName snapshotClass
            waitForReady
          = (s, .ret (some (.text ("Failed to query PVC " ++ volumeName ++ ", Namespace "
              ++ ns ++ ": " ++ err.Error)))))) ∧
    (∀ (kubeCli : KubeClient τ) (betaCli : BetaClient τ) (t : τ) (err : GoError),
      kubeCli.getPVC t ns volumeName = some err →
      (IsNotFound (some err) = true →
        snapshotBeta.Create ctx kubeCli betaCli t name ns volumeName snapshotClass waitForReady
          = (t, .ret (some (.text ("Failed to find PVC " ++ volumeName ++ ", Namespace "
              ++ ns))))) ∧
      (IsNotFound (some err) = false →
        snapshotBeta.Create ctx kubeCli betaCli t name ns volumeName snapshotClass waitForReady
          = (t, .ret (some (.text ("Failed to query PVC " ++ volumeName ++ ", Namespace "
              ++ ns ++ ": " ++ err.Error)))))) ∧
    (∀ (platform : AlphaStore → AlphaStore) (st : AlphaStore),
      st.pvcs.contains (ns, volumeName) = false →
      snapshotAlpha.Create ctx Store.kubeClient (Store.client platform) st name ns volumeName
          snapshotClass waitForReady
        = (st, .ret (some (.text ("Failed to find PVC " ++ volumeName ++ ", Namespace "
            ++ ns))))) ∧
    (∀ (platform : BetaStore → BetaStore) (st : BetaStore),
      st.pvcs.contains (ns, volumeName) = false →
      snapshotBeta.Create ctx Store.kubeClient (Store.client platform) st name ns volumeName
          snapshotClass waitForReady
        = (st, .ret (some (.text ("Failed to find PVC " ++ volumeName ++ ", Namespace "
            ++ ns))))) := by
  refine ⟨?_, ?_, ?_, ?_⟩
  · intro kubeCli alphaCli s err hpvc
    constructor <;> intro hnf <;> simp [snapshotAlpha.Create, hpvc, hnf]
  · intro kubeCli betaCli t err hpvc
    constructor <;> intro hnf <;> simp [snapshotBeta.Create, hpvc, hnf]
  · intro platform st habsent
    simp [snapshotAlpha.Create, Store.kubeClient_getPVC_of_absent st ns volumeName habsent,
      Store.isNotFound_notFound]
  · intro platform st habsent
    simp [snapshotBeta.Create, Store.kubeClient_getPVC_of_absent st ns volumeName habsent,
      Store.isNotFound_notFound]

/-- Witness of C15: no claim ns-a/pvc-9 exists, and a refused claim lookup; Create returns the
error naming the claim and the namespace and the stores are left as they were. -/
theorem Create_fails_fast_on_claim_witness :
    snapshotAlpha.Create 3 Store.kubeClient (Store.client id) alphaClaimStore "snap-9" "ns-a"
        "pvc-9" none true
      = (alphaClaimStore, .ret (some (.text ("Failed to find PVC " ++ "pvc-9" ++ ", Namespace "
          ++ "ns-a")))) ∧
    snapshotBeta.Create 3 Store.kubeClient (Store.client id) claimStore "snap-9" "ns-a"
        "pvc-9" none true
      = (claimStore, .ret (some (.text ("Failed to find PVC " ++ "pvc-9" ++ ", Namespace "
          ++ "ns-a")))) ∧
    snapshotAlpha.Create 3 refusingKubeClient (Store.client id) alphaClaimStore "snap-9" "ns-a"
        "pvc-9" none true
      = (alphaClaimStore, .ret (some (.text ("Failed to query PVC " ++ "pvc-9" ++ ", Namespace "
          ++ "ns-a" ++ ": " ++ (GoError.status "Forbidden" "forbidden").Error)))) ∧
    snapshotBeta.Create 3 refusingKubeClient (Store.client id) claimStore "snap-9" "ns-a"
        "pvc-9" none true
      = (claimStore, .ret (some (.text ("Failed to query PVC " ++ "pvc-9" ++ ", Namespace "
          ++ "ns-a" ++ ": " ++ (GoError.status "Forbidden" "forbidden").Error)))) :=
  ⟨(@Create_fails_fast_on_claim AlphaStore BetaStore 3 "snap-9" "ns-a" "pvc-9" none true).2.2.1
      id alphaClaimStore (by decide),
   (@Create_fails_fast_on_claim AlphaStore BetaStore 3 "snap-9" "ns-a" "pvc-9" none true).2.2.2
      id claimStore (by decide),
   ((@Create_fails_fast_on_claim AlphaStore BetaStore 3 "snap-9" "ns-a" "pvc-9" none true).1
      refusingKubeClient (Store.client id) alphaClaimStore _ rfl).2 (by decide),
   ((@Create_fails_fast_on_claim AlphaStore BetaStore 3 "snap-9" "ns-a" "pvc-9" none true).2.1
      refusingKubeClient (Store.client id) claimStore _ rfl).2 (by decide)⟩

/-! ## C16 -/

/-- C16: over the store, in both backends, for every name, namespace and claim that exists in
that namespace, with no snapshot yet at (name, namespace), Create with waitForReady=false
returns success with the store extended by exactly the submitted snapshot (no poll interval
has passed, whatever the context allows), and a following Get finds that snapshot: it has the
name and namespace, is sourced from the claim, carries the requested class and is not ready
(legacy: ready flag false; current generation: no status). -/
theorem Create_without_wait (ctx : Nat) (name ns volumeName : String)
    (snapshotClass : Option String) :
    (∀ (platform : AlphaStore → AlphaStore) (st : AlphaStore),
      st.pvcs.contains (ns, volumeName) = true →
      st.snapshots.any (Store.hasKey ns name) = false →
      snapshotAlpha.Create ctx Store.kubeClient (Store.client platform) st name ns volumeName
          snapshotClass false
        = ({ st with snapshots := st.snapshots ++
              [{ ObjectMeta := { Name := name, Namespace := ns },
                 Spec := { Source := some { Kind := pvcKind, Name := volumeName },
                           VolumeSnapshotClassName := snapshotClass } }] }, .ret none) ∧
      snapshotAlpha.Get (Store.client platform)
          (snapshotAlpha.Create ctx Store.kubeClient (Store.client platform) st name ns
            volumeName snapshotClass false).1 name ns
        = .ok { ObjectMeta := { Name := name, Namespace := ns },
                Spec := { Source := some { Kind := pvcKind, Name := volumeName },
                          VolumeSnapshotClassName := snapshotClass },
                Status := { CreationTime := none, ReadyToUse := false, Error := none } } ∧
      snapshotAlpha.seesReady (Store.client platform) name ns
          (snapshotAlpha.Create ctx Store.kubeClient (Store.client platform) st name ns
            volumeName snapshotClass false).1 = false) ∧
    (∀ (platform : BetaStore → BetaStore) (st : BetaStore),
      st.pvcs.contains (ns, volumeName) = true →
      st.snapshots.any (Store.hasKey ns name) = false →
      snapshotBeta.Create ctx Store.kubeClient (Store.client platform) st name ns volumeName
          snapshotClass false
        = ({ st with snapshots := st.snapshots ++
              [{ ObjectMeta := { Name := name, Namespace := ns },
                 Spec := { Source := { PersistentVolumeClaimName := some volumeName },
                           VolumeSnapshotClassName := snapshotClass } }] }, .ret none) ∧
      snapshotBeta.Get (Store.client platform)
          (snapshotBeta.Create ctx Store.kubeClient (Store.client platform) st name ns
            volumeName snapshotClass false).1 name ns
        = .ok { ObjectMeta := { Name := name, Namespace := ns },
                Spec := { Source := { PersistentVolumeClaimName := some volumeName,
                                      VolumeSnapshotContentName := none },
                          VolumeSnapshotClassName := snapshotClass },
                Status := none } ∧
      snapshotBeta.seesReady (Store.client platform) name ns
          (snapshotBeta.Create ctx Store.kubeClient (Store.client platform) st name ns
            volumeName snapshotClass false).1 = false) := by
  constructor
  · intro platform st hpvc habsent
    have hcreate : snapshotAlpha.Create ctx Store.kubeClient (Store.client platform) st name ns
        volumeName snapshotClass false
        = ({ st with snapshots := st.snapshots ++
              [{ ObjectMeta := { Name := name, Namespace := ns },
                 Spec := { Source := some { Kind := pvcKind, Name := volumeName },
                           VolumeSnapshotClassName := snapshotClass } }] }, .ret none) := by
      unfold snapshotAlpha.Create
      simp only [Store.kubeClient_getPVC_of_present st ns volumeName hpvc,
        Store.client_createSnapshot]
      rw [alpha_createSnapshot_named_of_absent st ns _ rfl habsent]
      simp
    have hfind := Store.find?_append_new (Store.hasKey ns name) st.snapshots
      ({ ObjectMeta := { Name := name, Namespace := ns },
         Spec := { Source := some { Kind := pvcKind, Name := volumeName },
                   VolumeSnapshotClassName := snapshotClass } } : v1alpha1.VolumeSnapshot)
      habsent (by simp [Store.hasKey, KubeObject.objectMeta])
    refine ⟨hcreate, ?_, ?_⟩
    · rw [hcreate]
      simp only [snapshotAlpha.Get, Store.client_getSnapshot, Store.getSnapshot, hfind]
    · rw [hcreate]
      simp only [snapshotAlpha.seesReady, Store.client_getSnapshot, Store.getSnapshot, hfind]
      rfl
  · intro platform st hpvc habsent
    have hcreate : snapshotBeta.Create ctx Store.kubeClient (Store.client platform) st name ns
        volumeName snapshotClass false
        = ({ st with snapshots := st.snapshots ++
              [{ ObjectMeta := { Name := name, Namespace := ns },
                 Spec := { Source := { PersistentVolumeClaimName := some volumeName },
                           VolumeSnapshotClassName := snapshotClass } }] }, .ret none) := by
      unfold snapshotBeta.Create
      simp only [Store.kubeClient_getPVC_of_present st ns volumeName hpvc,
        Store.client_createSnapshot]
      rw [beta_createSnapshot_named_of_absent st ns _ rfl habsent]
      simp
    have hfind := Store.find?_append_new (Store.hasKey ns name) st.snapshots
      ({ ObjectMeta := { Name := name, Namespace := ns },
         Spec := { Source := { PersistentVolumeClaimName := some volumeName },
                   VolumeSnapshotClassName := snapshotClass } } : v1beta1.VolumeSnapshot)
      habsent (by simp [Store.hasKey, KubeObject.objectMeta])
    refine ⟨hcreate, ?_, ?_⟩
    · rw [hcreate]
      simp only [snapshotBeta.Get, Store.client_getSnapshot, Store.getSnapshot, hfind]
    · rw [hcreate]
      simp only [snapshotBeta.seesReady, Store.client_getSnapshot, Store.getSnapshot, hfind]

/-- Witness of C16: Create of ns-a/snap-1 from the claim pvc-1 without waiting, in both
backends. -/
theorem Create_without_wait_witness :
    snapshotAlpha.Get (Store.client id) pendingAlphaStore "snap-1" "ns-a"
      = .ok { ObjectMeta := { Name := "snap-1", Namespace := "ns-a" },
              Spec := { Source := some { Kind := pvcKind, Name := "pvc-1" },
                        VolumeSnapshotClassName := some "csi-class" },
              Status := { CreationTime := none, ReadyToUse := false, Error := none } } ∧
    snapshotBeta.Get (Store.client id) pendingBetaStore "snap-1" "ns-a"
      = .ok { ObjectMeta := { Name := "snap-1", Namespace := "ns-a" },
              Spec := { Source := { PersistentVolumeClaimName := some "pvc-1",
                                    VolumeSnapshotContentName := none },
                        VolumeSnapshotClassName := some "csi-class" },
              Status := none } :=
  ⟨((Create_without_wait 0 "snap-1" "ns-a" "pvc-1" (some "csi-class")).1 id alphaClaimStore
      (by decide) (by decide)).2.1,
   ((Create_without_wait 0 "snap-1" "ns-a" "pvc-1" (some "csi-class")).2 id claimStore
      (by decide) (by decide)).2.1⟩

/-! ## C17 -/

/-- C17: over the store, in both backends, for every Source whose class `className` exists
with deletion policy `k.DeletionPolicy`, a successful CreateFromSource has added exactly one
Content and one Snapshot: the Content is named snapshotName ++ "-content-" ++ uuid and carries
the Source's driver, handle and class name, the class's deletion policy and the back-reference
(VolumeSnapshot, ns, snapshotName); the Snapshot is named snapshotName in namespace ns,
references that Content's name and has the same class name. The store afterwards is the old
store with these two appended (legacy, when waiting: followed by the poll intervals of the
platform that the wait took). -/
theorem CreateFromSource_adds_content_and_snapshot (ctx : Nat) (uuid : String) (src : Source)
    (snapshotName ns className : String) (waitForReady : Bool)
    (hc : src.VolumeSnapshotClassName = some className) :
    (∀ (platform : AlphaStore → AlphaStore) (st st' : AlphaStore)
        (k : v1alpha1.VolumeSnapshotClass),
      Store.getClass st className = .ok k →
      snapshotAlpha.CreateFromSource ctx uuid (Store.client platform) st src snapshotName ns
        waitForReady = (st', .ret none) →
      (∃ i, st' = platform^[i]
        { st with
          contents := st.contents ++
            [{ ObjectMeta := { Name := snapshotName ++ "-content-" ++ uuid },
               Spec := { VolumeSnapshotSource :=
                           { CSI := some { Driver := src.Driver,
                                           SnapshotHandle := src.Handle } },
                         VolumeSnapshotRef :=
                           some { Kind := "VolumeSnapshot", Namespace := ns,
                                  Name := snapshotName },
                         VolumeSnapshotClassName := some className,
                         DeletionPolicy := k.DeletionPolicy } }],
          snapshots := st.snapshots ++
            [{ ObjectMeta := { Name := snapshotName, Namespace := ns },
               Spec := { SnapshotContentName := snapshotName ++ "-content-" ++ uuid,
                         VolumeSnapshotClassName := some className } }] } ∧
        (waitForReady = false → i = 0))) ∧
    (∀ (platform : BetaStore → BetaStore) (st st' : BetaStore)
        (k : v1beta1.VolumeSnapshotClass),
      Store.getClass st className = .ok k →
      snapshotBeta.CreateFromSource ctx uuid (Store.client platform) st src snapshotName ns
        waitForReady = (st', .ret none) →
      st' =
        { st with
          contents := st.contents ++
            [{ ObjectMeta := { Name := snapshotName ++ "-content-" ++ uuid },
               Spec := { Driver := src.Driver,
                         Source := { SnapshotHandle := some src.Handle },
                         VolumeSnapshotRef :=
                           { Kind := "VolumeSnapshot", Namespace := ns, Name := snapshotName },
                         VolumeSnapshotClassName := some className,
                         DeletionPolicy := k.DeletionPolicy } }],
          snapshots := st.snapshots ++
            [{ ObjectMeta := { Name := snapshotName, Namespace := ns },
               Spec := { Source := { VolumeSnapshotContentName :=
                                       some (snapshotName ++ "-content-" ++ uuid) },
                         VolumeSnapshotClassName := some className } }] }) := by
  constructor
  · intro platform st st' k hk hcreate
    obtain ⟨className', k', i, hc', hk', hfreeC, hfreeS, hst'⟩ :=
      alpha_CreateFromSource_success platform ctx uuid st st' src snapshotName ns
        waitForReady hcreate
    obtain rfl : className = className' := by
      rw [hc] at hc'
      exact Option.some.inj hc'
    obtain rfl : k = k' := by
      rw [hk] at hk'
      exact Except.ok.inj hk'
    cases waitForReady with
    | true =>
      refine ⟨i, ?_, fun h => absurd h (by decide)⟩
      rw [hst']
      simp only [alphaContentOf, alphaSnapshotOf, hc, snapshotKind]
    | false =>
      refine ⟨0, ?_, fun _ => rfl⟩
      have hboth := alpha_CreateFromSource_both_free platform ctx uuid st src snapshotName ns
        false className k hc hk hfreeC hfreeS
      rw [hcreate] at hboth
      have hfst := congrArg Prod.fst hboth
      simp only [Bool.not_false, if_true] at hfst
      rw [hfst]
      simp only [alphaContentOf, alphaSnapshotOf, hc, snapshotKind, Function.iterate_zero, id_eq]
  · intro platform st st' k hk hcreate
    obtain ⟨className', k', hc', hk', -, -, -, hst'⟩ :=
      beta_CreateFromSource_success platform ctx uuid st st' src snapshotName ns
        waitForReady hcreate
    obtain rfl : className = className' := by
      rw [hc] at hc'
      exact Option.some.inj hc'
    obtain rfl : k = k' := by
      rw [hk] at hk'
      exact Except.ok.inj hk'
    rw [hst']
    simp only [betaContentOf, betaSnapshotOf, hc, snapshotKind]

/-- Witness of C17: CreateFromSource of `alphaExampleSource` to ns-c/snap-3 (waiting, on a
platform that marks snapshots ready) and of `exampleSource` to ns-b/snap-2 (not waiting). -/
theorem CreateFromSource_adds_content_and_snapshot_witness :
    (∃ i, clonedAlphaStore = markAllReady^[i]
        { boundAlphaStore with
          contents := boundAlphaStore.contents ++
            [{ ObjectMeta := { Name := "snap-3" ++ "-content-" ++ "u3" },
               Spec := { VolumeSnapshotSource :=
                           { CSI := some { Driver := alphaExampleSource.Driver,
                                           SnapshotHandle := alphaExampleSource.Handle } },
                         VolumeSnapshotRef :=
                           some { Kind := "VolumeSnapshot", Namespace := "ns-c",
                                  Name := "snap-3" },
                         VolumeSnapshotClassName := some "csi-class",
                         DeletionPolicy := some "Delete" } }],
          snapshots := boundAlphaStore.snapshots ++
            [{ ObjectMeta := { Name := "snap-3", Namespace := "ns-c" },
               Spec := { SnapshotContentName := "snap-3" ++ "-content-" ++ "u3",
                         VolumeSnapshotClassName := some "csi-class" } }] } ∧
        (true = false → i = 0)) ∧
    importedBetaStore =
      { provisionedBetaStore with
        contents := provisionedBetaStore.contents ++
          [{ ObjectMeta := { Name := "snap-2" ++ "-content-" ++ "u1" },
             Spec := { Driver := exampleSource.Driver,
                       Source := { SnapshotHandle := some exampleSource.Handle },
                       VolumeSnapshotRef :=
                         { Kind := "VolumeSnapshot", Namespace := "ns-b", Name := "snap-2" },
                       VolumeSnapshotClassName := some "csi-class",
                       DeletionPolicy := "Delete" } }],
        snapshots := provisionedBetaStore.snapshots ++
          [{ ObjectMeta := { Name := "snap-2", Namespace := "ns-b" },
             Spec := { Source := { VolumeSnapshotContentName :=
                                     some ("snap-2" ++ "-content-" ++ "u1") },
                       VolumeSnapshotClassName := some "csi-class" } }] } :=
  ⟨(CreateFromSource_adds_content_and_snapshot 3 "u3" alphaExampleSource "snap-3" "ns-c"
      "csi-class" true rfl).1 markAllReady boundAlphaStore clonedAlphaStore
      { ObjectMeta := { Name := "csi-class", Annotations := [("backup-tool", "true")] },
        Snapshotter := "drv", DeletionPolicy := some "Delete" } (by decide) (by decide),
   (CreateFromSource_adds_content_and_snapshot 0 "u1" exampleSource "snap-2" "ns-b"
      "csi-class" false rfl).2 id provisionedBetaStore importedBetaStore
      { ObjectMeta := { Name := "csi-class", Annotations := [("backup-tool", "true")] },
        Driver := "drv", DeletionPolicy := "Delete" } (by decide) (by decide)⟩

/-! ## C18 -/

/-- C18: in both backends CreateFromSource looks up the Source's class, then submits the
Content, then the Snapshot. When the class lookup fails it returns the wrapped lookup error
and makes no call that writes (the state is unchanged). When the Content submission fails the
state is the one that failed submission left (the Snapshot is not submitted), and the call
returns the error "Failed to create content, VolumesnapshotContent: ..." built from the object
and error the client hands back. Over the store, a taken Content name leaves the store as it
was. -/
theorem CreateFromSource_submission_order {σ τ : Type} (ctx : Nat) (uuid : String)
    (src : Source) (snapshotName ns className : String) (waitForReady : Bool)
    (hc : src.VolumeSnapshotClassName = some className) :
    (∀ (alphaCli : AlphaClient σ) (s : σ) (err : GoError),
      alphaCli.getClass s className = .error err →
      snapshotAlpha.CreateFromSource ctx uuid alphaCli s src snapshotName ns waitForReady
        = (s, .ret (some (.wrapped
            (.wrapped err ("Failed to find VolumeSnapshotClass: " ++ className))
            "Failed to get DeletionPolicy from VolumeSnapshotClass")))) ∧
    (∀ (betaCli : BetaClient τ) (t : τ) (err : GoError),
      betaCli.getClass t className = .error err →
      snapshotBeta.CreateFromSource ctx uuid betaCli t src snapshotName ns waitForReady
        = (t, .ret (some (.wrapped
            (.wrapped err ("Failed to find VolumeSnapshotClass: " ++ className))
            "Failed to get DeletionPolicy from VolumeSnapshotClass")))) ∧
    (∀ (alphaCli : AlphaClient σ) (s s1 : σ) (k : v1alpha1.VolumeSnapshotClass)
        (obj : Option v1alpha1.VolumeSnapshotContent) (err : GoError),
      alphaCli.getClass s className = .ok k →
      alphaCli.createContent s (alphaContentOf src snapshotName ns uuid k.DeletionPolicy)
        = (s1, .failed obj err) →
      (snapshotAlpha.CreateFromSource ctx uuid alphaCli s src snapshotName ns waitForReady).1
          = s1 ∧
        ∀ content1, obj = some content1 →
          (snapshotAlpha.CreateFromSource ctx uuid alphaCli s src snapshotName ns
              waitForReady).2
            = .ret (some (.text ("Failed to create content, VolumesnapshotContent: "
                ++ content1.ObjectMeta.Name ++ ", Error: " ++ err.Error)))) ∧
    (∀ (betaCli : BetaClient τ) (t t1 : τ) (k : v1beta1.VolumeSnapshotClass)
        (obj : Option v1beta1.VolumeSnapshotContent) (err : GoError),
      betaCli.getClass t className = .ok k →
      betaCli.createContent t (betaContentOf src snapshotName ns uuid k.DeletionPolicy)
        = (t1, .failed obj err) →
      (snapshotBeta.CreateFromSource ctx uuid betaCli t src snapshotName ns waitForReady).1
          = t1 ∧
        ∀ content1, obj = some content1 →
          (snapshotBeta.CreateFromSource ctx uuid betaCli t src snapshotName ns
              waitForReady).2
            = .ret (some (.text ("Failed to create content, VolumesnapshotContent: "
                ++ content1.ObjectMeta.Name ++ ", Error: " ++ err.Error)))) ∧
    (∀ (platform : AlphaStore → AlphaStore) (st : AlphaStore)
        (k : v1alpha1.VolumeSnapshotClass),
      Store.getClass st className = .ok k →
      st.contents.any (Store.hasName (snapshotName ++ "-content-" ++ uuid)) = true →
      snapshotAlpha.CreateFromSource ctx uuid (Store.client platform) st src snapshotName ns
          waitForReady
        = (st, .ret (some (.text ("Failed to create content, VolumesnapshotContent: " ++ ""
            ++ ", Error: " ++ (Store.alreadyExists "volumesnapshotcontents"
              (snapshotName ++ "-content-" ++ uuid)).Error))))) ∧
    (∀ (platform : BetaStore → BetaStore) (st : BetaStore)
        (k : v1beta1.VolumeSnapshotClass),
      Store.getClass st className = .ok k →
      st.contents.any (Store.hasName (snapshotName ++ "-content-" ++ uuid)) = true →
      snapshotBeta.CreateFromSource ctx uuid (Store.client platform) st src snapshotName ns
          waitForReady
        = (st, .ret (some (.text ("Failed to create content, VolumesnapshotContent: " ++ ""
            ++ ", Error: " ++ (Store.alreadyExists "volumesnapshotcontents"
              (snapshotName ++ "-content-" ++ uuid)).Error))))) := by
  refine ⟨(@CreateFromSource_of_class_failure σ τ ctx uuid src snapshotName ns waitForReady
      className hc).1,
    (@CreateFromSource_of_class_failure σ τ ctx uuid src snapshotName ns waitForReady
      className hc).2, ?_, ?_, ?_, ?_⟩
  · intro alphaCli s s1 k obj err hk hfail
    rw [alpha_CreateFromSource_steps ctx uuid alphaCli s src snapshotName ns waitForReady
      className k hc hk, hfail]
    cases obj with
    | none => exact ⟨rfl, fun _ h => nomatch h⟩
    | some c1 =>
      refine ⟨rfl, fun content1 h => ?_⟩
      obtain rfl := Option.some.inj h
      rfl
  · intro betaCli t t1 k obj err hk hfail
    rw [beta_CreateFromSource_steps ctx uuid betaCli t src snapshotName ns waitForReady
      className k hc hk, hfail]
    cases obj with
    | none => exact ⟨rfl, fun _ h => nomatch h⟩
    | some c1 =>
      refine ⟨rfl, fun content1 h => ?_⟩
      obtain rfl := Option.some.inj h
      rfl
  · intro platform st k hk htaken
    exact alpha_CreateFromSource_content_taken platform ctx uuid st src snapshotName ns
      waitForReady className k hc hk htaken
  · intro platform st k hk htaken
    exact beta_CreateFromSource_content_taken platform ctx uuid st src snapshotName ns
      waitForReady className k hc hk htaken

/-- Witness of C18: a Source whose class does not exist, and a Content name that is taken; in
both backends CreateFromSource returns an error and the store is as it was. -/
theorem CreateFromSource_submission_order_witness :
    snapshotAlpha.CreateFromSource 3 "u3" (Store.client id) boundAlphaStore classlessSource
        "snap-3" "ns-c" true
      = (boundAlphaStore, .ret (some (.wrapped
          (.wrapped (Store.notFound volumeSnapClassesRes "no-such-class")
            ("Failed to find VolumeSnapshotClass: " ++ "no-such-class"))
          "Failed to get DeletionPolicy from VolumeSnapshotClass"))) ∧
    snapshotBeta.CreateFromSource 3 "u3" (Store.client id) provisionedBetaStore classlessSource
        "snap-3" "ns-c" true
      = (provisionedBetaStore, .ret (some (.wrapped
          (.wrapped (Store.notFound volumeSnapClassesRes "no-such-class")
            ("Failed to find VolumeSnapshotClass: " ++ "no-such-class"))
          "Failed to get DeletionPolicy from VolumeSnapshotClass"))) ∧
    snapshotAlpha.CreateFromSource 3 "u3" (Store.client id) takenAlphaStore alphaExampleSource
        "snap-3" "ns-c" true
      = (takenAlphaStore, .ret (some (.text ("Failed to create content, "
          ++ "VolumesnapshotContent: " ++ "" ++ ", Error: "
          ++ (Store.alreadyExists "volumesnapshotcontents"
            ("snap-3" ++ "-content-" ++ "u3")).Error)))) ∧
    snapshotBeta.CreateFromSource 3 "u3" (Store.client id) takenBetaStore exampleSource
        "snap-3" "ns-c" true
      = (takenBetaStore, .ret (some (.text ("Failed to create content, "
          ++ "VolumesnapshotContent: " ++ "" ++ ", Error: "
          ++ (Store.alreadyExists "volumesnapshotcontents"
            ("snap-3" ++ "-content-" ++ "u3")).Error)))) :=
  ⟨(@CreateFromSource_submission_order AlphaStore BetaStore 3 "u3" classlessSource "snap-3"
      "ns-c" "no-such-class" true rfl).1 (Store.client id) boundAlphaStore _ rfl,
   (@CreateFromSource_submission_order AlphaStore BetaStore 3 "u3" classlessSource "snap-3"
      "ns-c" "no-such-class" true rfl).2.1 (Store.client id) provisionedBetaStore _ rfl,
   (@CreateFromSource_submission_order AlphaStore BetaStore 3 "u3" alphaExampleSource "snap-3"
      "ns-c" "csi-class" true rfl).2.2.2.2.1 id takenAlphaStore _ rfl (by decide),
   (@CreateFromSource_submission_order AlphaStore BetaStore 3 "u3" exampleSource "snap-3"
      "ns-c" "csi-class" true rfl).2.2.2.2.2 id takenBetaStore _ rfl (by decide)⟩

/-! ## C19 -/

/-- C19 as stated fails: CreateFromSource towards ns-b/snap-2, where a snapshot already
exists, adds the Content snap-2-content-u4, then has its Snapshot submission refused and
returns an error; the Content stays in the store, and a Snapshot does exist at the target
identity (the one that was there before). Both backends. -/
theorem C19_snapshot_at_target_after_failure :
    (snapshotAlpha.CreateFromSource 0 "u4" (Store.client id) boundAlphaStore alphaExampleSource
        "snap-2" "ns-b" false).2
      = .ret (some (.text ("Failed to create content, Volumesnapshot: " ++ "" ++ ", Error: "
          ++ (Store.alreadyExists "volumesnapshots" "snap-2").Error))) ∧
    (Store.getContent (snapshotAlpha.CreateFromSource 0 "u4" (Store.client id) boundAlphaStore
        alphaExampleSource "snap-2" "ns-b" false).1 "snap-2-content-u4").map
        (fun cont => cont.ObjectMeta.Name) = .ok "snap-2-content-u4" ∧
    (snapshotAlpha.Get (Store.client id) (snapshotAlpha.CreateFromSource 0 "u4"
        (Store.client id) boundAlphaStore alphaExampleSource "snap-2" "ns-b" false).1
        "snap-2" "ns-b").map (fun snap => snap.Spec.SnapshotContentName)
      = .ok "snapcontent-2" ∧
    (snapshotBeta.CreateFromSource 0 "u4" (Store.client id) boundBetaStore exampleSource
        "snap-2" "ns-b" false).2
      = .ret (some (.text ("Failed to create content, Volumesnapshot: " ++ "" ++ ", Error: "
          ++ (Store.alreadyExists "volumesnapshots" "snap-2").Error))) ∧
    (Store.getContent (snapshotBeta.CreateFromSource 0 "u4" (Store.client id) boundBetaStore
        exampleSource "snap-2" "ns-b" false).1 "snap-2-content-u4").map
        (fun cont => cont.ObjectMeta.Name) = .ok "snap-2-content-u4" ∧
    (snapshotBeta.Get (Store.client id) (snapshotBeta.CreateFromSource 0 "u4"
        (Store.client id) boundBetaStore exampleSource "snap-2" "ns-b" false).1
        "snap-2" "ns-b").map (fun snap => snap.Spec.Source.VolumeSnapshotContentName)
      = .ok (some "snap-2-content-u1") := by
  decide

/-- C19, amended: over the store, in both backends, when the Source's class is found and the
Content name is free, and the Snapshot submission then fails (because the target identity is
taken, or because the platform refuses it with `err`), CreateFromSource, called directly or
reached through Clone, returns an error and the store afterwards is the old store plus the
new Content: the Content is found under its name (orphaned, nothing is rolled back) and the
snapshots are exactly those present before the call (no Snapshot is added). -/
theorem CreateFromSource_no_rollback (ctx : Nat) (uuid : String) (src : Source)
    (snapshotName ns className : String) (waitForReady : Bool)
    (hc : src.VolumeSnapshotClassName = some className) :
    (∀ (platform : AlphaStore → AlphaStore) (st : AlphaStore)
        (k : v1alpha1.VolumeSnapshotClass),
      Store.getClass st className = .ok k →
      st.contents.any (Store.hasName (snapshotName ++ "-content-" ++ uuid)) = false →
      (st.snapshots.any (Store.hasKey ns snapshotName) = true →
        snapshotAlpha.CreateFromSource ctx uuid (Store.client platform) st src snapshotName ns
            waitForReady
          = ({ st with contents := st.contents
                ++ [alphaContentOf src snapshotName ns uuid k.DeletionPolicy] },
             .ret (some (.text ("Failed to create content, Volumesnapshot: " ++ ""
              ++ ", Error: " ++ (Store.alreadyExists "volumesnapshots" snapshotName).Error)))))
      ∧ (∀ err, snapshotAlpha.CreateFromSource ctx uuid (Store.refusingSnapshots platform err)
            st src snapshotName ns waitForReady
          = ({ st with contents := st.contents
                ++ [alphaContentOf src snapshotName ns uuid k.DeletionPolicy] },
             .ret (some (.text ("Failed to create content, Volumesnapshot: " ++ ""
              ++ ", Error: " ++ err.Error)))))
      ∧ (∀ err name' ns' snap,
          snapshotAlpha.Get (Store.refusingSnapshots platform err) st name' ns' = .ok snap →
          snap.Status.ReadyToUse = true → snap.Spec.SnapshotContentName ≠ "" →
          st.snapshots.any (Store.hasKey ns snapshotName) = false →
          snapshotAlpha.GetSource (Store.refusingSnapshots platform err) st name' ns'
            = .ret (.ok src) →
          snapshotAlpha.Clone ctx uuid (Store.refusingSnapshots platform err) st name' ns'
              snapshotName ns waitForReady
            = ({ st with contents := st.contents
                  ++ [alphaContentOf src snapshotName ns uuid k.DeletionPolicy] },
               .ret (some (.text ("Failed to create content, Volumesnapshot: " ++ ""
                ++ ", Error: " ++ err.Error)))))
      ∧ Store.getContent
          ({ st with contents := st.contents
              ++ [alphaContentOf src snapshotName ns uuid k.DeletionPolicy] } : AlphaStore)
          (snapshotName ++ "-content-" ++ uuid)
          = .ok (alphaContentOf src snapshotName ns uuid k.DeletionPolicy)
      ∧ ({ st with contents := st.contents
            ++ [alphaContentOf src snapshotName ns uuid k.DeletionPolicy] } : AlphaStore).snapshots
          = st.snapshots) ∧
    (∀ (platform : BetaStore → BetaStore) (st : BetaStore)
        (k : v1beta1.VolumeSnapshotClass),
      Store.getClass st className = .ok k →
      st.contents.any (Store.hasName (snapshotName ++ "-content-" ++ uuid)) = false →
      (st.snapshots.any (Store.hasKey ns snapshotName) = true →
        snapshotBeta.CreateFromSource ctx uuid (Store.client platform) st src snapshotName ns
            waitForReady
          = ({ st with contents := st.contents
                ++ [betaContentOf src snapshotName ns uuid k.DeletionPolicy] },
             .ret (some (.text ("Failed to create content, Volumesnapshot: " ++ ""
              ++ ", Error: " ++ (Store.alreadyExists "volumesnapshots" snapshotName).Error)))))
      ∧ (∀ err, snapshotBeta.CreateFromSource ctx uuid (Store.refusingSnapshots platform err)
            st src snapshotName ns waitForReady
          = ({ st with contents := st.contents
                ++ [betaContentOf src snapshotName ns uuid k.DeletionPolicy] },
             .ret (some (.text ("Failed to create content, Volumesnapshot: " ++ ""
              ++ ", Error: " ++ err.Error)))))
      ∧ (∀ err name' ns' snap status contentName,
          snapshotBeta.Get (Store.refusingSnapshots platform err) st name' ns' = .ok snap →
          snap.Status = some status → status.ReadyToUse = some true →
          snap.Spec.Source.VolumeSnapshotContentName = some contentName → contentName ≠ "" →
          st.snapshots.any (Store.hasKey ns snapshotName) = false →
          snapshotBeta.GetSource (Store.refusingSnapshots platform err) st name' ns'
            = .ret (.ok src) →
          snapshotBeta.Clone ctx uuid (Store.refusingSnapshots platform err) st name' ns'
              snapshotName ns waitForReady
            = ({ st with contents := st.contents
                  ++ [betaContentOf src snapshotName ns uuid k.DeletionPolicy] },
               .ret (some (.text ("Failed to create content, Volumesnapshot: " ++ ""
                ++ ", Error: " ++ err.Error)))))
      ∧ Store.getContent
          ({ st with contents := st.contents
              ++ [betaContentOf src snapshotName ns uuid k.DeletionPolicy] } : BetaStore)
          (snapshotName ++ "-content-" ++ uuid)
          = .ok (betaContentOf src snapshotName ns uuid k.DeletionPolicy)
      ∧ ({ st with contents := st.contents
            ++ [betaContentOf src snapshotName ns uuid k.DeletionPolicy] } : BetaStore).snapshots
          = st.snapshots) := by
  constructor
  · intro platform st k hk hfree
    refine ⟨?_, ?_, ?_, ?_, rfl⟩
    · intro htaken
      exact alpha_CreateFromSource_snapshot_taken platform ctx uuid st src snapshotName ns
        waitForReady className k hc hk hfree htaken
    · intro err
      exact alpha_CreateFromSource_snapshot_refused platform ctx uuid st src snapshotName ns
        waitForReady className k err hc hk hfree
    · intro err name' ns' snap hget hready hbound habsent hsrc
      rw [alpha_Clone_delegates ctx uuid _ st name' ns' snapshotName ns waitForReady snap
        (Store.notFound "volumesnapshots" snapshotName) src hget hready hbound
        (Store.getSnapshot_of_absent st ns snapshotName habsent)
        (Store.isNotFound_notFound _ _) hsrc]
      exact alpha_CreateFromSource_snapshot_refused platform ctx uuid st src snapshotName ns
        waitForReady className k err hc hk hfree
    · exact Store.getContent_appended st
        (alphaContentOf src snapshotName ns uuid k.DeletionPolicy) hfree
  · intro platform st k hk hfree
    refine ⟨?_, ?_, ?_, ?_, rfl⟩
    · intro htaken
      exact beta_CreateFromSource_snapshot_taken platform ctx uuid st src snapshotName ns
        waitForReady className k hc hk hfree htaken
    · intro err
      exact beta_CreateFromSource_snapshot_refused platform ctx uuid st src snapshotName ns
        waitForReady className k err hc hk hfree
    · intro err name' ns' snap status contentName hget hstatus hready hbound hnonempty habsent
        hsrc
      rw [beta_Clone_delegates ctx uuid _ st name' ns' snapshotName ns contentName waitForReady
        snap status (Store.notFound "volumesnapshots" snapshotName) src hget hstatus hready
        hbound hnonempty (Store.getSnapshot_of_absent st ns snapshotName habsent)
        (Store.isNotFound_notFound _ _) hsrc]
      exact beta_CreateFromSource_snapshot_refused platform ctx uuid st src snapshotName ns
        waitForReady className k err hc hk hfree
    · exact Store.getContent_appended st
        (betaContentOf src snapshotName ns uuid k.DeletionPolicy) hfree

/-- Witness of C19: CreateFromSource towards the taken identity ns-b/snap-2, and Clone of
ns-b/snap-2 to ns-c/snap-3 on a platform that refuses snapshot submissions with "quota
exceeded"; in each case the error is returned and the new Content stays. -/
theorem CreateFromSource_no_rollback_witness :
    snapshotAlpha.CreateFromSource 0 "u4" (Store.client id) boundAlphaStore alphaExampleSource
        "snap-2" "ns-b" false
      = ({ boundAlphaStore with contents := boundAlphaStore.contents
            ++ [alphaContentOf alphaExampleSource "snap-2" "ns-b" "u4" (some "Delete")] },
         .ret (some (.text ("Failed to create content, Volumesnapshot: " ++ ""
          ++ ", Error: " ++ (Store.alreadyExists "volumesnapshots" "snap-2").Error)))) ∧
    snapshotBeta.Clone 3 "u4" (Store.refusingSnapshots id (.status "Forbidden" "quota exceeded"))
        boundBetaStore "snap-2" "ns-b" "snap-3" "ns-c" true
      = ({ boundBetaStore with contents := boundBetaStore.contents
            ++ [betaContentOf exampleSource "snap-3" "ns-c" "u4" "Delete"] },
         .ret (some (.text ("Failed to create content, Volumesnapshot: " ++ ""
          ++ ", Error: " ++ (GoError.status "Forbidden" "quota exceeded").Error)))) :=
  ⟨((CreateFromSource_no_rollback 0 "u4" alphaExampleSource "snap-2" "ns-b" "csi-class" false
      rfl).1 id boundAlphaStore
      { ObjectMeta := { Name := "csi-class", Annotations := [("backup-tool", "true")] },
        Snapshotter := "drv", DeletionPolicy := some "Delete" } (by decide) (by decide)).1
      (by decide),
   ((CreateFromSource_no_rollback 3 "u4" exampleSource "snap-3" "ns-c" "csi-class" true
      rfl).2 id boundBetaStore
      { ObjectMeta := { Name := "csi-class", Annotations := [("backup-tool", "true")] },
        Driver := "drv", DeletionPolicy := "Delete" } (by decide) (by decide)).2.2.1
      (.status "Forbidden" "quota exceeded") "snap-2" "ns-b" _
      (boundStatus "snap-2-content-u1" 9) "snap-2-content-u1" rfl (by decide) (by decide)
      (by decide) (by decide) (by decide) (by decide)⟩

/-! ## C20 -/

/-- C20: over the store, in both backends, for every store state and every argument tuple,
whatever Clone returns, the store afterwards is the old store with at most one Content and at
most one Snapshot appended (followed, when Clone waited, by the poll intervals of the platform
that the wait took); so on a platform that is quiescent during the call every Snapshot,
Content and class that could be looked up before the call is looked up unchanged after it.
Clone only adds objects. -/
theorem Clone_only_adds (ctx : Nat) (uuid : String)
    (name ns cloneName cloneNamespace : String) (waitForReady : Bool) :
    (∀ (platform : AlphaStore → AlphaStore) (st : AlphaStore),
      ∃ i cs ss, cs.length ≤ 1 ∧ ss.length ≤ 1 ∧
        (snapshotAlpha.Clone ctx uuid (Store.client platform) st name ns cloneName
          cloneNamespace waitForReady).1 = platform^[i] (st.extend cs ss)) ∧
    (∀ (st : AlphaStore),
      (∀ ns' name' snap, Store.getSnapshot st ns' name' = .ok snap →
        Store.getSnapshot (snapshotAlpha.Clone ctx uuid (Store.client id) st name ns cloneName
          cloneNamespace waitForReady).1 ns' name' = .ok snap) ∧
      (∀ name' cont, Store.getContent st name' = .ok cont →
        Store.getContent (snapshotAlpha.Clone ctx uuid (Store.client id) st name ns cloneName
          cloneNamespace waitForReady).1 name' = .ok cont) ∧
      (snapshotAlpha.Clone ctx uuid (Store.client id) st name ns cloneName
          cloneNamespace waitForReady).1.classes = st.classes) ∧
    (∀ (platform : BetaStore → BetaStore) (st : BetaStore),
      ∃ i cs ss, cs.length ≤ 1 ∧ ss.length ≤ 1 ∧
        (snapshotBeta.Clone ctx uuid (Store.client platform) st name ns cloneName
          cloneNamespace waitForReady).1 = platform^[i] (st.extend cs ss)) ∧
    (∀ (st : BetaStore),
      (∀ ns' name' snap, Store.getSnapshot st ns' name' = .ok snap →
        Store.getSnapshot (snapshotBeta.Clone ctx uuid (Store.client id) st name ns cloneName
          cloneNamespace waitForReady).1 ns' name' = .ok snap) ∧
      (∀ name' cont, Store.getContent st name' = .ok cont →
        Store.getContent (snapshotBeta.Clone ctx uuid (Store.client id) st name ns cloneName
          cloneNamespace waitForReady).1 name' = .ok cont) ∧
      (snapshotBeta.Clone ctx uuid (Store.client id) st name ns cloneName
          cloneNamespace waitForReady).1.classes = st.classes) := by
  refine ⟨?_, ?_, ?_, ?_⟩
  · intro platform st
    exact alpha_Clone_appends platform ctx uuid st name ns cloneName cloneNamespace waitForReady
  · intro st
    obtain ⟨i, cs, ss, -, -, h⟩ :=
      alpha_Clone_appends id ctx uuid st name ns cloneName cloneNamespace waitForReady
    rw [h, Function.iterate_id]
    exact ⟨fun ns' name' snap hs => Store.getSnapshot_extend st cs ss ns' name' snap hs,
      fun name' cont hcont => Store.getContent_extend st cs ss name' cont hcont, rfl⟩
  · intro platform st
    exact beta_Clone_appends platform ctx uuid st name ns cloneName cloneNamespace waitForReady
  · intro st
    obtain ⟨i, cs, ss, -, -, h⟩ :=
      beta_Clone_appends id ctx uuid st name ns cloneName cloneNamespace waitForReady
    rw [h, Function.iterate_id]
    exact ⟨fun ns' name' snap hs => Store.getSnapshot_extend st cs ss ns' name' snap hs,
      fun name' cont hcont => Store.getContent_extend st cs ss name' cont hcont, rfl⟩

/-- Witness of C20: after Clone of ns-a/snap-1 to ns-c/snap-3 (legacy) and of ns-b/snap-2 to
ns-c/snap-3 (current generation), the original Snapshot and its Content are looked up as
before. -/
theorem Clone_only_adds_witness :
    Store.getSnapshot (snapshotAlpha.Clone 0 "u5" (Store.client id) boundAlphaStore
        "snap-1" "ns-a" "snap-3" "ns-c" false).1 "ns-a" "snap-1"
      = Store.getSnapshot boundAlphaStore "ns-a" "snap-1" ∧
    Store.getContent (snapshotAlpha.Clone 0 "u5" (Store.client id) boundAlphaStore
        "snap-1" "ns-a" "snap-3" "ns-c" false).1 "snapcontent-1"
      = Store.getContent boundAlphaStore "snapcontent-1" ∧
    Store.getSnapshot (snapshotBeta.Clone 0 "u5" (Store.client id) boundBetaStore
        "snap-2" "ns-b" "snap-3" "ns-c" false).1 "ns-b" "snap-2"
      = Store.getSnapshot boundBetaStore "ns-b" "snap-2" ∧
    Store.getContent (snapshotBeta.Clone 0 "u5" (Store.client id) boundBetaStore
        "snap-2" "ns-b" "snap-3" "ns-c" false).1 "snap-2-content-u1"
      = Store.getContent boundBetaStore "snap-2-content-u1" :=
  ⟨((Clone_only_adds 0 "u5" "snap-1" "ns-a" "snap-3" "ns-c" false).2.1 boundAlphaStore).1
      "ns-a" "snap-1" _ rfl,
   ((Clone_only_adds 0 "u5" "snap-1" "ns-a" "snap-3" "ns-c" false).2.1 boundAlphaStore).2.1
      "snapcontent-1" _ rfl,
   ((Clone_only_adds 0 "u5" "snap-2" "ns-b" "snap-3" "ns-c" false).2.2.2 boundBetaStore).1
      "ns-b" "snap-2" _ rfl,
   ((Clone_only_adds 0 "u5" "snap-2" "ns-b" "snap-3" "ns-c" false).2.2.2 boundBetaStore).2.1
      "snap-2-content-u1" _ rfl⟩

/-! ## C21 -/

/-- C21 (the code departs from it): in both backends, when the source passes Clone's checks,
the target is not found and GetSource fails with an error `e`, Clone returns the fixed error
"Failed to get source", whatever `e` says: the text of the GetSource error, which names the
failing snapshot or content, is not carried to Clone's caller. -/
theorem Clone_drops_GetSource_error {σ τ : Type} (ctx : Nat) (uuid : String)
    (name ns cloneName cloneNamespace : String) (waitForReady : Bool) :
    (∀ (snapCli : AlphaClient σ) (s : σ) (snap : v1alpha1.VolumeSnapshot) (err e : GoError),
      snapshotAlpha.Get snapCli s name ns = .ok snap →
      snap.Status.ReadyToUse = true →
      snap.Spec.SnapshotContentName ≠ "" →
      snapshotAlpha.Get snapCli s cloneName cloneNamespace = .error err →
      IsNotFound (some err) = true →
      snapshotAlpha.GetSource snapCli s name ns = .ret (.error e) →
      snapshotAlpha.Clone ctx uuid snapCli s name ns cloneName cloneNamespace waitForReady
        = (s, .ret (some (.text "Failed to get source")))) ∧
    (∀ (snapCli : BetaClient τ) (s : τ) (snap : v1beta1.VolumeSnapshot)
        (status : v1beta1.VolumeSnapshotStatus) (contentName : String) (err e : GoError),
      snapshotBeta.Get snapCli s name ns = .ok snap →
      snap.Status = some status →
      status.ReadyToUse = some true →
      snap.Spec.Source.VolumeSnapshotContentName = some contentName →
      contentName ≠ "" →
      snapshotBeta.Get snapCli s cloneName cloneNamespace = .error err →
      IsNotFound (some err) = true →
      snapshotBeta.GetSource snapCli s name ns = .ret (.error e) →
      snapshotBeta.Clone ctx uuid snapCli s name ns cloneName cloneNamespace waitForReady
        = (s, .ret (some (.text "Failed to get source")))) := by
  constructor
  · intro snapCli s snap err e hget hready hbound htarget hnf hsrc
    simp [snapshotAlpha.Clone, hget, hready, hbound, htarget, hnf, hsrc]
  · intro snapCli s snap status contentName err e hget hstatus hready hbound hnonempty htarget
      hnf hsrc
    simp [snapshotBeta.Clone, hget, hstatus, hready, hbound, hnonempty, htarget, hnf, hsrc]

/-- Witness of C21: the Contents of the ready, bound snapshots ns-a/snap-1 (legacy) and
ns-b/snap-2 (current generation) are gone; GetSource reports which Content is missing, Clone
to ns-c/snap-3 reports "Failed to get source", a message that mentions neither the Content
nor the GetSource text "not found". -/
theorem Clone_drops_GetSource_error_witness :
    (snapshotAlpha.GetSource (Store.client id) danglingAlphaStore "snap-1" "ns-a"
      = .ret (.error (.text ("Failed to get snapshot content, VolumeSnapshot: snap-1, "
          ++ "VolumeSnapshotContent: snapcontent-1, "
          ++ "Error: volumesnapshotcontents snapcontent-1 not found"))) ∧
     snapshotAlpha.Clone 3 "u3" (Store.client id) danglingAlphaStore "snap-1" "ns-a"
        "snap-3" "ns-c" true
      = (danglingAlphaStore, .ret (some (.text "Failed to get source")))) ∧
    (snapshotBeta.GetSource (Store.client id) danglingBetaStore "snap-2" "ns-b"
      = .ret (.error (.text ("Failed to get snapshot content, VolumeSnapshot: snap-2, "
          ++ "VolumeSnapshotContent: snap-2-content-u1, "
          ++ "Error: volumesnapshotcontents snap-2-content-u1 not found"))) ∧
     snapshotBeta.Clone 3 "u3" (Store.client id) danglingBetaStore "snap-2" "ns-b"
        "snap-3" "ns-c" true
      = (danglingBetaStore, .ret (some (.text "Failed to get source")))) ∧
    (GoError.text "Failed to get source").mentions "snapcontent-1" = false ∧
    (GoError.text "Failed to get source").mentions "snap-2-content-u1" = false ∧
    (GoError.text "Failed to get source").mentions "not found" = false :=
  ⟨⟨by decide,
    (@Clone_drops_GetSource_error AlphaStore BetaStore 3 "u3" "snap-1" "ns-a" "snap-3" "ns-c"
      true).1 (Store.client id) danglingAlphaStore _ _ _ rfl (by decide) (by decide) rfl
      (by decide) rfl⟩,
   ⟨by decide,
    (@Clone_drops_GetSource_error AlphaStore BetaStore 3 "u3" "snap-2" "ns-b" "snap-3" "ns-c"
      true).2 (Store.client id) danglingBetaStore _ _ _ _ _ rfl rfl (by decide) rfl (by decide)
      rfl (by decide) rfl⟩,
   by decide, by decide, by decide⟩
/-! ## C22 -/

/-- C22: in both backends, whenever the class listing succeeds with at least one class and no
listed class maps the given key to the value "true" (a class carrying the key with another
value, or lacking the key, does not count), GetVolumeSnapshotClass returns the empty name with
the non-nil error "Failed to find VolumesnapshotClass with K10 annotation in the cluster". -/
theorem GetVolumeSnapshotClass_none_annotated {σ τ : Type} ( annotation : String) :
    (∀ (snapCli : AlphaClient σ) (s : σ) (items : List v1alpha1.VolumeSnapshotClass),
      snapCli.listClasses s = .ok items → items ≠ [] →
      (∀ k ∈ items, k.ObjectMeta.Annotations.lookup annotation ≠ some "true") →
      snapshotAlpha.GetVolumeSnapshotClass annotation snapCli s
        = ("", some (.text
            "Failed to find VolumesnapshotClass with K10 annotation in the cluster"))) ∧
    (∀ (snapCli : BetaClient τ) (s : τ) (items : List v1beta1.VolumeSnapshotClass),
      snapCli.listClasses s = .ok items → items ≠ [] →
      (∀ k ∈ items, k.ObjectMeta.Annotations.lookup annotation ≠ some "true") →
      snapshotBeta.GetVolumeSnapshotClass annotation snapCli s
        = ("", some (.text
            "Failed to find VolumesnapshotClass with K10 annotation in the cluster"))) := by
  constructor
  · intro snapCli s items hlist hne hnone
    have hlen : items.length ≠ 0 := fun h => hne (List.length_eq_zero.mp h)
    simp [snapshotAlpha.GetVolumeSnapshotClass, hlist, hlen,
      alpha_firstAnnotated_none annotation items hnone]
  · intro snapCli s items hlist hne hnone
    have hlen : items.length ≠ 0 := fun h => hne (List.length_eq_zero.mp h)
    simp [snapshotBeta.GetVolumeSnapshotClass, hlist, hlen,
      beta_firstAnnotated_none annotation items hnone]

/-- Witness of C22: the listings of `unannotatedAlphaStore` and `unannotatedBetaStore` hold
two classes, one with `backup-tool: "false"`, one with another key; the lookup for
`backup-tool` fails in both backends. -/
theorem GetVolumeSnapshotClass_none_annotated_witness :
    unannotatedAlphaStore.classes.length = 2 ∧
    snapshotAlpha.GetVolumeSnapshotClass "backup-tool" (Store.client id) unannotatedAlphaStore
      = ("", some (.text
          "Failed to find VolumesnapshotClass with K10 annotation in the cluster")) ∧
    unannotatedBetaStore.classes.length = 2 ∧
    snapshotBeta.GetVolumeSnapshotClass "backup-tool" (Store.client id) unannotatedBetaStore
      = ("", some (.text
          "Failed to find VolumesnapshotClass with K10 annotation in the cluster")) :=
  ⟨rfl,
   (@GetVolumeSnapshotClass_none_annotated AlphaStore BetaStore "backup-tool").1
     (Store.client id) unannotatedAlphaStore unannotatedAlphaStore.classes rfl (by decide)
     (by decide),
   rfl,
   (@GetVolumeSnapshotClass_none_annotated AlphaStore BetaStore "backup-tool").2
     (Store.client id) unannotatedBetaStore unannotatedBetaStore.classes rfl (by decide)
     (by decide)⟩

/-! ## C23 -/

/-- C23: in both backends, for every class listing in which some class maps the given key to
"true", GetVolumeSnapshotClass returns, with a nil error, the name of the first such class in
listing order: the listing is `pre ++ k :: post` where no class of `pre` matches and `k`
does, and the result is the name of `k` whatever `post` holds. -/
theorem GetVolumeSnapshotClass_first_match {σ τ : Type} ( annotation : String) :
    (∀ (snapCli : AlphaClient σ) (s : σ) (pre post : List v1alpha1.VolumeSnapshotClass)
        (k : v1alpha1.VolumeSnapshotClass),
      snapCli.listClasses s = .ok (pre ++ k :: post) →
      (∀ x ∈ pre, x.ObjectMeta.Annotations.lookup annotation ≠ some "true") →
      k.ObjectMeta.Annotations.lookup annotation = some "true" →
      snapshotAlpha.GetVolumeSnapshotClass annotation snapCli s = (k.ObjectMeta.Name, none)) ∧
    (∀ (snapCli : BetaClient τ) (s : τ) (pre post : List v1beta1.VolumeSnapshotClass)
        (k : v1beta1.VolumeSnapshotClass),
      snapCli.listClasses s = .ok (pre ++ k :: post) →
      (∀ x ∈ pre, x.ObjectMeta.Annotations.lookup annotation ≠ some "true") →
      k.ObjectMeta.Annotations.lookup annotation = some "true" →
      snapshotBeta.GetVolumeSnapshotClass annotation snapCli s = (k.ObjectMeta.Name, none)) := by
  constructor
  · intro snapCli s pre post k hlist hpre hk
    simp [snapshotAlpha.GetVolumeSnapshotClass, hlist,
      alpha_firstAnnotated_first annotation pre post k hpre hk]
  · intro snapCli s pre post k hlist hpre hk
    simp [snapshotBeta.GetVolumeSnapshotClass, hlist,
      beta_firstAnnotated_first annotation pre post k hpre hk]

/-- Witness of C23: in the listings of `multiClassAlphaStore` and `multiClassBetaStore`
(class-a with "false", then class-b and class-c both with "true") the result is class-b. -/
theorem GetVolumeSnapshotClass_first_match_witness :
    snapshotAlpha.GetVolumeSnapshotClass "backup-tool" (Store.client id) multiClassAlphaStore
      = ("class-b", none) ∧
    snapshotBeta.GetVolumeSnapshotClass "backup-tool" (Store.client id) multiClassBetaStore
      = ("class-b", none) :=
  ⟨(@GetVolumeSnapshotClass_first_match AlphaStore BetaStore "backup-tool").1
     (Store.client id) multiClassAlphaStore
     [{ ObjectMeta := { Name := "class-a", Annotations := [("backup-tool", "false")] },
        Snapshotter := "drv", DeletionPolicy := some "Delete" }]
     [{ ObjectMeta := { Name := "class-c", Annotations := [("backup-tool", "true")] },
        Snapshotter := "drv", DeletionPolicy := some "Retain" }]
     { ObjectMeta := { Name := "class-b", Annotations := [("backup-tool", "true")] },
       Snapshotter := "drv", DeletionPolicy := some "Delete" }
     rfl (by decide) (by decide),
   (@GetVolumeSnapshotClass_first_match AlphaStore BetaStore "backup-tool").2
     (Store.client id) multiClassBetaStore
     [{ ObjectMeta := { Name := "class-a", Annotations := [("backup-tool", "false")] },
        Driver := "drv", DeletionPolicy := "Delete" }]
     [{ ObjectMeta := { Name := "class-c", Annotations := [("backup-tool", "true")] },
        Driver := "drv", DeletionPolicy := "Retain" }]
     { ObjectMeta := { Name := "class-b", Annotations := [("backup-tool", "true")] },
       Driver := "drv", DeletionPolicy := "Delete" }
     rfl (by decide) (by decide)⟩
/-! ## C24 -/

/-- C24 as stated fails: Clone never reads the status error of the source. For the failed
legacy snapshot ns-a/snap-1 and the failed current-generation snapshot ns-b/snap-2 (status
error "quota exceeded", ready flag false), Clone with waitForReady=true fails with the
precondition error "Original snapshot is not ready", whose message does not contain "quota
exceeded"; for the legacy snapshot ns-a/snap-1 that is bound and marked ready and whose status
reports "quota exceeded", Clone with waitForReady=true does not fail at all. -/
theorem C24_Clone_does_not_surface_status_error :
    ((snapshotAlpha.Get (Store.client markAllReady) failedAlphaStore "snap-1" "ns-a").map
        (fun snap => snap.Status.Error) = .ok (some { Message := "quota exceeded" }) ∧
     snapshotAlpha.Clone 3 "u3" (Store.client markAllReady) failedAlphaStore "snap-1" "ns-a"
        "snap-3" "ns-c" true
      = (failedAlphaStore, .ret (some (.text
          "Original snapshot is not ready, VolumeSnapshot: snap-3, Namespace: ns-c")))) ∧
    ((snapshotBeta.Get (Store.client id) failedBetaStore "snap-2" "ns-b").map
        (fun snap => snap.Status.bind (fun status => status.Error))
      = .ok (some { Message := some "quota exceeded" }) ∧
     snapshotBeta.Clone 3 "u3" (Store.client id) failedBetaStore "snap-2" "ns-b"
        "snap-3" "ns-c" true
      = (failedBetaStore, .ret (some (.text
          "Original snapshot is not ready, VolumeSnapshot: snap-3, Namespace: ns-c")))) ∧
    GoError.mentions
        (.text "Original snapshot is not ready, VolumeSnapshot: snap-3, Namespace: ns-c")
        "quota exceeded" = false ∧
    ((snapshotAlpha.Get (Store.client markAllReady) quotaBoundAlphaStore "snap-1" "ns-a").map
        (fun snap => snap.Status.Error) = .ok (some { Message := "quota exceeded" }) ∧
     (snapshotAlpha.Clone 3 "u3" (Store.client markAllReady) quotaBoundAlphaStore "snap-1" "ns-a"
        "snap-3" "ns-c" true).2 = .ret none) := by
  decide

/-- C24, amended: in both backends, for every source snapshot whose status carries a platform
error (with whatever message) and whose ready flag is not true, Clone, with either value of
waitForReady, fails with the precondition error "Original snapshot is not ready,
VolumeSnapshot: <cloneName>, Namespace: <cloneNamespace>" and leaves the state as it was: the
error names the clone's target and is the same for every message of the status error. -/
theorem Clone_of_failed_source {σ τ : Type} (ctx : Nat) (uuid : String)
    (name ns cloneName cloneNamespace : String) (waitForReady : Bool) :
    (∀ (snapCli : AlphaClient σ) (s : σ) (snap : v1alpha1.VolumeSnapshot)
        (e : v1alpha1.VolumeError),
      snapshotAlpha.Get snapCli s name ns = .ok snap →
      snap.Status.Error = some e →
      snap.Status.ReadyToUse = false →
      snapshotAlpha.Clone ctx uuid snapCli s name ns cloneName cloneNamespace waitForReady
        = (s, .ret (some (.text ("Original snapshot is not ready, VolumeSnapshot: " ++ cloneName
            ++ ", Namespace: " ++ cloneNamespace))))) ∧
    (∀ (snapCli : BetaClient τ) (s : τ) (snap : v1beta1.VolumeSnapshot)
        (status : v1beta1.VolumeSnapshotStatus) (e : v1beta1.VolumeSnapshotError),
      snapshotBeta.Get snapCli s name ns = .ok snap →
      snap.Status = some status →
      status.Error = some e →
      status.ReadyToUse ≠ some true →
      snapshotBeta.Clone ctx uuid snapCli s name ns cloneName cloneNamespace waitForReady
        = (s, .ret (some (.text ("Original snapshot is not ready, VolumeSnapshot: " ++ cloneName
            ++ ", Namespace: " ++ cloneNamespace))))) := by
  constructor
  · intro snapCli s snap e hget _ hready
    exact alpha_Clone_source_not_ready ctx uuid snapCli s name ns cloneName cloneNamespace
      waitForReady snap hget hready
  · intro snapCli s snap status e hget hstatus _ hready
    refine beta_Clone_source_not_ready ctx uuid snapCli s name ns cloneName cloneNamespace
      waitForReady snap status hget hstatus ?_
    cases hr : status.ReadyToUse with
    | none => exact Or.inl rfl
    | some b =>
      cases b with
      | false => exact Or.inr rfl
      | true => exact absurd hr hready

/-- Witness of C24 (amended): the failed snapshots of `failedAlphaStore` and
`failedBetaStore`, cloned to ns-c/snap-3 with waitForReady=true. -/
theorem Clone_of_failed_source_witness :
    snapshotAlpha.Clone 3 "u3" (Store.client markAllReady) failedAlphaStore "snap-1" "ns-a"
        "snap-3" "ns-c" true
      = (failedAlphaStore, .ret (some (.text ("Original snapshot is not ready, VolumeSnapshot: "
          ++ "snap-3" ++ ", Namespace: " ++ "ns-c")))) ∧
    snapshotBeta.Clone 3 "u3" (Store.client id) failedBetaStore "snap-2" "ns-b"
        "snap-3" "ns-c" true
      = (failedBetaStore, .ret (some (.text ("Original snapshot is not ready, VolumeSnapshot: "
          ++ "snap-3" ++ ", Namespace: " ++ "ns-c")))) :=
  ⟨(@Clone_of_failed_source AlphaStore BetaStore 3 "u3" "snap-1" "ns-a" "snap-3" "ns-c" true).1
     (Store.client markAllReady) failedAlphaStore _ { Message := "quota exceeded" } rfl
     (by decide) (by decide),
   (@Clone_of_failed_source AlphaStore BetaStore 3 "u3" "snap-2" "ns-b" "snap-3" "ns-c" true).2
     (Store.client id) failedBetaStore _ _ { Message := some "quota exceeded" } rfl rfl
     (by decide) (by decide)⟩
/-! ## C25 -/

/-- C25: in both backends, over the store (whatever the client answers to reads, and for
every platform that does not itself remove the snapshot), when the claim is found, the
identity is free, so that the submission succeeds, and the wait on the submitted snapshot
ends with an error, Create with waitForReady=true returns exactly that error, in the state the
wait ended in, and the submitted snapshot is still in the store: Create makes no call that
removes it. -/
theorem Create_wait_failure_keeps_snapshot (ctx : Nat) (name ns volumeName : String)
    (snapshotClass : Option String) :
    (∀ (kubeCli : KubeClient AlphaStore) (snapCli : AlphaClient AlphaStore)
        (st s2 : AlphaStore) (err : GoError),
      snapCli.createSnapshot = Store.createSnapshot →
      (∀ x : AlphaStore, x.snapshots.any (Store.hasKey ns name) = true →
        (snapCli.elapse x).snapshots.any (Store.hasKey ns name) = true) →
      kubeCli.getPVC st ns volumeName = none →
      st.snapshots.any (Store.hasKey ns name) = false →
      snapshotAlpha.WaitOnReadyToUse ctx snapCli
          { st with snapshots := st.snapshots ++
              [{ ObjectMeta := { Name := name, Namespace := ns },
                 Spec := { Source := some { Kind := pvcKind, Name := volumeName },
                           VolumeSnapshotClassName := snapshotClass } }] } name ns
        = (s2, .ret (some err)) →
      snapshotAlpha.Create ctx kubeCli snapCli st name ns volumeName snapshotClass true
        = (s2, .ret (some err)) ∧
      s2.snapshots.any (Store.hasKey ns name) = true) ∧
    (∀ (kubeCli : KubeClient BetaStore) (snapCli : BetaClient BetaStore)
        (st s2 : BetaStore) (err : GoError),
      snapCli.createSnapshot = Store.createSnapshot →
      (∀ x : BetaStore, x.snapshots.any (Store.hasKey ns name) = true →
        (snapCli.elapse x).snapshots.any (Store.hasKey ns name) = true) →
      kubeCli.getPVC st ns volumeName = none →
      st.snapshots.any (Store.hasKey ns name) = false →
      snapshotBeta.WaitOnReadyToUse ctx snapCli
          { st with snapshots := st.snapshots ++
              [{ ObjectMeta := { Name := name, Namespace := ns },
                 Spec := { Source := { PersistentVolumeClaimName := some volumeName },
                           VolumeSnapshotClassName := snapshotClass } }] } name ns
        = (s2, .ret (some err)) →
      snapshotBeta.Create ctx kubeCli snapCli st name ns volumeName snapshotClass true
        = (s2, .ret (some err)) ∧
      s2.snapshots.any (Store.hasKey ns name) = true) := by
  constructor
  · intro kubeCli snapCli st s2 err hcreate hkeeps hpvc hfree hwait
    constructor
    · unfold snapshotAlpha.Create
      simp only [hpvc, hcreate]
      rw [alpha_createSnapshot_named_of_absent st ns _ rfl hfree]
      simp [hwait]
    · obtain ⟨i, hi⟩ := pollWait_state snapCli.elapse
        (snapshotAlpha.waitCondition snapCli name ns) ctx
        { st with snapshots := st.snapshots ++
            [{ ObjectMeta := { Name := name, Namespace := ns },
               Spec := { Source := some { Kind := pvcKind, Name := volumeName },
                         VolumeSnapshotClassName := snapshotClass } }] }
      have hs2 : s2 = (snapCli.elapse)^[i]
          { st with snapshots := st.snapshots ++
              [{ ObjectMeta := { Name := name, Namespace := ns },
                 Spec := { Source := some { Kind := pvcKind, Name := volumeName },
                           VolumeSnapshotClassName := snapshotClass } }] } := by
        rw [← hi]
        unfold snapshotAlpha.WaitOnReadyToUse at hwait
        rw [hwait]
      rw [hs2]
      refine Store.iterate_keeps_snapshot snapCli.elapse ns name hkeeps i _ ?_
      simp [Store.hasKey, KubeObject.objectMeta]
  · intro kubeCli snapCli st s2 err hcreate hkeeps hpvc hfree hwait
    constructor
    · unfold snapshotBeta.Create
      simp only [hpvc, hcreate]
      rw [beta_createSnapshot_named_of_absent st ns _ rfl hfree]
      simp [hwait]
    · obtain ⟨i, hi⟩ := pollWait_state snapCli.elapse
        (snapshotBeta.waitCondition snapCli name ns) ctx
        { st with snapshots := st.snapshots ++
            [{ ObjectMeta := { Name := name, Namespace := ns },
               Spec := { Source := { PersistentVolumeClaimName := some volumeName },
                         VolumeSnapshotClassName := snapshotClass } }] }
      have hs2 : s2 = (snapCli.elapse)^[i]
          { st with snapshots := st.snapshots ++
              [{ ObjectMeta := { Name := name, Namespace := ns },
                 Spec := { Source := { PersistentVolumeClaimName := some volumeName },
                           VolumeSnapshotClassName := snapshotClass } }] } := by
        rw [← hi]
        unfold snapshotBeta.WaitOnReadyToUse at hwait
        rw [hwait]
      rw [hs2]
      refine Store.iterate_keeps_snapshot snapCli.elapse ns name hkeeps i _ ?_
      simp [Store.hasKey, KubeObject.objectMeta]

/-- Witness of C25: Create of snap-1 from pvc-1 with waitForReady=true. Legacy, on a platform
that fails every snapshot: the wait ends with the status error "quota exceeded"; legacy, on a
platform that never marks the snapshot ready: the wait ends with the context's error; current
generation, in a namespace whose reads are refused: the wait ends with the fetch error. Each
time Create returns that error and the snapshot is in the final store. -/
theorem Create_wait_failure_keeps_snapshot_witness :
    (snapshotAlpha.Create 3 Store.kubeClient (Store.client failAll) alphaClaimStore "snap-1"
        "ns-a" "pvc-1" (some "csi-class") true
      = (failAll pendingAlphaStore, .ret (some (.text "quota exceeded"))) ∧
     (failAll pendingAlphaStore).snapshots.any (Store.hasKey "ns-a" "snap-1") = true) ∧
    (snapshotAlpha.Create 3 Store.kubeClient (Store.client id) alphaClaimStore "snap-1"
        "ns-a" "pvc-1" (some "csi-class") true
      = (pendingAlphaStore, .ret (some ctxErr)) ∧
     pendingAlphaStore.snapshots.any (Store.hasKey "ns-a" "snap-1") = true) ∧
    (snapshotBeta.Create 3 Store.kubeClient forbiddenNamespaceBetaClient claimStoreX "snap-1"
        "ns-x" "pvc-1" (some "csi-class") true
      = ((snapshotBeta.Create 3 Store.kubeClient forbiddenNamespaceBetaClient claimStoreX
            "snap-1" "ns-x" "pvc-1" (some "csi-class") false).1,
          .ret (some (.status "Forbidden" "forbidden"))) ∧
     (snapshotBeta.Create 3 Store.kubeClient forbiddenNamespaceBetaClient claimStoreX
        "snap-1" "ns-x" "pvc-1" (some "csi-class") false).1.snapshots.any
          (Store.hasKey "ns-x" "snap-1") = true) :=
  ⟨(Create_wait_failure_keeps_snapshot 3 "snap-1" "ns-a" "pvc-1" (some "csi-class")).1
     Store.kubeClient (Store.client failAll) alphaClaimStore (failAll pendingAlphaStore)
     (.text "quota exceeded") rfl (failAll_keeps "ns-a" "snap-1") (by decide) (by decide)
     (by decide),
   (Create_wait_failure_keeps_snapshot 3 "snap-1" "ns-a" "pvc-1" (some "csi-class")).1
     Store.kubeClient (Store.client id) alphaClaimStore pendingAlphaStore ctxErr rfl
     (fun _ h => h) (by decide) (by decide) (by decide),
   (Create_wait_failure_keeps_snapshot 3 "snap-1" "ns-x" "pvc-1" (some "csi-class")).2
     Store.kubeClient forbiddenNamespaceBetaClient claimStoreX
     (snapshotBeta.Create 3 Store.kubeClient forbiddenNamespaceBetaClient claimStoreX
        "snap-1" "ns-x" "pvc-1" (some "csi-class") false).1
     (.status "Forbidden" "forbidden") rfl (fun _ h => h) (by decide) (by decide)
     (by decide)⟩
/-! ## C26 -/

/-- C26 (the code departs from it): in the current-generation backend, a poll that fetches a
snapshot with no status does not report "not done": it dereferences the absent status, and
the wait ends at once with that fault, in the state it started in, whatever the context
allows. -/
theorem WaitOnReadyToUse_of_pending_beta_snapshot_faults {σ : Type} (ctx : Nat)
    (snapCli : BetaClient σ) (s : σ) (snapshotName ns : String) (snap : v1beta1.VolumeSnapshot)
    (hget : snapCli.getSnapshot s ns snapshotName = .ok snap)
    (hstatus : snap.Status = none) :
    snapshotBeta.waitCondition snapCli snapshotName ns s = .nilDeref ∧
    snapshotBeta.waitCondition snapCli snapshotName ns s ≠ .ret (false, none) ∧
    snapshotBeta.WaitOnReadyToUse ctx snapCli s snapshotName ns = (s, .nilDeref) := by
  have hcond : snapshotBeta.waitCondition snapCli snapshotName ns s = .nilDeref := by
    simp [snapshotBeta.waitCondition, hget, hstatus]
  refine ⟨hcond, ?_, ?_⟩
  · rw [hcond]
    exact fun h => Res.noConfusion h
  · exact pollWait_of_fault snapCli.elapse _ ctx s hcond

/-- Witness of C26: the snapshot ns-a/snap-1 as Create has just submitted it
(`pendingBetaStore`); the wait on it faults at its first poll. -/
theorem WaitOnReadyToUse_of_pending_beta_snapshot_faults_witness :
    (snapshotBeta.Get (Store.client id) pendingBetaStore "snap-1" "ns-a").map
        (fun snap => snap.Status) = .ok none ∧
    snapshotBeta.WaitOnReadyToUse 3 (Store.client id) pendingBetaStore "snap-1" "ns-a"
      = (pendingBetaStore, .nilDeref) :=
  ⟨by decide,
   (WaitOnReadyToUse_of_pending_beta_snapshot_faults 3 (Store.client id) pendingBetaStore
     "snap-1" "ns-a" _ rfl (by decide)).2.2⟩
/-! ## C27 -/

/-- C27 as stated fails: Clone checks the ready flag only. The legacy snapshot ns-a/snap-1 of
`flaggedAlphaStore` and the current-generation snapshot ns-b/snap-2 of `flaggedBetaStore` have
the ready flag true and no creation timestamp, so a poll of WaitOnReadyToUse is not satisfied
by them; Clone of them to ns-c/snap-3 succeeds and creates the clone. -/
theorem C27_Clone_of_flagged_source_without_timestamp :
    ((snapshotAlpha.Get (Store.client id) flaggedAlphaStore "snap-1" "ns-a").map
        (fun snap => (snap.Status.ReadyToUse, snap.Status.CreationTime)) = .ok (true, none) ∧
     snapshotAlpha.waitCondition (Store.client id) "snap-1" "ns-a" flaggedAlphaStore
      = .ret (false, none) ∧
     (snapshotAlpha.Clone 3 "u3" (Store.client id) flaggedAlphaStore "snap-1" "ns-a"
        "snap-3" "ns-c" false).2 = .ret none ∧
     ((snapshotAlpha.Clone 3 "u3" (Store.client id) flaggedAlphaStore "snap-1" "ns-a"
        "snap-3" "ns-c" false).1.snapshots.any (Store.hasKey "ns-c" "snap-3")) = true) ∧
    ((snapshotBeta.Get (Store.client id) flaggedBetaStore "snap-2" "ns-b").map
        (fun snap => snap.Status.map (fun status => (status.ReadyToUse, status.CreationTime)))
      = .ok (some (some true, none)) ∧
     snapshotBeta.waitCondition (Store.client id) "snap-2" "ns-b" flaggedBetaStore
      = .ret (false, none) ∧
     (snapshotBeta.Clone 3 "u3" (Store.client id) flaggedBetaStore "snap-2" "ns-b"
        "snap-3" "ns-c" false).2 = .ret none ∧
     ((snapshotBeta.Clone 3 "u3" (Store.client id) flaggedBetaStore "snap-2" "ns-b"
        "snap-3" "ns-c" false).1.snapshots.any (Store.hasKey "ns-c" "snap-3")) = true) := by
  decide

/-- C27, amended: Clone's readiness precondition is the ready flag alone. In both backends,
for every source snapshot whose ready flag is true and whose creation timestamp is absent,
Clone does not stop at the "not ready" check: it goes on as for any source whose flag is
true. When the source's spec names no Content it fails with "Original snapshot does not have
content"; when it names one, the target is not found and GetSource extracts a Source, Clone
is CreateFromSource of that Source at the target. -/
theorem Clone_readiness_is_the_ready_flag {σ τ : Type} (ctx : Nat) (uuid : String)
    (name ns cloneName cloneNamespace : String) (waitForReady : Bool) :
    (∀ (snapCli : AlphaClient σ) (s : σ) (snap : v1alpha1.VolumeSnapshot),
      snapshotAlpha.Get snapCli s name ns = .ok snap →
      snap.Status.ReadyToUse = true →
      snap.Status.CreationTime = none →
      (snap.Spec.SnapshotContentName = "" →
        snapshotAlpha.Clone ctx uuid snapCli s name ns cloneName cloneNamespace waitForReady
          = (s, .ret (some (.text ("Original snapshot does not have content, VolumeSnapshot: "
              ++ cloneName ++ ", Namespace: " ++ cloneNamespace))))) ∧
      (∀ (err : GoError) (src : Source),
        snap.Spec.SnapshotContentName ≠ "" →
        snapshotAlpha.Get snapCli s cloneName cloneNamespace = .error err →
        IsNotFound (some err) = true →
        snapshotAlpha.GetSource snapCli s name ns = .ret (.ok src) →
        snapshotAlpha.Clone ctx uuid snapCli s name ns cloneName cloneNamespace waitForReady
          = snapshotAlpha.CreateFromSource ctx uuid snapCli s src cloneName cloneNamespace
              waitForReady)) ∧
    (∀ (snapCli : BetaClient τ) (s : τ) (snap : v1beta1.VolumeSnapshot)
        (status : v1beta1.VolumeSnapshotStatus),
      snapshotBeta.Get snapCli s name ns = .ok snap →
      snap.Status = some status →
      status.ReadyToUse = some true →
      status.CreationTime = none →
      ((snap.Spec.Source.VolumeSnapshotContentName = none
          ∨ snap.Spec.Source.VolumeSnapshotContentName = some "") →
        snapshotBeta.Clone ctx uuid snapCli s name ns cloneName cloneNamespace waitForReady
          = (s, .ret (some (.text ("Original snapshot does not have content, VolumeSnapshot: "
              ++ cloneName ++ ", Namespace: " ++ cloneNamespace))))) ∧
      (∀ (contentName : String) (err : GoError) (src : Source),
        snap.Spec.Source.VolumeSnapshotContentName = some contentName →
        contentName ≠ "" →
        snapshotBeta.Get snapCli s cloneName cloneNamespace = .error err →
        IsNotFound (some err) = true →
        snapshotBeta.GetSource snapCli s name ns = .ret (.ok src) →
        snapshotBeta.Clone ctx uuid snapCli s name ns cloneName cloneNamespace waitForReady
          = snapshotBeta.CreateFromSource ctx uuid snapCli s src cloneName cloneNamespace
              waitForReady)) := by
  constructor
  · intro snapCli s snap hget hready _
    constructor
    · intro hcontent
      exact alpha_Clone_source_without_content ctx uuid snapCli s name ns cloneName
        cloneNamespace waitForReady snap hget hready hcontent
    · intro err src hbound htarget hnf hsrc
      exact alpha_Clone_delegates ctx uuid snapCli s name ns cloneName cloneNamespace
        waitForReady snap err src hget hready hbound htarget hnf hsrc
  · intro snapCli s snap status hget hstatus hready _
    constructor
    · intro hcontent
      exact beta_Clone_source_without_content ctx uuid snapCli s name ns cloneName
        cloneNamespace waitForReady snap status hget hstatus hready hcontent
    · intro contentName err src hbound hnonempty htarget hnf hsrc
      exact beta_Clone_delegates ctx uuid snapCli s name ns cloneName cloneNamespace
        contentName waitForReady snap status err src hget hstatus hready hbound hnonempty
        htarget hnf hsrc

/-- Witness of C27 (amended): the flagged snapshots of `flaggedAlphaStore` and
`flaggedBetaStore`, cloned to ns-c/snap-3: Clone is CreateFromSource of their Source. -/
theorem Clone_readiness_is_the_ready_flag_witness :
    snapshotAlpha.Clone 3 "u3" (Store.client id) flaggedAlphaStore "snap-1" "ns-a"
        "snap-3" "ns-c" false
      = snapshotAlpha.CreateFromSource 3 "u3" (Store.client id) flaggedAlphaStore
          alphaExampleSource "snap-3" "ns-c" false ∧
    snapshotBeta.Clone 3 "u3" (Store.client id) flaggedBetaStore "snap-2" "ns-b"
        "snap-3" "ns-c" false
      = snapshotBeta.CreateFromSource 3 "u3" (Store.client id) flaggedBetaStore
          exampleSource "snap-3" "ns-c" false :=
  ⟨((@Clone_readiness_is_the_ready_flag AlphaStore BetaStore 3 "u3" "snap-1" "ns-a" "snap-3"
      "ns-c" false).1 (Store.client id) flaggedAlphaStore _ rfl (by decide) (by decide)).2
      _ alphaExampleSource (by decide) rfl (by decide) (by decide),
   ((@Clone_readiness_is_the_ready_flag AlphaStore BetaStore 3 "u3" "snap-2" "ns-b" "snap-3"
      "ns-c" false).2 (Store.client id) flaggedBetaStore _ _ rfl rfl (by decide)
      (by decide)).2 "snap-2-content-u1" _ exampleSource (by decide) (by decide) rfl
      (by decide) (by decide)⟩
/-! ## C28 -/

/-- C28: for every pair of corresponding snapshots (the current one has a status; legacy
ready flag `b` against the optional flag holding `b`, the same optional creation timestamp,
legacy error message `m` against a current error holding `m`), one poll of the legacy
WaitOnReadyToUse condition and one poll of the current one return the same (done, error)
outcome, and neither faults. -/
theorem waitCondition_backends_agree {σ τ : Type} (alphaCli : AlphaClient σ)
    (betaCli : BetaClient τ) (s : σ) (t : τ) (snapshotName ns : String)
    (legacy : v1alpha1.VolumeSnapshot) (current : v1beta1.VolumeSnapshot)
    (hlegacy : alphaCli.getSnapshot s ns snapshotName = .ok legacy)
    (hcurrent : betaCli.getSnapshot t ns snapshotName = .ok current)
    (hcorr : snapshotCorresponds legacy current) :
    ∃ outcome : Bool × Option GoError,
      snapshotAlpha.waitCondition alphaCli snapshotName ns s = .ret outcome ∧
      snapshotBeta.waitCondition betaCli snapshotName ns t = .ret outcome := by
  obtain ⟨status, hstatus, hready, htime, herror⟩ := hcorr
  unfold snapshotAlpha.waitCondition snapshotBeta.waitCondition
  simp only [hlegacy, hcurrent, hstatus]
  cases hle : legacy.Status.Error with
  | some e =>
    rw [hle] at herror
    cases hce : status.Error with
    | none => simp [hce] at herror
    | some e1 =>
      have hm : e1.Message = some e.Message := by simpa [hce] using herror
      exact ⟨(false, some (.text e.Message)), rfl, by simp [hm]⟩
  | none =>
    rw [hle] at herror
    have hce : status.Error = none := by simpa using herror
    refine ⟨((legacy.Status.ReadyToUse && legacy.Status.CreationTime != none), none), rfl, ?_⟩
    simp only [hce, hready, htime]
    cases legacy.Status.ReadyToUse <;> simp

/-- Witness of C28: three corresponding pairs. A ready pair (ns-a/snap-1 of `boundAlphaStore`
and of `provisionedBetaStore`): both polls report done; a pair with the ready flag true and no
creation timestamp (ns-b/snap-2 of the flagged stores): both report not done; a pair with the
status error "quota exceeded": both report that error. -/
theorem waitCondition_backends_agree_witness :
    (∃ outcome : Bool × Option GoError,
      snapshotAlpha.waitCondition (Store.client id) "snap-1" "ns-a" boundAlphaStore
        = .ret outcome ∧
      snapshotBeta.waitCondition (Store.client id) "snap-1" "ns-a" provisionedBetaStore
        = .ret outcome) ∧
    snapshotBeta.waitCondition (Store.client id) "snap-1" "ns-a" provisionedBetaStore
      = .ret (true, none) ∧
    (∃ outcome : Bool × Option GoError,
      snapshotAlpha.waitCondition (Store.client id) "snap-2" "ns-b" flaggedAlphaStore
        = .ret outcome ∧
      snapshotBeta.waitCondition (Store.client id) "snap-2" "ns-b" flaggedBetaStore
        = .ret outcome) ∧
    snapshotBeta.waitCondition (Store.client id) "snap-2" "ns-b" flaggedBetaStore
      = .ret (false, none) ∧
    (∃ outcome : Bool × Option GoError,
      snapshotAlpha.waitCondition (Store.client id) "snap-1" "ns-a" quotaAlphaStore
        = .ret outcome ∧
      snapshotBeta.waitCondition (Store.client id) "snap-1" "ns-a" quotaBetaStore
        = .ret outcome) ∧
    snapshotBeta.waitCondition (Store.client id) "snap-1" "ns-a" quotaBetaStore
      = .ret (false, some (.text "quota exceeded")) :=
  ⟨waitCondition_backends_agree (Store.client id) (Store.client id) boundAlphaStore
     provisionedBetaStore "snap-1" "ns-a" _ _ rfl rfl ⟨_, rfl, rfl, rfl, rfl⟩,
   by decide,
   waitCondition_backends_agree (Store.client id) (Store.client id) flaggedAlphaStore
     flaggedBetaStore "snap-2" "ns-b" _ _ rfl rfl ⟨_, rfl, rfl, rfl, rfl⟩,
   by decide,
   waitCondition_backends_agree (Store.client id) (Store.client id) quotaAlphaStore
     quotaBetaStore "snap-1" "ns-a" _ _ rfl rfl ⟨_, rfl, rfl, rfl, rfl⟩,
   by decide⟩
/-! ## C29 -/

/-- C29: NewSnapshotter returns a backend exactly when the legacy class listing fails with an
error other than not-found and the current-generation listing then succeeds; the backend is
then the current-generation one, returned with a nil error; in every other case, the failure
to build the dynamic client included, it returns no backend and a non-nil error; it never
returns the legacy backend. -/
theorem NewSnapshotter_backend_iff (dynCli : DynamicClient) (err : GoError) :
    ((∃ backend, (NewSnapshotter (.ok dynCli)).1 = some backend) ↔
      (dynCli.List alphaClassesGVR ≠ none ∧ IsNotFound (dynCli.List alphaClassesGVR) = false ∧
        dynCli.List betaClassesGVR = none)) ∧
    NewSnapshotter (.ok dynCli)
      = (if dynCli.List alphaClassesGVR ≠ none ∧ IsNotFound (dynCli.List alphaClassesGVR) = false
            ∧ dynCli.List betaClassesGVR = none then
          (some .snapshotBeta, none)
        else (none, some (.text "Not supported."))) ∧
    (NewSnapshotter (.ok dynCli)).1 ≠ some .snapshotAlpha ∧
    NewSnapshotter (.error err) = (none, some err) ∧
    (NewSnapshotter (.error err)).1 ≠ some .snapshotAlpha := by
  have hval : NewSnapshotter (.ok dynCli)
      = if (decide (dynCli.List alphaClassesGVR = none)
            || IsNotFound (dynCli.List alphaClassesGVR)) = true then
          (none, some (.text "Not supported."))
        else if dynCli.List betaClassesGVR = none then (some .snapshotBeta, none)
        else (none, some (.text "Not supported.")) := rfl
  refine ⟨?_, ?_, ?_, rfl, by simp [NewSnapshotter]⟩
  · rw [hval]
    by_cases h1 : dynCli.List alphaClassesGVR = none
    · simp [h1]
    · by_cases h2 : IsNotFound (dynCli.List alphaClassesGVR) = true
      · simp [h1, h2]
      · by_cases h3 : dynCli.List betaClassesGVR = none
        · simp [h1, h2, h3]
        · simp [h1, h2, h3]
  · rw [hval]
    by_cases h1 : dynCli.List alphaClassesGVR = none
    · simp [h1]
    · by_cases h2 : IsNotFound (dynCli.List alphaClassesGVR) = true
      · simp [h1, h2]
      · by_cases h3 : dynCli.List betaClassesGVR = none
        · simp [h1, h2, h3]
        · simp [h1, h2, h3]
  · rw [hval]
    by_cases h1 : dynCli.List alphaClassesGVR = none
    · simp [h1]
    · by_cases h2 : IsNotFound (dynCli.List alphaClassesGVR) = true
      · simp [h1, h2]
      · by_cases h3 : dynCli.List betaClassesGVR = none
        · simp [h1, h2, h3]
        · simp [h1, h2, h3]
/-! ## C30 -/

/-- C30 (the code departs from it): Clone in the current-generation backend is not total. It
dereferences an absent value, instead of returning success or an error, (1) when the source
snapshot has no status; (2) when the source passes the checks, the target is not found and the
Content its status names has no status, or a status without a handle; (3) when that Content
has a status and a handle but no class name, so that the extracted Source has no class name
when CreateFromSource reads it. -/
theorem Clone_beta_dereferences_absent_values {σ : Type} (ctx : Nat) (uuid : String)
    (snapCli : BetaClient σ) (s : σ) (name ns cloneName cloneNamespace : String)
    (waitForReady : Bool) (snap : v1beta1.VolumeSnapshot)
    (hget : snapshotBeta.Get snapCli s name ns = .ok snap) :
    (snap.Status = none →
      snapshotBeta.Clone ctx uuid snapCli s name ns cloneName cloneNamespace waitForReady
        = (s, .nilDeref)) ∧
    (∀ (status : v1beta1.VolumeSnapshotStatus) (contentName boundName : String) (err : GoError)
        (cont : v1beta1.VolumeSnapshotContent),
      snap.Status = some status →
      status.ReadyToUse = some true →
      snap.Spec.Source.VolumeSnapshotContentName = some contentName →
      contentName ≠ "" →
      snapshotBeta.Get snapCli s cloneName cloneNamespace = .error err →
      IsNotFound (some err) = true →
      status.BoundVolumeSnapshotContentName = some boundName →
      snapshotBeta.getContent snapCli s boundName = .ok cont →
      ((cont.Status = none ∨
          ∃ contStatus, cont.Status = some contStatus ∧ contStatus.SnapshotHandle = none) →
        snapshotBeta.Clone ctx uuid snapCli s name ns cloneName cloneNamespace waitForReady
          = (s, .nilDeref)) ∧
      (∀ (contStatus : v1beta1.VolumeSnapshotContentStatus) (handle : String),
        cont.Status = some contStatus →
        contStatus.SnapshotHandle = some handle →
        cont.Spec.VolumeSnapshotClassName = none →
        snapshotBeta.GetSource snapCli s name ns
          = .ret (.ok { Handle := handle, Driver := cont.Spec.Driver,
                        RestoreSize := contStatus.RestoreSize,
                        VolumeSnapshotClassName := none }) ∧
        snapshotBeta.Clone ctx uuid snapCli s name ns cloneName cloneNamespace waitForReady
          = (s, .nilDeref))) := by
  constructor
  · intro hstatus
    simp [snapshotBeta.Clone, hget, hstatus]
  · intro status contentName boundName err cont hstatus hready hspec hnonempty htarget hnf
      hbound hcont
    constructor
    · intro h
      have hsrc : snapshotBeta.GetSource snapCli s name ns = .nilDeref := by
        rcases h with h | ⟨contStatus, h1, h2⟩
        · simp [snapshotBeta.GetSource, hget, hstatus, hbound, hcont, h]
        · simp [snapshotBeta.GetSource, hget, hstatus, hbound, hcont, h1, h2]
      simp [snapshotBeta.Clone, hget, hstatus, hready, hspec, hnonempty, htarget, hnf, hsrc]
    · intro contStatus handle h1 h2 hclass
      have hsrc : snapshotBeta.GetSource snapCli s name ns
          = .ret (.ok { Handle := handle, Driver := cont.Spec.Driver,
                        RestoreSize := contStatus.RestoreSize,
                        VolumeSnapshotClassName := none }) := by
        simp [snapshotBeta.GetSource, hget, hstatus, hbound, hcont, h1, h2, hclass]
      refine ⟨hsrc, ?_⟩
      simp [snapshotBeta.Clone, hget, hstatus, hready, hspec, hnonempty, htarget, hnf, hsrc,
        snapshotBeta.CreateFromSource]

/-- Witness of C30: Clone of ns-b/snap-2 to ns-d/snap-4 faults in `importedBetaStore` (the
snapshot has no status yet), in `halfBoundBetaStore` (its Content has no status yet) and in
`classlessBetaStore` (its Content has no class name). -/
theorem Clone_beta_dereferences_absent_values_witness :
    snapshotBeta.Clone 3 "u4" (Store.client id) importedBetaStore "snap-2" "ns-b"
        "snap-4" "ns-d" false = (importedBetaStore, .nilDeref) ∧
    snapshotBeta.Clone 3 "u4" (Store.client id) halfBoundBetaStore "snap-2" "ns-b"
        "snap-4" "ns-d" false = (halfBoundBetaStore, .nilDeref) ∧
    snapshotBeta.Clone 3 "u4" (Store.client id) classlessBetaStore "snap-2" "ns-b"
        "snap-4" "ns-d" false = (classlessBetaStore, .nilDeref) :=
  ⟨(Clone_beta_dereferences_absent_values 3 "u4" (Store.client id) importedBetaStore "snap-2"
      "ns-b" "snap-4" "ns-d" false _ rfl).1 (by decide),
   ((Clone_beta_dereferences_absent_values 3 "u4" (Store.client id) halfBoundBetaStore "snap-2"
      "ns-b" "snap-4" "ns-d" false _ rfl).2 _ "snap-2-content-u1" "snap-2-content-u1" _ _
      rfl (by decide) (by decide) (by decide) rfl (by decide) (by decide) rfl).1
      (Or.inl (by decide)),
   (((Clone_beta_dereferences_absent_values 3 "u4" (Store.client id) classlessBetaStore "snap-2"
      "ns-b" "snap-4" "ns-d" false _ rfl).2 _ "snap-2-content-u1" "snap-2-content-u1" _ _
      rfl (by decide) (by decide) (by decide) rfl (by decide) (by decide) rfl).2
      _ "h-1" rfl (by decide) (by decide)).2⟩

end Kanister
